import Mathlib

/-! Azure client wrappers: `pkg/cloudprovider/providers/azure/azure_client.go`.

The Go file declares twelve wrapper types around generated Azure SDK clients.  Every
wrapper method asks the shared rate limiter for admission, writes a `start` trace
line at verbosity 10, defers the matching `end` line, and returns what the SDK
method of the same name returns.  Every constructor builds the SDK client from the
configuration and stores it next to the configuration's rate limiter.

Go statements become steps of the execution monad `Exec`, which threads the state
of everything outside the file (Azure, the SDK, the limiter, glog's flags) and
collects, in order, the calls the wrapper makes to its collaborators.  Types,
constants and functions that the Go file only imports are parameters (`Vendor`,
`Defaults`, `External`).
-/

/-! ## Imported type declarations -/

/-- Types of the SDK package `arm/compute` named in the file. -/
structure compute.Types where
  InstanceViewTypes : Type
  OperationStatusResponse : Type
  VirtualMachine : Type
  VirtualMachineListResult : Type
  VirtualMachineScaleSet : Type
  VirtualMachineScaleSetListResult : Type
  VirtualMachineScaleSetVM : Type
  VirtualMachineScaleSetVMInstanceRequiredIDs : Type
  VirtualMachineScaleSetVMInstanceView : Type
  VirtualMachineScaleSetVMListResult : Type

/-- Types of the SDK package `arm/disk` named in the file. -/
structure disk.Types where
  Model : Type
  OperationStatusResponse : Type

/-- Types of the SDK package `arm/network` named in the file. -/
structure network.Types where
  Interface : Type
  LoadBalancer : Type
  LoadBalancerListResult : Type
  PublicIPAddress : Type
  PublicIPAddressListResult : Type
  Route : Type
  RouteTable : Type
  SecurityGroup : Type
  SecurityGroupListResult : Type
  Subnet : Type
  SubnetListResult : Type

/-- Types of the SDK package `arm/storage` named in the file. -/
structure storage.Types where
  Account : Type
  AccountCreateParameters : Type
  AccountListKeysResult : Type
  AccountListResult : Type

/-- Types of `go-autorest/autorest` named in the file (`Response`), the authorizers
other than the bearer authorizer, and the fields of `autorest.Client` that the
package never touches. -/
structure autorest.Types where
  Response : Type
  OtherAuthorizer : Type
  ClientRest : Type

/-- The interface type `flowcontrol.RateLimiter`: a value is a reference to a limiter. -/
structure flowcontrol.Types where
  RateLimiter : Type

/-- The pointer type `*adal.ServicePrincipalToken`: a value is the address of a token. -/
structure adal.Types where
  ServicePrincipalToken : Type

/-- Everything the file takes from other packages as a type. `Chan α` is the
receive-only channel type `<-chan α` (a value is a reference to a channel, and
`Chan Unit` is `<-chan struct{}`); `ErrorValue` are the non-nil values of `error`. -/
structure Vendor where
  compute : compute.Types
  network : network.Types
  storage : storage.Types
  disk : disk.Types
  autorest : autorest.Types
  flowcontrol : flowcontrol.Types
  adal : adal.Types
  Chan : Type → Type
  ErrorValue : Type

/-- Go's interface type `error`: `none` is `nil`. -/
abbrev error (T : Vendor) : Type := Option T.ErrorValue

/-- The type `time.Duration`, a count of nanoseconds. -/
abbrev time.Duration : Type := Int

/-- The constant `time.Second`. -/
def time.Second : time.Duration := 1000000000

/-! ## Calls to collaborators and the execution monad -/

/-- The type `glog.Verbose`, a boolean: whether the line is written. -/
structure glog.Verbose where
  enabled : Bool
  deriving DecidableEq

/-- An argument handed to `Infof` (Go passes them as `interface{}`): a string or a
value of one of the SDK types the file logs. -/
inductive LogArg (T : Vendor) where
  | string (s : String)
  | VirtualMachineListResult (v : T.compute.VirtualMachineListResult)
  | LoadBalancerListResult (v : T.network.LoadBalancerListResult)
  | PublicIPAddressListResult (v : T.network.PublicIPAddressListResult)
  | VirtualMachineScaleSetListResult (v : T.compute.VirtualMachineScaleSetListResult)
  | VirtualMachineScaleSetVMInstanceRequiredIDs (v : T.compute.VirtualMachineScaleSetVMInstanceRequiredIDs)
  | VirtualMachineScaleSetVMListResult (v : T.compute.VirtualMachineScaleSetVMListResult)

/-- A call that leaves the file: `Accept` on a rate limiter, `Infof` on a
`glog.Verbose`, or a method of an SDK client (named by client type and method,
with the cancel channel it was given, if it takes one). -/
inductive Event (T : Vendor) where
  | Accept (rateLimiter : T.flowcontrol.RateLimiter)
  | Infof (v : glog.Verbose) (format : String) (args : List (LogArg T))
  | SDKCall (client method : String) (cancel : Option (T.Chan Unit))

/-- Is the event an `Accept` call. -/
def Event.isAccept {T : Vendor} : Event T → Bool
  | .Accept _ => true
  | _ => false

/-- Is the event an `Infof` call. -/
def Event.isInfof {T : Vendor} : Event T → Bool
  | .Infof _ _ _ => true
  | _ => false

/-- Is the event a call of an SDK client method. -/
def Event.isSDKCall {T : Vendor} : Event T → Bool
  | .SDKCall _ _ _ => true
  | _ => false

/-- What running a piece of Go code yields: its value, the state of the outside
world afterwards, and the calls it made, oldest first. -/
structure Outcome (T : Vendor) (σ α : Type) where
  value : α
  ext : σ
  events : List (Event T)

/-- A piece of Go code, run from a state `σ` of the outside world. -/
def Exec (T : Vendor) (σ α : Type) : Type := σ → Outcome T σ α

/-- Code that does nothing and yields `a`. -/
def Exec.pure {T : Vendor} {σ α : Type} (a : α) : Exec T σ α :=
  fun s => ⟨a, s, []⟩

/-- Sequencing: `x`, then `f` on its value, from the state `x` left. -/
def Exec.bind {T : Vendor} {σ α β : Type} (x : Exec T σ α) (f : α → Exec T σ β) : Exec T σ β :=
  fun s =>
    let a := x s
    let b := f a.value a.ext
    ⟨b.value, b.ext, a.events ++ b.events⟩

instance (T : Vendor) (σ : Type) : Monad (Exec T σ) where
  pure := Exec.pure
  bind := Exec.bind

/-- Go's `defer func() { deferred }()` followed by `body` up to its `return`: the
operand of `return` is evaluated, then the deferred function runs, then the
function returns the value `body` produced (the deferred functions of this file
assign no result). -/
def Exec.defer {T : Vendor} {σ α : Type} (deferred : Exec T σ Unit) (body : Exec T σ α) : Exec T σ α :=
  fun s =>
    let r := body s
    let d := deferred r.ext
    ⟨r.value, d.ext, r.events ++ d.events⟩

/-! ## The SDK clients -/

/-- Modelled from the spec: `autorest.Authorizer` is outside the sources. A bearer
authorizer keeps the token provider it was built from; every other authorizer is
left uninterpreted. -/
inductive autorest.Authorizer (T : Vendor) where
  | Bearer (tokenProvider : T.adal.ServicePrincipalToken)
  | Other (a : T.autorest.OtherAuthorizer)

/-- Modelled from the spec: `autorest.NewBearerAuthorizer` is outside the sources; it
builds the bearer authorizer of the given token provider. -/
def autorest.NewBearerAuthorizer {T : Vendor} (tokenProvider : T.adal.ServicePrincipalToken) : autorest.Authorizer T :=
  autorest.Authorizer.Bearer tokenProvider

/-- Modelled from the spec: `autorest.Client` is outside the sources. The fields the
package configures are the authorizer, the polling delay and the user agent. -/
structure autorest.Client (T : Vendor) where
  Authorizer : autorest.Authorizer T
  PollingDelay : time.Duration
  UserAgent : String
  rest : T.autorest.ClientRest

/-- Modelled from the spec: the `ManagementClient` that every generated SDK client
embeds (one per SDK package, all of the same shape): an `autorest.Client`, the
base URI and the subscription ID. Embedding is `extends`, so `c.BaseURI`,
`c.Authorizer` and `c.PollingDelay` are promoted as in Go and `c.toClient` is
`c.Client`. -/
structure ManagementClient (T : Vendor) extends autorest.Client T where
  BaseURI : String
  SubscriptionID : String

/-- The SDK type `compute.VirtualMachinesClient`. -/
structure compute.VirtualMachinesClient (T : Vendor) extends ManagementClient T

/-- The SDK type `network.InterfacesClient`. -/
structure network.InterfacesClient (T : Vendor) extends ManagementClient T

/-- The SDK type `network.LoadBalancersClient`. -/
structure network.LoadBalancersClient (T : Vendor) extends ManagementClient T

/-- The SDK type `network.PublicIPAddressesClient`. -/
structure network.PublicIPAddressesClient (T : Vendor) extends ManagementClient T

/-- The SDK type `network.SubnetsClient`. -/
structure network.SubnetsClient (T : Vendor) extends ManagementClient T

/-- The SDK type `network.SecurityGroupsClient`. -/
structure network.SecurityGroupsClient (T : Vendor) extends ManagementClient T

/-- The SDK type `compute.VirtualMachineScaleSetsClient`. -/
structure compute.VirtualMachineScaleSetsClient (T : Vendor) extends ManagementClient T

/-- The SDK type `compute.VirtualMachineScaleSetVMsClient`. -/
structure compute.VirtualMachineScaleSetVMsClient (T : Vendor) extends ManagementClient T

/-- The SDK type `network.RoutesClient`. -/
structure network.RoutesClient (T : Vendor) extends ManagementClient T

/-- The SDK type `network.RouteTablesClient`. -/
structure network.RouteTablesClient (T : Vendor) extends ManagementClient T

/-- The SDK type `storage.AccountsClient`. -/
structure storage.AccountsClient (T : Vendor) extends ManagementClient T

/-- The SDK type `disk.DisksClient`. -/
structure disk.DisksClient (T : Vendor) extends ManagementClient T

/-- Package-level values the constructors read: for each SDK package its
`DefaultBaseURI` constant and the `autorest.Client` a freshly built client starts
from, and the user agent `configureUserAgent` computes from the current one. -/
structure Defaults (T : Vendor) where
  DefaultBaseURI : String → String
  NewClientWithUserAgent : String → autorest.Client T
  userAgent : String → String

/-- Modelled from the spec: the SDK function `NewWithBaseURI` of package `pkg` is
outside the sources; it builds a management client for the subscription with
the given base URI. -/
def NewWithBaseURI {T : Vendor} (d : Defaults T) (pkg baseURI subscriptionID : String) : ManagementClient T :=
  { toClient := d.NewClientWithUserAgent pkg, BaseURI := baseURI, SubscriptionID := subscriptionID }

/-- Modelled from the spec: the SDK constructor `compute.NewVirtualMachinesClient(subscriptionID)` is outside the
sources; the client it builds is for that subscription, at the default base URI. -/
def compute.NewVirtualMachinesClient {T : Vendor} (d : Defaults T) (subscriptionID : String) : compute.VirtualMachinesClient T :=
  { toManagementClient := NewWithBaseURI d "compute" (d.DefaultBaseURI "compute") subscriptionID }

/-- Modelled from the spec: the SDK constructor `network.NewInterfacesClient(subscriptionID)` is outside the
sources; the client it builds is for that subscription, at the default base URI. -/
def network.NewInterfacesClient {T : Vendor} (d : Defaults T) (subscriptionID : String) : network.InterfacesClient T :=
  { toManagementClient := NewWithBaseURI d "network" (d.DefaultBaseURI "network") subscriptionID }

/-- Modelled from the spec: the SDK constructor `network.NewLoadBalancersClient(subscriptionID)` is outside the
sources; the client it builds is for that subscription, at the default base URI. -/
def network.NewLoadBalancersClient {T : Vendor} (d : Defaults T) (subscriptionID : String) : network.LoadBalancersClient T :=
  { toManagementClient := NewWithBaseURI d "network" (d.DefaultBaseURI "network") subscriptionID }

/-- Modelled from the spec: the SDK constructor `network.NewPublicIPAddressesClient(subscriptionID)` is outside the
sources; the client it builds is for that subscription, at the default base URI. -/
def network.NewPublicIPAddressesClient {T : Vendor} (d : Defaults T) (subscriptionID : String) : network.PublicIPAddressesClient T :=
  { toManagementClient := NewWithBaseURI d "network" (d.DefaultBaseURI "network") subscriptionID }

/-- Modelled from the spec: the SDK constructor `network.NewSubnetsClient(subscriptionID)` is outside the
sources; the client it builds is for that subscription, at the default base URI. -/
def network.NewSubnetsClient {T : Vendor} (d : Defaults T) (subscriptionID : String) : network.SubnetsClient T :=
  { toManagementClient := NewWithBaseURI d "network" (d.DefaultBaseURI "network") subscriptionID }

/-- Modelled from the spec: the SDK constructor `network.NewSecurityGroupsClient(subscriptionID)` is outside the
sources; the client it builds is for that subscription, at the default base URI. -/
def network.NewSecurityGroupsClient {T : Vendor} (d : Defaults T) (subscriptionID : String) : network.SecurityGroupsClient T :=
  { toManagementClient := NewWithBaseURI d "network" (d.DefaultBaseURI "network") subscriptionID }

/-- Modelled from the spec: the SDK constructor `compute.NewVirtualMachineScaleSetsClient(subscriptionID)` is outside the
sources; the client it builds is for that subscription, at the default base URI. -/
def compute.NewVirtualMachineScaleSetsClient {T : Vendor} (d : Defaults T) (subscriptionID : String) : compute.VirtualMachineScaleSetsClient T :=
  { toManagementClient := NewWithBaseURI d "compute" (d.DefaultBaseURI "compute") subscriptionID }

/-- Modelled from the spec: the SDK constructor `compute.NewVirtualMachineScaleSetVMsClient(subscriptionID)` is outside the
sources; the client it builds is for that subscription, at the default base URI. -/
def compute.NewVirtualMachineScaleSetVMsClient {T : Vendor} (d : Defaults T) (subscriptionID : String) : compute.VirtualMachineScaleSetVMsClient T :=
  { toManagementClient := NewWithBaseURI d "compute" (d.DefaultBaseURI "compute") subscriptionID }

/-- Modelled from the spec: the SDK constructor `network.NewRoutesClient(subscriptionID)` is outside the
sources; the client it builds is for that subscription, at the default base URI. -/
def network.NewRoutesClient {T : Vendor} (d : Defaults T) (subscriptionID : String) : network.RoutesClient T :=
  { toManagementClient := NewWithBaseURI d "network" (d.DefaultBaseURI "network") subscriptionID }

/-- Modelled from the spec: the SDK constructor `network.NewRouteTablesClient(subscriptionID)` is outside the
sources; the client it builds is for that subscription, at the default base URI. -/
def network.NewRouteTablesClient {T : Vendor} (d : Defaults T) (subscriptionID : String) : network.RouteTablesClient T :=
  { toManagementClient := NewWithBaseURI d "network" (d.DefaultBaseURI "network") subscriptionID }

/-- Modelled from the spec: the SDK constructor `storage.NewAccountsClientWithBaseURI(baseURI, subscriptionID)` is
outside the sources; the client it builds has that base URI and subscription. -/
def storage.NewAccountsClientWithBaseURI {T : Vendor} (d : Defaults T) (baseURI subscriptionID : String) : storage.AccountsClient T :=
  { toManagementClient := NewWithBaseURI d "storage" baseURI subscriptionID }

/-- Modelled from the spec: the SDK constructor `disk.NewDisksClientWithBaseURI(baseURI, subscriptionID)` is
outside the sources; the client it builds has that base URI and subscription. -/
def disk.NewDisksClientWithBaseURI {T : Vendor} (d : Defaults T) (baseURI subscriptionID : String) : disk.DisksClient T :=
  { toManagementClient := NewWithBaseURI d "disk" baseURI subscriptionID }

/-- Modelled from the spec: `configureUserAgent` is defined in another file of the
package; it rewrites the user agent of the autorest client it is given a pointer
to, and nothing else. -/
def configureUserAgent {T : Vendor} (d : Defaults T) (client : autorest.Client T) : autorest.Client T :=
  { client with UserAgent := d.userAgent client.UserAgent }

/-- What the outside world does when called, as functions of its state `σ`:
`V level` is whether glog writes at that verbosity, `Accept` is the state once the
limiter has admitted the caller, and each SDK method yields its results and the
state it leaves. -/
structure External (T : Vendor) (σ : Type) where
  V : Nat → σ → Bool
  Accept : T.flowcontrol.RateLimiter → σ → σ
  VirtualMachinesClient_CreateOrUpdate : compute.VirtualMachinesClient T → String → String → T.compute.VirtualMachine → T.Chan Unit → σ → (T.Chan T.compute.VirtualMachine × T.Chan (error T)) × σ
  VirtualMachinesClient_Get : compute.VirtualMachinesClient T → String → String → T.compute.InstanceViewTypes → σ → (T.compute.VirtualMachine × error T) × σ
  VirtualMachinesClient_List : compute.VirtualMachinesClient T → String → σ → (T.compute.VirtualMachineListResult × error T) × σ
  VirtualMachinesClient_ListNextResults : compute.VirtualMachinesClient T → T.compute.VirtualMachineListResult → σ → (T.compute.VirtualMachineListResult × error T) × σ
  InterfacesClient_CreateOrUpdate : network.InterfacesClient T → String → String → T.network.Interface → T.Chan Unit → σ → (T.Chan T.network.Interface × T.Chan (error T)) × σ
  InterfacesClient_Get : network.InterfacesClient T → String → String → String → σ → (T.network.Interface × error T) × σ
  InterfacesClient_GetVirtualMachineScaleSetNetworkInterface : network.InterfacesClient T → String → String → String → String → String → σ → (T.network.Interface × error T) × σ
  LoadBalancersClient_CreateOrUpdate : network.LoadBalancersClient T → String → String → T.network.LoadBalancer → T.Chan Unit → σ → (T.Chan T.network.LoadBalancer × T.Chan (error T)) × σ
  LoadBalancersClient_Delete : network.LoadBalancersClient T → String → String → T.Chan Unit → σ → (T.Chan T.autorest.Response × T.Chan (error T)) × σ
  LoadBalancersClient_Get : network.LoadBalancersClient T → String → String → String → σ → (T.network.LoadBalancer × error T) × σ
  LoadBalancersClient_List : network.LoadBalancersClient T → String → σ → (T.network.LoadBalancerListResult × error T) × σ
  LoadBalancersClient_ListNextResults : network.LoadBalancersClient T → T.network.LoadBalancerListResult → σ → (T.network.LoadBalancerListResult × error T) × σ
  PublicIPAddressesClient_CreateOrUpdate : network.PublicIPAddressesClient T → String → String → T.network.PublicIPAddress → T.Chan Unit → σ → (T.Chan T.network.PublicIPAddress × T.Chan (error T)) × σ
  PublicIPAddressesClient_Delete : network.PublicIPAddressesClient T → String → String → T.Chan Unit → σ → (T.Chan T.autorest.Response × T.Chan (error T)) × σ
  PublicIPAddressesClient_Get : network.PublicIPAddressesClient T → String → String → String → σ → (T.network.PublicIPAddress × error T) × σ
  PublicIPAddressesClient_List : network.PublicIPAddressesClient T → String → σ → (T.network.PublicIPAddressListResult × error T) × σ
  PublicIPAddressesClient_ListNextResults : network.PublicIPAddressesClient T → T.network.PublicIPAddressListResult → σ → (T.network.PublicIPAddressListResult × error T) × σ
  SubnetsClient_CreateOrUpdate : network.SubnetsClient T → String → String → String → T.network.Subnet → T.Chan Unit → σ → (T.Chan T.network.Subnet × T.Chan (error T)) × σ
  SubnetsClient_Delete : network.SubnetsClient T → String → String → String → T.Chan Unit → σ → (T.Chan T.autorest.Response × T.Chan (error T)) × σ
  SubnetsClient_Get : network.SubnetsClient T → String → String → String → String → σ → (T.network.Subnet × error T) × σ
  SubnetsClient_List : network.SubnetsClient T → String → String → σ → (T.network.SubnetListResult × error T) × σ
  SecurityGroupsClient_CreateOrUpdate : network.SecurityGroupsClient T → String → String → T.network.SecurityGroup → T.Chan Unit → σ → (T.Chan T.network.SecurityGroup × T.Chan (error T)) × σ
  SecurityGroupsClient_Delete : network.SecurityGroupsClient T → String → String → T.Chan Unit → σ → (T.Chan T.autorest.Response × T.Chan (error T)) × σ
  SecurityGroupsClient_Get : network.SecurityGroupsClient T → String → String → String → σ → (T.network.SecurityGroup × error T) × σ
  SecurityGroupsClient_List : network.SecurityGroupsClient T → String → σ → (T.network.SecurityGroupListResult × error T) × σ
  VirtualMachineScaleSetsClient_CreateOrUpdate : compute.VirtualMachineScaleSetsClient T → String → String → T.compute.VirtualMachineScaleSet → T.Chan Unit → σ → (T.Chan T.compute.VirtualMachineScaleSet × T.Chan (error T)) × σ
  VirtualMachineScaleSetsClient_Get : compute.VirtualMachineScaleSetsClient T → String → String → σ → (T.compute.VirtualMachineScaleSet × error T) × σ
  VirtualMachineScaleSetsClient_List : compute.VirtualMachineScaleSetsClient T → String → σ → (T.compute.VirtualMachineScaleSetListResult × error T) × σ
  VirtualMachineScaleSetsClient_ListNextResults : compute.VirtualMachineScaleSetsClient T → T.compute.VirtualMachineScaleSetListResult → σ → (T.compute.VirtualMachineScaleSetListResult × error T) × σ
  VirtualMachineScaleSetsClient_UpdateInstances : compute.VirtualMachineScaleSetsClient T → String → String → T.compute.VirtualMachineScaleSetVMInstanceRequiredIDs → T.Chan Unit → σ → (T.Chan T.compute.OperationStatusResponse × T.Chan (error T)) × σ
  VirtualMachineScaleSetVMsClient_Get : compute.VirtualMachineScaleSetVMsClient T → String → String → String → σ → (T.compute.VirtualMachineScaleSetVM × error T) × σ
  VirtualMachineScaleSetVMsClient_GetInstanceView : compute.VirtualMachineScaleSetVMsClient T → String → String → String → σ → (T.compute.VirtualMachineScaleSetVMInstanceView × error T) × σ
  VirtualMachineScaleSetVMsClient_List : compute.VirtualMachineScaleSetVMsClient T → String → String → String → String → String → σ → (T.compute.VirtualMachineScaleSetVMListResult × error T) × σ
  VirtualMachineScaleSetVMsClient_ListNextResults : compute.VirtualMachineScaleSetVMsClient T → T.compute.VirtualMachineScaleSetVMListResult → σ → (T.compute.VirtualMachineScaleSetVMListResult × error T) × σ
  RoutesClient_CreateOrUpdate : network.RoutesClient T → String → String → String → T.network.Route → T.Chan Unit → σ → (T.Chan T.network.Route × T.Chan (error T)) × σ
  RoutesClient_Delete : network.RoutesClient T → String → String → String → T.Chan Unit → σ → (T.Chan T.autorest.Response × T.Chan (error T)) × σ
  RouteTablesClient_CreateOrUpdate : network.RouteTablesClient T → String → String → T.network.RouteTable → T.Chan Unit → σ → (T.Chan T.network.RouteTable × T.Chan (error T)) × σ
  RouteTablesClient_Get : network.RouteTablesClient T → String → String → String → σ → (T.network.RouteTable × error T) × σ
  AccountsClient_Create : storage.AccountsClient T → String → String → T.storage.AccountCreateParameters → T.Chan Unit → σ → (T.Chan T.storage.Account × T.Chan (error T)) × σ
  AccountsClient_Delete : storage.AccountsClient T → String → String → σ → (T.autorest.Response × error T) × σ
  AccountsClient_ListKeys : storage.AccountsClient T → String → String → σ → (T.storage.AccountListKeysResult × error T) × σ
  AccountsClient_ListByResourceGroup : storage.AccountsClient T → String → σ → (T.storage.AccountListResult × error T) × σ
  AccountsClient_GetProperties : storage.AccountsClient T → String → String → σ → (T.storage.Account × error T) × σ
  DisksClient_CreateOrUpdate : disk.DisksClient T → String → String → T.disk.Model → T.Chan Unit → σ → (T.Chan T.disk.Model × T.Chan (error T)) × σ
  DisksClient_Delete : disk.DisksClient T → String → String → T.Chan Unit → σ → (T.Chan T.disk.OperationStatusResponse × T.Chan (error T)) × σ
  DisksClient_Get : disk.DisksClient T → String → String → σ → (T.disk.Model × error T) × σ

/-- The call `glog.V(level)`: reads the verbosity, calls nothing. -/
def glog.V {T : Vendor} {σ : Type} (ext : External T σ) (level : Nat) : Exec T σ glog.Verbose :=
  fun s => ⟨⟨ext.V level s⟩, s, []⟩

/-- The call `v.Infof(format, args...)`, recorded with its receiver. -/
def glog.Verbose.Infof {T : Vendor} {σ : Type} (v : glog.Verbose) (format : String) (args : List (LogArg T)) : Exec T σ Unit :=
  fun s => ⟨(), s, [Event.Infof v format args]⟩

/-- The call `rateLimiter.Accept()`: returns once the limiter admits the caller. -/
def flowcontrol.Accept {T : Vendor} {σ : Type} (ext : External T σ) (rateLimiter : T.flowcontrol.RateLimiter) : Exec T σ Unit :=
  fun s => ⟨(), ext.Accept rateLimiter s, [Event.Accept rateLimiter]⟩

/-- One call of an SDK method: it is recorded, and yields what the SDK yields from
the current state. -/
def remote {T : Vendor} {σ α : Type} (client method : String) (cancel : Option (T.Chan Unit)) (f : σ → α × σ) : Exec T σ α :=
  fun s => ⟨(f s).1, (f s).2, [Event.SDKCall client method cancel]⟩

/-- The SDK method `compute.VirtualMachinesClient.CreateOrUpdate`, outside the sources: one recorded call that yields
what the outside world yields. -/
def compute.VirtualMachinesClient.CreateOrUpdate {T : Vendor} {σ : Type} (client : compute.VirtualMachinesClient T) (ext : External T σ) (resourceGroupName : String) (VMName : String) (parameters : T.compute.VirtualMachine) (cancel : T.Chan Unit) : Exec T σ (T.Chan T.compute.VirtualMachine × T.Chan (error T)) :=
  remote "compute.VirtualMachinesClient" "CreateOrUpdate" (some cancel) (ext.VirtualMachinesClient_CreateOrUpdate client resourceGroupName VMName parameters cancel)

/-- The SDK method `compute.VirtualMachinesClient.Get`, outside the sources: one recorded call that yields
what the outside world yields. -/
def compute.VirtualMachinesClient.Get {T : Vendor} {σ : Type} (client : compute.VirtualMachinesClient T) (ext : External T σ) (resourceGroupName : String) (VMName : String) (expand : T.compute.InstanceViewTypes) : Exec T σ (T.compute.VirtualMachine × error T) :=
  remote "compute.VirtualMachinesClient" "Get" none (ext.VirtualMachinesClient_Get client resourceGroupName VMName expand)

/-- The SDK method `compute.VirtualMachinesClient.List`, outside the sources: one recorded call that yields
what the outside world yields. -/
def compute.VirtualMachinesClient.List {T : Vendor} {σ : Type} (client : compute.VirtualMachinesClient T) (ext : External T σ) (resourceGroupName : String) : Exec T σ (T.compute.VirtualMachineListResult × error T) :=
  remote "compute.VirtualMachinesClient" "List" none (ext.VirtualMachinesClient_List client resourceGroupName)

/-- The SDK method `compute.VirtualMachinesClient.ListNextResults`, outside the sources: one recorded call that yields
what the outside world yields. -/
def compute.VirtualMachinesClient.ListNextResults {T : Vendor} {σ : Type} (client : compute.VirtualMachinesClient T) (ext : External T σ) (lastResults : T.compute.VirtualMachineListResult) : Exec T σ (T.compute.VirtualMachineListResult × error T) :=
  remote "compute.VirtualMachinesClient" "ListNextResults" none (ext.VirtualMachinesClient_ListNextResults client lastResults)

/-- The SDK method `network.InterfacesClient.CreateOrUpdate`, outside the sources: one recorded call that yields
what the outside world yields. -/
def network.InterfacesClient.CreateOrUpdate {T : Vendor} {σ : Type} (client : network.InterfacesClient T) (ext : External T σ) (resourceGroupName : String) (networkInterfaceName : String) (parameters : T.network.Interface) (cancel : T.Chan Unit) : Exec T σ (T.Chan T.network.Interface × T.Chan (error T)) :=
  remote "network.InterfacesClient" "CreateOrUpdate" (some cancel) (ext.InterfacesClient_CreateOrUpdate client resourceGroupName networkInterfaceName parameters cancel)

/-- The SDK method `network.InterfacesClient.Get`, outside the sources: one recorded call that yields
what the outside world yields. -/
def network.InterfacesClient.Get {T : Vendor} {σ : Type} (client : network.InterfacesClient T) (ext : External T σ) (resourceGroupName : String) (networkInterfaceName : String) (expand : String) : Exec T σ (T.network.Interface × error T) :=
  remote "network.InterfacesClient" "Get" none (ext.InterfacesClient_Get client resourceGroupName networkInterfaceName expand)

/-- The SDK method `network.InterfacesClient.GetVirtualMachineScaleSetNetworkInterface`, outside the sources: one recorded call that yields
what the outside world yields. -/
def network.InterfacesClient.GetVirtualMachineScaleSetNetworkInterface {T : Vendor} {σ : Type} (client : network.InterfacesClient T) (ext : External T σ) (resourceGroupName : String) (virtualMachineScaleSetName : String) (virtualmachineIndex : String) (networkInterfaceName : String) (expand : String) : Exec T σ (T.network.Interface × error T) :=
  remote "network.InterfacesClient" "GetVirtualMachineScaleSetNetworkInterface" none (ext.InterfacesClient_GetVirtualMachineScaleSetNetworkInterface client resourceGroupName virtualMachineScaleSetName virtualmachineIndex networkInterfaceName expand)

/-- The SDK method `network.LoadBalancersClient.CreateOrUpdate`, outside the sources: one recorded call that yields
what the outside world yields. -/
def network.LoadBalancersClient.CreateOrUpdate {T : Vendor} {σ : Type} (client : network.LoadBalancersClient T) (ext : External T σ) (resourceGroupName : String) (loadBalancerName : String) (parameters : T.network.LoadBalancer) (cancel : T.Chan Unit) : Exec T σ (T.Chan T.network.LoadBalancer × T.Chan (error T)) :=
  remote "network.LoadBalancersClient" "CreateOrUpdate" (some cancel) (ext.LoadBalancersClient_CreateOrUpdate client resourceGroupName loadBalancerName parameters cancel)

/-- The SDK method `network.LoadBalancersClient.Delete`, outside the sources: one recorded call that yields
what the outside world yields. -/
def network.LoadBalancersClient.Delete {T : Vendor} {σ : Type} (client : network.LoadBalancersClient T) (ext : External T σ) (resourceGroupName : String) (loadBalancerName : String) (cancel : T.Chan Unit) : Exec T σ (T.Chan T.autorest.Response × T.Chan (error T)) :=
  remote "network.LoadBalancersClient" "Delete" (some cancel) (ext.LoadBalancersClient_Delete client resourceGroupName loadBalancerName cancel)

/-- The SDK method `network.LoadBalancersClient.Get`, outside the sources: one recorded call that yields
what the outside world yields. -/
def network.LoadBalancersClient.Get {T : Vendor} {σ : Type} (client : network.LoadBalancersClient T) (ext : External T σ) (resourceGroupName : String) (loadBalancerName : String) (expand : String) : Exec T σ (T.network.LoadBalancer × error T) :=
  remote "network.LoadBalancersClient" "Get" none (ext.LoadBalancersClient_Get client resourceGroupName loadBalancerName expand)

/-- The SDK method `network.LoadBalancersClient.List`, outside the sources: one recorded call that yields
what the outside world yields. -/
def network.LoadBalancersClient.List {T : Vendor} {σ : Type} (client : network.LoadBalancersClient T) (ext : External T σ) (resourceGroupName : String) : Exec T σ (T.network.LoadBalancerListResult × error T) :=
  remote "network.LoadBalancersClient" "List" none (ext.LoadBalancersClient_List client resourceGroupName)

/-- The SDK method `network.LoadBalancersClient.ListNextResults`, outside the sources: one recorded call that yields
what the outside world yields. -/
def network.LoadBalancersClient.ListNextResults {T : Vendor} {σ : Type} (client : network.LoadBalancersClient T) (ext : External T σ) (lastResult : T.network.LoadBalancerListResult) : Exec T σ (T.network.LoadBalancerListResult × error T) :=
  remote "network.LoadBalancersClient" "ListNextResults" none (ext.LoadBalancersClient_ListNextResults client lastResult)

/-- The SDK method `network.PublicIPAddressesClient.CreateOrUpdate`, outside the sources: one recorded call that yields
what the outside world yields. -/
def network.PublicIPAddressesClient.CreateOrUpdate {T : Vendor} {σ : Type} (client : network.PublicIPAddressesClient T) (ext : External T σ) (resourceGroupName : String) (publicIPAddressName : String) (parameters : T.network.PublicIPAddress) (cancel : T.Chan Unit) : Exec T σ (T.Chan T.network.PublicIPAddress × T.Chan (error T)) :=
  remote "network.PublicIPAddressesClient" "CreateOrUpdate" (some cancel) (ext.PublicIPAddressesClient_CreateOrUpdate client resourceGroupName publicIPAddressName parameters cancel)

/-- The SDK method `network.PublicIPAddressesClient.Delete`, outside the sources: one recorded call that yields
what the outside world yields. -/
def network.PublicIPAddressesClient.Delete {T : Vendor} {σ : Type} (client : network.PublicIPAddressesClient T) (ext : External T σ) (resourceGroupName : String) (publicIPAddressName : String) (cancel : T.Chan Unit) : Exec T σ (T.Chan T.autorest.Response × T.Chan (error T)) :=
  remote "network.PublicIPAddressesClient" "Delete" (some cancel) (ext.PublicIPAddressesClient_Delete client resourceGroupName publicIPAddressName cancel)

/-- The SDK method `network.PublicIPAddressesClient.Get`, outside the sources: one recorded call that yields
what the outside world yields. -/
def network.PublicIPAddressesClient.Get {T : Vendor} {σ : Type} (client : network.PublicIPAddressesClient T) (ext : External T σ) (resourceGroupName : String) (publicIPAddressName : String) (expand : String) : Exec T σ (T.network.PublicIPAddress × error T) :=
  remote "network.PublicIPAddressesClient" "Get" none (ext.PublicIPAddressesClient_Get client resourceGroupName publicIPAddressName expand)

/-- The SDK method `network.PublicIPAddressesClient.List`, outside the sources: one recorded call that yields
what the outside world yields. -/
def network.PublicIPAddressesClient.List {T : Vendor} {σ : Type} (client : network.PublicIPAddressesClient T) (ext : External T σ) (resourceGroupName : String) : Exec T σ (T.network.PublicIPAddressListResult × error T) :=
  remote "network.PublicIPAddressesClient" "List" none (ext.PublicIPAddressesClient_List client resourceGroupName)

/-- The SDK method `network.PublicIPAddressesClient.ListNextResults`, outside the sources: one recorded call that yields
what the outside world yields. -/
def network.PublicIPAddressesClient.ListNextResults {T : Vendor} {σ : Type} (client : network.PublicIPAddressesClient T) (ext : External T σ) (lastResults : T.network.PublicIPAddressListResult) : Exec T σ (T.network.PublicIPAddressListResult × error T) :=
  remote "network.PublicIPAddressesClient" "ListNextResults" none (ext.PublicIPAddressesClient_ListNextResults client lastResults)

/-- The SDK method `network.SubnetsClient.CreateOrUpdate`, outside the sources: one recorded call that yields
what the outside world yields. -/
def network.SubnetsClient.CreateOrUpdate {T : Vendor} {σ : Type} (client : network.SubnetsClient T) (ext : External T σ) (resourceGroupName : String) (virtualNetworkName : String) (subnetName : String) (subnetParameters : T.network.Subnet) (cancel : T.Chan Unit) : Exec T σ (T.Chan T.network.Subnet × T.Chan (error T)) :=
  remote "network.SubnetsClient" "CreateOrUpdate" (some cancel) (ext.SubnetsClient_CreateOrUpdate client resourceGroupName virtualNetworkName subnetName subnetParameters cancel)

/-- The SDK method `network.SubnetsClient.Delete`, outside the sources: one recorded call that yields
what the outside world yields. -/
def network.SubnetsClient.Delete {T : Vendor} {σ : Type} (client : network.SubnetsClient T) (ext : External T σ) (resourceGroupName : String) (virtualNetworkName : String) (subnetName : String) (cancel : T.Chan Unit) : Exec T σ (T.Chan T.autorest.Response × T.Chan (error T)) :=
  remote "network.SubnetsClient" "Delete" (some cancel) (ext.SubnetsClient_Delete client resourceGroupName virtualNetworkName subnetName cancel)

/-- The SDK method `network.SubnetsClient.Get`, outside the sources: one recorded call that yields
what the outside world yields. -/
def network.SubnetsClient.Get {T : Vendor} {σ : Type} (client : network.SubnetsClient T) (ext : External T σ) (resourceGroupName : String) (virtualNetworkName : String) (subnetName : String) (expand : String) : Exec T σ (T.network.Subnet × error T) :=
  remote "network.SubnetsClient" "Get" none (ext.SubnetsClient_Get client resourceGroupName virtualNetworkName subnetName expand)

/-- The SDK method `network.SubnetsClient.List`, outside the sources: one recorded call that yields
what the outside world yields. -/
def network.SubnetsClient.List {T : Vendor} {σ : Type} (client : network.SubnetsClient T) (ext : External T σ) (resourceGroupName : String) (virtualNetworkName : String) : Exec T σ (T.network.SubnetListResult × error T) :=
  remote "network.SubnetsClient" "List" none (ext.SubnetsClient_List client resourceGroupName virtualNetworkName)

/-- The SDK method `network.SecurityGroupsClient.CreateOrUpdate`, outside the sources: one recorded call that yields
what the outside world yields. -/
def network.SecurityGroupsClient.CreateOrUpdate {T : Vendor} {σ : Type} (client : network.SecurityGroupsClient T) (ext : External T σ) (resourceGroupName : String) (networkSecurityGroupName : String) (parameters : T.network.SecurityGroup) (cancel : T.Chan Unit) : Exec T σ (T.Chan T.network.SecurityGroup × T.Chan (error T)) :=
  remote "network.SecurityGroupsClient" "CreateOrUpdate" (some cancel) (ext.SecurityGroupsClient_CreateOrUpdate client resourceGroupName networkSecurityGroupName parameters cancel)

/-- The SDK method `network.SecurityGroupsClient.Delete`, outside the sources: one recorded call that yields
what the outside world yields. -/
def network.SecurityGroupsClient.Delete {T : Vendor} {σ : Type} (client : network.SecurityGroupsClient T) (ext : External T σ) (resourceGroupName : String) (networkSecurityGroupName : String) (cancel : T.Chan Unit) : Exec T σ (T.Chan T.autorest.Response × T.Chan (error T)) :=
  remote "network.SecurityGroupsClient" "Delete" (some cancel) (ext.SecurityGroupsClient_Delete client resourceGroupName networkSecurityGroupName cancel)

/-- The SDK method `network.SecurityGroupsClient.Get`, outside the sources: one recorded call that yields
what the outside world yields. -/
def network.SecurityGroupsClient.Get {T : Vendor} {σ : Type} (client : network.SecurityGroupsClient T) (ext : External T σ) (resourceGroupName : String) (networkSecurityGroupName : String) (expand : String) : Exec T σ (T.network.SecurityGroup × error T) :=
  remote "network.SecurityGroupsClient" "Get" none (ext.SecurityGroupsClient_Get client resourceGroupName networkSecurityGroupName expand)

/-- The SDK method `network.SecurityGroupsClient.List`, outside the sources: one recorded call that yields
what the outside world yields. -/
def network.SecurityGroupsClient.List {T : Vendor} {σ : Type} (client : network.SecurityGroupsClient T) (ext : External T σ) (resourceGroupName : String) : Exec T σ (T.network.SecurityGroupListResult × error T) :=
  remote "network.SecurityGroupsClient" "List" none (ext.SecurityGroupsClient_List client resourceGroupName)

/-- The SDK method `compute.VirtualMachineScaleSetsClient.CreateOrUpdate`, outside the sources: one recorded call that yields
what the outside world yields. -/
def compute.VirtualMachineScaleSetsClient.CreateOrUpdate {T : Vendor} {σ : Type} (client : compute.VirtualMachineScaleSetsClient T) (ext : External T σ) (resourceGroupName : String) (VMScaleSetName : String) (parameters : T.compute.VirtualMachineScaleSet) (cancel : T.Chan Unit) : Exec T σ (T.Chan T.compute.VirtualMachineScaleSet × T.Chan (error T)) :=
  remote "compute.VirtualMachineScaleSetsClient" "CreateOrUpdate" (some cancel) (ext.VirtualMachineScaleSetsClient_CreateOrUpdate client resourceGroupName VMScaleSetName parameters cancel)

/-- The SDK method `compute.VirtualMachineScaleSetsClient.Get`, outside the sources: one recorded call that yields
what the outside world yields. -/
def compute.VirtualMachineScaleSetsClient.Get {T : Vendor} {σ : Type} (client : compute.VirtualMachineScaleSetsClient T) (ext : External T σ) (resourceGroupName : String) (VMScaleSetName : String) : Exec T σ (T.compute.VirtualMachineScaleSet × error T) :=
  remote "compute.VirtualMachineScaleSetsClient" "Get" none (ext.VirtualMachineScaleSetsClient_Get client resourceGroupName VMScaleSetName)

/-- The SDK method `compute.VirtualMachineScaleSetsClient.List`, outside the sources: one recorded call that yields
what the outside world yields. -/
def compute.VirtualMachineScaleSetsClient.List {T : Vendor} {σ : Type} (client : compute.VirtualMachineScaleSetsClient T) (ext : External T σ) (resourceGroupName : String) : Exec T σ (T.compute.VirtualMachineScaleSetListResult × error T) :=
  remote "compute.VirtualMachineScaleSetsClient" "List" none (ext.VirtualMachineScaleSetsClient_List client resourceGroupName)

/-- The SDK method `compute.VirtualMachineScaleSetsClient.ListNextResults`, outside the sources: one recorded call that yields
what the outside world yields. -/
def compute.VirtualMachineScaleSetsClient.ListNextResults {T : Vendor} {σ : Type} (client : compute.VirtualMachineScaleSetsClient T) (ext : External T σ) (lastResults : T.compute.VirtualMachineScaleSetListResult) : Exec T σ (T.compute.VirtualMachineScaleSetListResult × error T) :=
  remote "compute.VirtualMachineScaleSetsClient" "ListNextResults" none (ext.VirtualMachineScaleSetsClient_ListNextResults client lastResults)

/-- The SDK method `compute.VirtualMachineScaleSetsClient.UpdateInstances`, outside the sources: one recorded call that yields
what the outside world yields. -/
def compute.VirtualMachineScaleSetsClient.UpdateInstances {T : Vendor} {σ : Type} (client : compute.VirtualMachineScaleSetsClient T) (ext : External T σ) (resourceGroupName : String) (VMScaleSetName : String) (VMInstanceIDs : T.compute.VirtualMachineScaleSetVMInstanceRequiredIDs) (cancel : T.Chan Unit) : Exec T σ (T.Chan T.compute.OperationStatusResponse × T.Chan (error T)) :=
  remote "compute.VirtualMachineScaleSetsClient" "UpdateInstances" (some cancel) (ext.VirtualMachineScaleSetsClient_UpdateInstances client resourceGroupName VMScaleSetName VMInstanceIDs cancel)

/-- The SDK method `compute.VirtualMachineScaleSetVMsClient.Get`, outside the sources: one recorded call that yields
what the outside world yields. -/
def compute.VirtualMachineScaleSetVMsClient.Get {T : Vendor} {σ : Type} (client : compute.VirtualMachineScaleSetVMsClient T) (ext : External T σ) (resourceGroupName : String) (VMScaleSetName : String) (instanceID : String) : Exec T σ (T.compute.VirtualMachineScaleSetVM × error T) :=
  remote "compute.VirtualMachineScaleSetVMsClient" "Get" none (ext.VirtualMachineScaleSetVMsClient_Get client resourceGroupName VMScaleSetName instanceID)

/-- The SDK method `compute.VirtualMachineScaleSetVMsClient.GetInstanceView`, outside the sources: one recorded call that yields
what the outside world yields. -/
def compute.VirtualMachineScaleSetVMsClient.GetInstanceView {T : Vendor} {σ : Type} (client : compute.VirtualMachineScaleSetVMsClient T) (ext : External T σ) (resourceGroupName : String) (VMScaleSetName : String) (instanceID : String) : Exec T σ (T.compute.VirtualMachineScaleSetVMInstanceView × error T) :=
  remote "compute.VirtualMachineScaleSetVMsClient" "GetInstanceView" none (ext.VirtualMachineScaleSetVMsClient_GetInstanceView client resourceGroupName VMScaleSetName instanceID)

/-- The SDK method `compute.VirtualMachineScaleSetVMsClient.List`, outside the sources: one recorded call that yields
what the outside world yields. -/
def compute.VirtualMachineScaleSetVMsClient.List {T : Vendor} {σ : Type} (client : compute.VirtualMachineScaleSetVMsClient T) (ext : External T σ) (resourceGroupName : String) (virtualMachineScaleSetName : String) (filter : String) (selectParameter : String) (expand : String) : Exec T σ (T.compute.VirtualMachineScaleSetVMListResult × error T) :=
  remote "compute.VirtualMachineScaleSetVMsClient" "List" none (ext.VirtualMachineScaleSetVMsClient_List client resourceGroupName virtualMachineScaleSetName filter selectParameter expand)

/-- The SDK method `compute.VirtualMachineScaleSetVMsClient.ListNextResults`, outside the sources: one recorded call that yields
what the outside world yields. -/
def compute.VirtualMachineScaleSetVMsClient.ListNextResults {T : Vendor} {σ : Type} (client : compute.VirtualMachineScaleSetVMsClient T) (ext : External T σ) (lastResults : T.compute.VirtualMachineScaleSetVMListResult) : Exec T σ (T.compute.VirtualMachineScaleSetVMListResult × error T) :=
  remote "compute.VirtualMachineScaleSetVMsClient" "ListNextResults" none (ext.VirtualMachineScaleSetVMsClient_ListNextResults client lastResults)

/-- The SDK method `network.RoutesClient.CreateOrUpdate`, outside the sources: one recorded call that yields
what the outside world yields. -/
def network.RoutesClient.CreateOrUpdate {T : Vendor} {σ : Type} (client : network.RoutesClient T) (ext : External T σ) (resourceGroupName : String) (routeTableName : String) (routeName : String) (routeParameters : T.network.Route) (cancel : T.Chan Unit) : Exec T σ (T.Chan T.network.Route × T.Chan (error T)) :=
  remote "network.RoutesClient" "CreateOrUpdate" (some cancel) (ext.RoutesClient_CreateOrUpdate client resourceGroupName routeTableName routeName routeParameters cancel)

/-- The SDK method `network.RoutesClient.Delete`, outside the sources: one recorded call that yields
what the outside world yields. -/
def network.RoutesClient.Delete {T : Vendor} {σ : Type} (client : network.RoutesClient T) (ext : External T σ) (resourceGroupName : String) (routeTableName : String) (routeName : String) (cancel : T.Chan Unit) : Exec T σ (T.Chan T.autorest.Response × T.Chan (error T)) :=
  remote "network.RoutesClient" "Delete" (some cancel) (ext.RoutesClient_Delete client resourceGroupName routeTableName routeName cancel)

/-- The SDK method `network.RouteTablesClient.CreateOrUpdate`, outside the sources: one recorded call that yields
what the outside world yields. -/
def network.RouteTablesClient.CreateOrUpdate {T : Vendor} {σ : Type} (client : network.RouteTablesClient T) (ext : External T σ) (resourceGroupName : String) (routeTableName : String) (parameters : T.network.RouteTable) (cancel : T.Chan Unit) : Exec T σ (T.Chan T.network.RouteTable × T.Chan (error T)) :=
  remote "network.RouteTablesClient" "CreateOrUpdate" (some cancel) (ext.RouteTablesClient_CreateOrUpdate client resourceGroupName routeTableName parameters cancel)

/-- The SDK method `network.RouteTablesClient.Get`, outside the sources: one recorded call that yields
what the outside world yields. -/
def network.RouteTablesClient.Get {T : Vendor} {σ : Type} (client : network.RouteTablesClient T) (ext : External T σ) (resourceGroupName : String) (routeTableName : String) (expand : String) : Exec T σ (T.network.RouteTable × error T) :=
  remote "network.RouteTablesClient" "Get" none (ext.RouteTablesClient_Get client resourceGroupName routeTableName expand)

/-- The SDK method `storage.AccountsClient.Create`, outside the sources: one recorded call that yields
what the outside world yields. -/
def storage.AccountsClient.Create {T : Vendor} {σ : Type} (client : storage.AccountsClient T) (ext : External T σ) (resourceGroupName : String) (accountName : String) (parameters : T.storage.AccountCreateParameters) (cancel : T.Chan Unit) : Exec T σ (T.Chan T.storage.Account × T.Chan (error T)) :=
  remote "storage.AccountsClient" "Create" (some cancel) (ext.AccountsClient_Create client resourceGroupName accountName parameters cancel)

/-- The SDK method `storage.AccountsClient.Delete`, outside the sources: one recorded call that yields
what the outside world yields. -/
def storage.AccountsClient.Delete {T : Vendor} {σ : Type} (client : storage.AccountsClient T) (ext : External T σ) (resourceGroupName : String) (accountName : String) : Exec T σ (T.autorest.Response × error T) :=
  remote "storage.AccountsClient" "Delete" none (ext.AccountsClient_Delete client resourceGroupName accountName)

/-- The SDK method `storage.AccountsClient.ListKeys`, outside the sources: one recorded call that yields
what the outside world yields. -/
def storage.AccountsClient.ListKeys {T : Vendor} {σ : Type} (client : storage.AccountsClient T) (ext : External T σ) (resourceGroupName : String) (accountName : String) : Exec T σ (T.storage.AccountListKeysResult × error T) :=
  remote "storage.AccountsClient" "ListKeys" none (ext.AccountsClient_ListKeys client resourceGroupName accountName)

/-- The SDK method `storage.AccountsClient.ListByResourceGroup`, outside the sources: one recorded call that yields
what the outside world yields. -/
def storage.AccountsClient.ListByResourceGroup {T : Vendor} {σ : Type} (client : storage.AccountsClient T) (ext : External T σ) (resourceGroupName : String) : Exec T σ (T.storage.AccountListResult × error T) :=
  remote "storage.AccountsClient" "ListByResourceGroup" none (ext.AccountsClient_ListByResourceGroup client resourceGroupName)

/-- The SDK method `storage.AccountsClient.GetProperties`, outside the sources: one recorded call that yields
what the outside world yields. -/
def storage.AccountsClient.GetProperties {T : Vendor} {σ : Type} (client : storage.AccountsClient T) (ext : External T σ) (resourceGroupName : String) (accountName : String) : Exec T σ (T.storage.Account × error T) :=
  remote "storage.AccountsClient" "GetProperties" none (ext.AccountsClient_GetProperties client resourceGroupName accountName)

/-- The SDK method `disk.DisksClient.CreateOrUpdate`, outside the sources: one recorded call that yields
what the outside world yields. -/
def disk.DisksClient.CreateOrUpdate {T : Vendor} {σ : Type} (client : disk.DisksClient T) (ext : External T σ) (resourceGroupName : String) (diskName : String) (diskParameter : T.disk.Model) (cancel : T.Chan Unit) : Exec T σ (T.Chan T.disk.Model × T.Chan (error T)) :=
  remote "disk.DisksClient" "CreateOrUpdate" (some cancel) (ext.DisksClient_CreateOrUpdate client resourceGroupName diskName diskParameter cancel)

/-- The SDK method `disk.DisksClient.Delete`, outside the sources: one recorded call that yields
what the outside world yields. -/
def disk.DisksClient.Delete {T : Vendor} {σ : Type} (client : disk.DisksClient T) (ext : External T σ) (resourceGroupName : String) (diskName : String) (cancel : T.Chan Unit) : Exec T σ (T.Chan T.disk.OperationStatusResponse × T.Chan (error T)) :=
  remote "disk.DisksClient" "Delete" (some cancel) (ext.DisksClient_Delete client resourceGroupName diskName cancel)

/-- The SDK method `disk.DisksClient.Get`, outside the sources: one recorded call that yields
what the outside world yields. -/
def disk.DisksClient.Get {T : Vendor} {σ : Type} (client : disk.DisksClient T) (ext : External T σ) (resourceGroupName : String) (diskName : String) : Exec T σ (T.disk.Model × error T) :=
  remote "disk.DisksClient" "Get" none (ext.DisksClient_Get client resourceGroupName diskName)

/-! ## The configuration, the wrappers, their constructors and methods -/

/-- The struct `azClientConfig`. -/
structure azClientConfig (T : Vendor) where
  subscriptionID : String
  resourceManagerEndpoint : String
  servicePrincipalToken : T.adal.ServicePrincipalToken
  rateLimiter : T.flowcontrol.RateLimiter

/-- The struct `azVirtualMachinesClient`. -/
structure azVirtualMachinesClient (T : Vendor) where
  client : compute.VirtualMachinesClient T
  rateLimiter : T.flowcontrol.RateLimiter

/-- The constructor `newAzVirtualMachinesClient`. -/
def newAzVirtualMachinesClient {T : Vendor} (d : Defaults T) (config : azClientConfig T) : azVirtualMachinesClient T :=
  let virtualMachinesClient := compute.NewVirtualMachinesClient d config.subscriptionID
  let virtualMachinesClient := { virtualMachinesClient with BaseURI := config.resourceManagerEndpoint }
  let virtualMachinesClient := { virtualMachinesClient with Authorizer := autorest.NewBearerAuthorizer config.servicePrincipalToken }
  let virtualMachinesClient := { virtualMachinesClient with PollingDelay := 5 * time.Second }
  let virtualMachinesClient := { virtualMachinesClient with toClient := configureUserAgent d virtualMachinesClient.toClient }
  { rateLimiter := config.rateLimiter
    client := virtualMachinesClient }

/-- The method `azVirtualMachinesClient.CreateOrUpdate`. -/
def azVirtualMachinesClient.CreateOrUpdate {T : Vendor} {σ : Type} (ext : External T σ) (az : azVirtualMachinesClient T) (resourceGroupName : String) (VMName : String) (parameters : T.compute.VirtualMachine) (cancel : T.Chan Unit) : Exec T σ (T.Chan T.compute.VirtualMachine × T.Chan (error T)) := do
  flowcontrol.Accept ext az.rateLimiter
  (← glog.V ext 10).Infof "azVirtualMachinesClient.CreateOrUpdate(%q, %q): start" [.string resourceGroupName, .string VMName]
  Exec.defer (do (← glog.V ext 10).Infof "azVirtualMachinesClient.CreateOrUpdate(%q, %q): end" [.string resourceGroupName, .string VMName]) do
    az.client.CreateOrUpdate ext resourceGroupName VMName parameters cancel

/-- The method `azVirtualMachinesClient.Get`. -/
def azVirtualMachinesClient.Get {T : Vendor} {σ : Type} (ext : External T σ) (az : azVirtualMachinesClient T) (resourceGroupName : String) (VMName : String) (expand : T.compute.InstanceViewTypes) : Exec T σ (T.compute.VirtualMachine × error T) := do
  flowcontrol.Accept ext az.rateLimiter
  (← glog.V ext 10).Infof "azVirtualMachinesClient.Get(%q, %q): start" [.string resourceGroupName, .string VMName]
  Exec.defer (do (← glog.V ext 10).Infof "azVirtualMachinesClient.Get(%q, %q): end" [.string resourceGroupName, .string VMName]) do
    az.client.Get ext resourceGroupName VMName expand

/-- The method `azVirtualMachinesClient.List`. -/
def azVirtualMachinesClient.List {T : Vendor} {σ : Type} (ext : External T σ) (az : azVirtualMachinesClient T) (resourceGroupName : String) : Exec T σ (T.compute.VirtualMachineListResult × error T) := do
  flowcontrol.Accept ext az.rateLimiter
  (← glog.V ext 10).Infof "azVirtualMachinesClient.List(%q): start" [.string resourceGroupName]
  Exec.defer (do (← glog.V ext 10).Infof "azVirtualMachinesClient.List(%q): end" [.string resourceGroupName]) do
    az.client.List ext resourceGroupName

/-- The method `azVirtualMachinesClient.ListNextResults`. -/
def azVirtualMachinesClient.ListNextResults {T : Vendor} {σ : Type} (ext : External T σ) (az : azVirtualMachinesClient T) (lastResults : T.compute.VirtualMachineListResult) : Exec T σ (T.compute.VirtualMachineListResult × error T) := do
  flowcontrol.Accept ext az.rateLimiter
  (← glog.V ext 10).Infof "azVirtualMachinesClient.ListNextResults(%q): start" [.VirtualMachineListResult lastResults]
  Exec.defer (do (← glog.V ext 10).Infof "azVirtualMachinesClient.ListNextResults(%q): end" [.VirtualMachineListResult lastResults]) do
    az.client.ListNextResults ext lastResults

/-- The struct `azInterfacesClient`. -/
structure azInterfacesClient (T : Vendor) where
  client : network.InterfacesClient T
  rateLimiter : T.flowcontrol.RateLimiter

/-- The constructor `newAzInterfacesClient`. -/
def newAzInterfacesClient {T : Vendor} (d : Defaults T) (config : azClientConfig T) : azInterfacesClient T :=
  let interfacesClient := network.NewInterfacesClient d config.subscriptionID
  let interfacesClient := { interfacesClient with BaseURI := config.resourceManagerEndpoint }
  let interfacesClient := { interfacesClient with Authorizer := autorest.NewBearerAuthorizer config.servicePrincipalToken }
  let interfacesClient := { interfacesClient with PollingDelay := 5 * time.Second }
  let interfacesClient := { interfacesClient with toClient := configureUserAgent d interfacesClient.toClient }
  { rateLimiter := config.rateLimiter
    client := interfacesClient }

/-- The method `azInterfacesClient.CreateOrUpdate`. -/
def azInterfacesClient.CreateOrUpdate {T : Vendor} {σ : Type} (ext : External T σ) (az : azInterfacesClient T) (resourceGroupName : String) (networkInterfaceName : String) (parameters : T.network.Interface) (cancel : T.Chan Unit) : Exec T σ (T.Chan T.network.Interface × T.Chan (error T)) := do
  flowcontrol.Accept ext az.rateLimiter
  (← glog.V ext 10).Infof "azInterfacesClient.CreateOrUpdate(%q,%q): start" [.string resourceGroupName, .string networkInterfaceName]
  Exec.defer (do (← glog.V ext 10).Infof "azInterfacesClient.CreateOrUpdate(%q,%q): end" [.string resourceGroupName, .string networkInterfaceName]) do
    az.client.CreateOrUpdate ext resourceGroupName networkInterfaceName parameters cancel

/-- The method `azInterfacesClient.Get`. -/
def azInterfacesClient.Get {T : Vendor} {σ : Type} (ext : External T σ) (az : azInterfacesClient T) (resourceGroupName : String) (networkInterfaceName : String) (expand : String) : Exec T σ (T.network.Interface × error T) := do
  flowcontrol.Accept ext az.rateLimiter
  (← glog.V ext 10).Infof "azInterfacesClient.Get(%q,%q): start" [.string resourceGroupName, .string networkInterfaceName]
  Exec.defer (do (← glog.V ext 10).Infof "azInterfacesClient.Get(%q,%q): end" [.string resourceGroupName, .string networkInterfaceName]) do
    az.client.Get ext resourceGroupName networkInterfaceName expand

/-- The method `azInterfacesClient.GetVirtualMachineScaleSetNetworkInterface`. -/
def azInterfacesClient.GetVirtualMachineScaleSetNetworkInterface {T : Vendor} {σ : Type} (ext : External T σ) (az : azInterfacesClient T) (resourceGroupName : String) (virtualMachineScaleSetName : String) (virtualmachineIndex : String) (networkInterfaceName : String) (expand : String) : Exec T σ (T.network.Interface × error T) := do
  flowcontrol.Accept ext az.rateLimiter
  (← glog.V ext 10).Infof "azInterfacesClient.GetVirtualMachineScaleSetNetworkInterface(%q,%q,%q,%q): start" [.string resourceGroupName, .string virtualMachineScaleSetName, .string virtualmachineIndex, .string networkInterfaceName]
  Exec.defer (do (← glog.V ext 10).Infof "azInterfacesClient.GetVirtualMachineScaleSetNetworkInterface(%q,%q,%q,%q): end" [.string resourceGroupName, .string virtualMachineScaleSetName, .string virtualmachineIndex, .string networkInterfaceName]) do
    az.client.GetVirtualMachineScaleSetNetworkInterface ext resourceGroupName virtualMachineScaleSetName virtualmachineIndex networkInterfaceName expand

/-- The struct `azLoadBalancersClient`. -/
structure azLoadBalancersClient (T : Vendor) where
  client : network.LoadBalancersClient T
  rateLimiter : T.flowcontrol.RateLimiter

/-- The constructor `newAzLoadBalancersClient`. -/
def newAzLoadBalancersClient {T : Vendor} (d : Defaults T) (config : azClientConfig T) : azLoadBalancersClient T :=
  let loadBalancerClient := network.NewLoadBalancersClient d config.subscriptionID
  let loadBalancerClient := { loadBalancerClient with BaseURI := config.resourceManagerEndpoint }
  let loadBalancerClient := { loadBalancerClient with Authorizer := autorest.NewBearerAuthorizer config.servicePrincipalToken }
  let loadBalancerClient := { loadBalancerClient with PollingDelay := 5 * time.Second }
  let loadBalancerClient := { loadBalancerClient with toClient := configureUserAgent d loadBalancerClient.toClient }
  { rateLimiter := config.rateLimiter
    client := loadBalancerClient }

/-- The method `azLoadBalancersClient.CreateOrUpdate`. -/
def azLoadBalancersClient.CreateOrUpdate {T : Vendor} {σ : Type} (ext : External T σ) (az : azLoadBalancersClient T) (resourceGroupName : String) (loadBalancerName : String) (parameters : T.network.LoadBalancer) (cancel : T.Chan Unit) : Exec T σ (T.Chan T.network.LoadBalancer × T.Chan (error T)) := do
  flowcontrol.Accept ext az.rateLimiter
  (← glog.V ext 10).Infof "azLoadBalancersClient.CreateOrUpdate(%q,%q): start" [.string resourceGroupName, .string loadBalancerName]
  Exec.defer (do (← glog.V ext 10).Infof "azLoadBalancersClient.CreateOrUpdate(%q,%q): end" [.string resourceGroupName, .string loadBalancerName]) do
    az.client.CreateOrUpdate ext resourceGroupName loadBalancerName parameters cancel

/-- The method `azLoadBalancersClient.Delete`. -/
def azLoadBalancersClient.Delete {T : Vendor} {σ : Type} (ext : External T σ) (az : azLoadBalancersClient T) (resourceGroupName : String) (loadBalancerName : String) (cancel : T.Chan Unit) : Exec T σ (T.Chan T.autorest.Response × T.Chan (error T)) := do
  flowcontrol.Accept ext az.rateLimiter
  (← glog.V ext 10).Infof "azLoadBalancersClient.Delete(%q,%q): start" [.string resourceGroupName, .string loadBalancerName]
  Exec.defer (do (← glog.V ext 10).Infof "azLoadBalancersClient.Delete(%q,%q): end" [.string resourceGroupName, .string loadBalancerName]) do
    az.client.Delete ext resourceGroupName loadBalancerName cancel

/-- The method `azLoadBalancersClient.Get`. -/
def azLoadBalancersClient.Get {T : Vendor} {σ : Type} (ext : External T σ) (az : azLoadBalancersClient T) (resourceGroupName : String) (loadBalancerName : String) (expand : String) : Exec T σ (T.network.LoadBalancer × error T) := do
  flowcontrol.Accept ext az.rateLimiter
  (← glog.V ext 10).Infof "azLoadBalancersClient.Get(%q,%q): start" [.string resourceGroupName, .string loadBalancerName]
  Exec.defer (do (← glog.V ext 10).Infof "azLoadBalancersClient.Get(%q,%q): end" [.string resourceGroupName, .string loadBalancerName]) do
    az.client.Get ext resourceGroupName loadBalancerName expand

/-- The method `azLoadBalancersClient.List`. -/
def azLoadBalancersClient.List {T : Vendor} {σ : Type} (ext : External T σ) (az : azLoadBalancersClient T) (resourceGroupName : String) : Exec T σ (T.network.LoadBalancerListResult × error T) := do
  flowcontrol.Accept ext az.rateLimiter
  (← glog.V ext 10).Infof "azLoadBalancersClient.List(%q): start" [.string resourceGroupName]
  Exec.defer (do (← glog.V ext 10).Infof "azLoadBalancersClient.List(%q): end" [.string resourceGroupName]) do
    az.client.List ext resourceGroupName

/-- The method `azLoadBalancersClient.ListNextResults`. -/
def azLoadBalancersClient.ListNextResults {T : Vendor} {σ : Type} (ext : External T σ) (az : azLoadBalancersClient T) (lastResult : T.network.LoadBalancerListResult) : Exec T σ (T.network.LoadBalancerListResult × error T) := do
  flowcontrol.Accept ext az.rateLimiter
  (← glog.V ext 10).Infof "azLoadBalancersClient.ListNextResults(%q): start" [.LoadBalancerListResult lastResult]
  Exec.defer (do (← glog.V ext 10).Infof "azLoadBalancersClient.ListNextResults(%q): end" [.LoadBalancerListResult lastResult]) do
    az.client.ListNextResults ext lastResult

/-- The struct `azPublicIPAddressesClient`. -/
structure azPublicIPAddressesClient (T : Vendor) where
  client : network.PublicIPAddressesClient T
  rateLimiter : T.flowcontrol.RateLimiter

/-- The constructor `newAzPublicIPAddressesClient`. -/
def newAzPublicIPAddressesClient {T : Vendor} (d : Defaults T) (config : azClientConfig T) : azPublicIPAddressesClient T :=
  let publicIPAddressClient := network.NewPublicIPAddressesClient d config.subscriptionID
  let publicIPAddressClient := { publicIPAddressClient with BaseURI := config.resourceManagerEndpoint }
  let publicIPAddressClient := { publicIPAddressClient with Authorizer := autorest.NewBearerAuthorizer config.servicePrincipalToken }
  let publicIPAddressClient := { publicIPAddressClient with PollingDelay := 5 * time.Second }
  let publicIPAddressClient := { publicIPAddressClient with toClient := configureUserAgent d publicIPAddressClient.toClient }
  { rateLimiter := config.rateLimiter
    client := publicIPAddressClient }

/-- The method `azPublicIPAddressesClient.CreateOrUpdate`. -/
def azPublicIPAddressesClient.CreateOrUpdate {T : Vendor} {σ : Type} (ext : External T σ) (az : azPublicIPAddressesClient T) (resourceGroupName : String) (publicIPAddressName : String) (parameters : T.network.PublicIPAddress) (cancel : T.Chan Unit) : Exec T σ (T.Chan T.network.PublicIPAddress × T.Chan (error T)) := do
  flowcontrol.Accept ext az.rateLimiter
  (← glog.V ext 10).Infof "azPublicIPAddressesClient.CreateOrUpdate(%q,%q): start" [.string resourceGroupName, .string publicIPAddressName]
  Exec.defer (do (← glog.V ext 10).Infof "azPublicIPAddressesClient.CreateOrUpdate(%q,%q): end" [.string resourceGroupName, .string publicIPAddressName]) do
    az.client.CreateOrUpdate ext resourceGroupName publicIPAddressName parameters cancel

/-- The method `azPublicIPAddressesClient.Delete`. -/
def azPublicIPAddressesClient.Delete {T : Vendor} {σ : Type} (ext : External T σ) (az : azPublicIPAddressesClient T) (resourceGroupName : String) (publicIPAddressName : String) (cancel : T.Chan Unit) : Exec T σ (T.Chan T.autorest.Response × T.Chan (error T)) := do
  flowcontrol.Accept ext az.rateLimiter
  (← glog.V ext 10).Infof "azPublicIPAddressesClient.Delete(%q,%q): start" [.string resourceGroupName, .string publicIPAddressName]
  Exec.defer (do (← glog.V ext 10).Infof "azPublicIPAddressesClient.Delete(%q,%q): end" [.string resourceGroupName, .string publicIPAddressName]) do
    az.client.Delete ext resourceGroupName publicIPAddressName cancel

/-- The method `azPublicIPAddressesClient.Get`. -/
def azPublicIPAddressesClient.Get {T : Vendor} {σ : Type} (ext : External T σ) (az : azPublicIPAddressesClient T) (resourceGroupName : String) (publicIPAddressName : String) (expand : String) : Exec T σ (T.network.PublicIPAddress × error T) := do
  flowcontrol.Accept ext az.rateLimiter
  (← glog.V ext 10).Infof "azPublicIPAddressesClient.Get(%q,%q): start" [.string resourceGroupName, .string publicIPAddressName]
  Exec.defer (do (← glog.V ext 10).Infof "azPublicIPAddressesClient.Get(%q,%q): end" [.string resourceGroupName, .string publicIPAddressName]) do
    az.client.Get ext resourceGroupName publicIPAddressName expand

/-- The method `azPublicIPAddressesClient.List`. -/
def azPublicIPAddressesClient.List {T : Vendor} {σ : Type} (ext : External T σ) (az : azPublicIPAddressesClient T) (resourceGroupName : String) : Exec T σ (T.network.PublicIPAddressListResult × error T) := do
  flowcontrol.Accept ext az.rateLimiter
  (← glog.V ext 10).Infof "azPublicIPAddressesClient.List(%q): start" [.string resourceGroupName]
  Exec.defer (do (← glog.V ext 10).Infof "azPublicIPAddressesClient.List(%q): end" [.string resourceGroupName]) do
    az.client.List ext resourceGroupName

/-- The method `azPublicIPAddressesClient.ListNextResults`. -/
def azPublicIPAddressesClient.ListNextResults {T : Vendor} {σ : Type} (ext : External T σ) (az : azPublicIPAddressesClient T) (lastResults : T.network.PublicIPAddressListResult) : Exec T σ (T.network.PublicIPAddressListResult × error T) := do
  flowcontrol.Accept ext az.rateLimiter
  (← glog.V ext 10).Infof "azPublicIPAddressesClient.ListNextResults(%q): start" [.PublicIPAddressListResult lastResults]
  Exec.defer (do (← glog.V ext 10).Infof "azPublicIPAddressesClient.ListNextResults(%q): end" [.PublicIPAddressListResult lastResults]) do
    az.client.ListNextResults ext lastResults

/-- The struct `azSubnetsClient`. -/
structure azSubnetsClient (T : Vendor) where
  client : network.SubnetsClient T
  rateLimiter : T.flowcontrol.RateLimiter

/-- The constructor `newAzSubnetsClient`. -/
def newAzSubnetsClient {T : Vendor} (d : Defaults T) (config : azClientConfig T) : azSubnetsClient T :=
  let subnetsClient := network.NewSubnetsClient d config.subscriptionID
  let subnetsClient := { subnetsClient with BaseURI := config.resourceManagerEndpoint }
  let subnetsClient := { subnetsClient with Authorizer := autorest.NewBearerAuthorizer config.servicePrincipalToken }
  let subnetsClient := { subnetsClient with PollingDelay := 5 * time.Second }
  let subnetsClient := { subnetsClient with toClient := configureUserAgent d subnetsClient.toClient }
  { client := subnetsClient
    rateLimiter := config.rateLimiter }

/-- The method `azSubnetsClient.CreateOrUpdate`. -/
def azSubnetsClient.CreateOrUpdate {T : Vendor} {σ : Type} (ext : External T σ) (az : azSubnetsClient T) (resourceGroupName : String) (virtualNetworkName : String) (subnetName : String) (subnetParameters : T.network.Subnet) (cancel : T.Chan Unit) : Exec T σ (T.Chan T.network.Subnet × T.Chan (error T)) := do
  flowcontrol.Accept ext az.rateLimiter
  (← glog.V ext 10).Infof "azSubnetsClient.CreateOrUpdate(%q,%q,%q): start" [.string resourceGroupName, .string virtualNetworkName, .string subnetName]
  Exec.defer (do (← glog.V ext 10).Infof "azSubnetsClient.CreateOrUpdate(%q,%q,%q): end" [.string resourceGroupName, .string virtualNetworkName, .string subnetName]) do
    az.client.CreateOrUpdate ext resourceGroupName virtualNetworkName subnetName subnetParameters cancel

/-- The method `azSubnetsClient.Delete`. -/
def azSubnetsClient.Delete {T : Vendor} {σ : Type} (ext : External T σ) (az : azSubnetsClient T) (resourceGroupName : String) (virtualNetworkName : String) (subnetName : String) (cancel : T.Chan Unit) : Exec T σ (T.Chan T.autorest.Response × T.Chan (error T)) := do
  flowcontrol.Accept ext az.rateLimiter
  (← glog.V ext 10).Infof "azSubnetsClient.Delete(%q,%q,%q): start" [.string resourceGroupName, .string virtualNetworkName, .string subnetName]
  Exec.defer (do (← glog.V ext 10).Infof "azSubnetsClient.Delete(%q,%q,%q): end" [.string resourceGroupName, .string virtualNetworkName, .string subnetName]) do
    az.client.Delete ext resourceGroupName virtualNetworkName subnetName cancel

/-- The method `azSubnetsClient.Get`. -/
def azSubnetsClient.Get {T : Vendor} {σ : Type} (ext : External T σ) (az : azSubnetsClient T) (resourceGroupName : String) (virtualNetworkName : String) (subnetName : String) (expand : String) : Exec T σ (T.network.Subnet × error T) := do
  flowcontrol.Accept ext az.rateLimiter
  (← glog.V ext 10).Infof "azSubnetsClient.Get(%q,%q,%q): start" [.string resourceGroupName, .string virtualNetworkName, .string subnetName]
  Exec.defer (do (← glog.V ext 10).Infof "azSubnetsClient.Get(%q,%q,%q): end" [.string resourceGroupName, .string virtualNetworkName, .string subnetName]) do
    az.client.Get ext resourceGroupName virtualNetworkName subnetName expand

/-- The method `azSubnetsClient.List`. -/
def azSubnetsClient.List {T : Vendor} {σ : Type} (ext : External T σ) (az : azSubnetsClient T) (resourceGroupName : String) (virtualNetworkName : String) : Exec T σ (T.network.SubnetListResult × error T) := do
  flowcontrol.Accept ext az.rateLimiter
  (← glog.V ext 10).Infof "azSubnetsClient.List(%q,%q): start" [.string resourceGroupName, .string virtualNetworkName]
  Exec.defer (do (← glog.V ext 10).Infof "azSubnetsClient.List(%q,%q): end" [.string resourceGroupName, .string virtualNetworkName]) do
    az.client.List ext resourceGroupName virtualNetworkName

/-- The struct `azSecurityGroupsClient`. -/
structure azSecurityGroupsClient (T : Vendor) where
  client : network.SecurityGroupsClient T
  rateLimiter : T.flowcontrol.RateLimiter

/-- The constructor `newAzSecurityGroupsClient`. -/
def newAzSecurityGroupsClient {T : Vendor} (d : Defaults T) (config : azClientConfig T) : azSecurityGroupsClient T :=
  let securityGroupsClient := network.NewSecurityGroupsClient d config.subscriptionID
  let securityGroupsClient := { securityGroupsClient with BaseURI := config.resourceManagerEndpoint }
  let securityGroupsClient := { securityGroupsClient with Authorizer := autorest.NewBearerAuthorizer config.servicePrincipalToken }
  let securityGroupsClient := { securityGroupsClient with PollingDelay := 5 * time.Second }
  let securityGroupsClient := { securityGroupsClient with toClient := configureUserAgent d securityGroupsClient.toClient }
  { rateLimiter := config.rateLimiter
    client := securityGroupsClient }

/-- The method `azSecurityGroupsClient.CreateOrUpdate`. -/
def azSecurityGroupsClient.CreateOrUpdate {T : Vendor} {σ : Type} (ext : External T σ) (az : azSecurityGroupsClient T) (resourceGroupName : String) (networkSecurityGroupName : String) (parameters : T.network.SecurityGroup) (cancel : T.Chan Unit) : Exec T σ (T.Chan T.network.SecurityGroup × T.Chan (error T)) := do
  flowcontrol.Accept ext az.rateLimiter
  (← glog.V ext 10).Infof "azSecurityGroupsClient.CreateOrUpdate(%q,%q): start" [.string resourceGroupName, .string networkSecurityGroupName]
  Exec.defer (do (← glog.V ext 10).Infof "azSecurityGroupsClient.CreateOrUpdate(%q,%q): end" [.string resourceGroupName, .string networkSecurityGroupName]) do
    az.client.CreateOrUpdate ext resourceGroupName networkSecurityGroupName parameters cancel

/-- The method `azSecurityGroupsClient.Delete`. -/
def azSecurityGroupsClient.Delete {T : Vendor} {σ : Type} (ext : External T σ) (az : azSecurityGroupsClient T) (resourceGroupName : String) (networkSecurityGroupName : String) (cancel : T.Chan Unit) : Exec T σ (T.Chan T.autorest.Response × T.Chan (error T)) := do
  flowcontrol.Accept ext az.rateLimiter
  (← glog.V ext 10).Infof "azSecurityGroupsClient.Delete(%q,%q): start" [.string resourceGroupName, .string networkSecurityGroupName]
  Exec.defer (do (← glog.V ext 10).Infof "azSecurityGroupsClient.Delete(%q,%q): end" [.string resourceGroupName, .string networkSecurityGroupName]) do
    az.client.Delete ext resourceGroupName networkSecurityGroupName cancel

/-- The method `azSecurityGroupsClient.Get`. -/
def azSecurityGroupsClient.Get {T : Vendor} {σ : Type} (ext : External T σ) (az : azSecurityGroupsClient T) (resourceGroupName : String) (networkSecurityGroupName : String) (expand : String) : Exec T σ (T.network.SecurityGroup × error T) := do
  flowcontrol.Accept ext az.rateLimiter
  (← glog.V ext 10).Infof "azSecurityGroupsClient.Get(%q,%q): start" [.string resourceGroupName, .string networkSecurityGroupName]
  Exec.defer (do (← glog.V ext 10).Infof "azSecurityGroupsClient.Get(%q,%q): end" [.string resourceGroupName, .string networkSecurityGroupName]) do
    az.client.Get ext resourceGroupName networkSecurityGroupName expand

/-- The method `azSecurityGroupsClient.List`. -/
def azSecurityGroupsClient.List {T : Vendor} {σ : Type} (ext : External T σ) (az : azSecurityGroupsClient T) (resourceGroupName : String) : Exec T σ (T.network.SecurityGroupListResult × error T) := do
  flowcontrol.Accept ext az.rateLimiter
  (← glog.V ext 10).Infof "azSecurityGroupsClient.List(%q): start" [.string resourceGroupName]
  Exec.defer (do (← glog.V ext 10).Infof "azSecurityGroupsClient.List(%q): end" [.string resourceGroupName]) do
    az.client.List ext resourceGroupName

/-- The struct `azVirtualMachineScaleSetsClient`. -/
structure azVirtualMachineScaleSetsClient (T : Vendor) where
  client : compute.VirtualMachineScaleSetsClient T
  rateLimiter : T.flowcontrol.RateLimiter

/-- The constructor `newAzVirtualMachineScaleSetsClient`. -/
def newAzVirtualMachineScaleSetsClient {T : Vendor} (d : Defaults T) (config : azClientConfig T) : azVirtualMachineScaleSetsClient T :=
  let virtualMachineScaleSetsClient := compute.NewVirtualMachineScaleSetsClient d config.subscriptionID
  let virtualMachineScaleSetsClient := { virtualMachineScaleSetsClient with BaseURI := config.resourceManagerEndpoint }
  let virtualMachineScaleSetsClient := { virtualMachineScaleSetsClient with Authorizer := autorest.NewBearerAuthorizer config.servicePrincipalToken }
  let virtualMachineScaleSetsClient := { virtualMachineScaleSetsClient with PollingDelay := 5 * time.Second }
  let virtualMachineScaleSetsClient := { virtualMachineScaleSetsClient with toClient := configureUserAgent d virtualMachineScaleSetsClient.toClient }
  { client := virtualMachineScaleSetsClient
    rateLimiter := config.rateLimiter }

/-- The method `azVirtualMachineScaleSetsClient.CreateOrUpdate`. -/
def azVirtualMachineScaleSetsClient.CreateOrUpdate {T : Vendor} {σ : Type} (ext : External T σ) (az : azVirtualMachineScaleSetsClient T) (resourceGroupName : String) (VMScaleSetName : String) (parameters : T.compute.VirtualMachineScaleSet) (cancel : T.Chan Unit) : Exec T σ (T.Chan T.compute.VirtualMachineScaleSet × T.Chan (error T)) := do
  flowcontrol.Accept ext az.rateLimiter
  (← glog.V ext 10).Infof "azVirtualMachineScaleSetsClient.CreateOrUpdate(%q,%q): start" [.string resourceGroupName, .string VMScaleSetName]
  Exec.defer (do (← glog.V ext 10).Infof "azVirtualMachineScaleSetsClient.CreateOrUpdate(%q,%q): end" [.string resourceGroupName, .string VMScaleSetName]) do
    az.client.CreateOrUpdate ext resourceGroupName VMScaleSetName parameters cancel

/-- The method `azVirtualMachineScaleSetsClient.Get`. -/
def azVirtualMachineScaleSetsClient.Get {T : Vendor} {σ : Type} (ext : External T σ) (az : azVirtualMachineScaleSetsClient T) (resourceGroupName : String) (VMScaleSetName : String) : Exec T σ (T.compute.VirtualMachineScaleSet × error T) := do
  flowcontrol.Accept ext az.rateLimiter
  (← glog.V ext 10).Infof "azVirtualMachineScaleSetsClient.Get(%q,%q): start" [.string resourceGroupName, .string VMScaleSetName]
  Exec.defer (do (← glog.V ext 10).Infof "azVirtualMachineScaleSetsClient.Get(%q,%q): end" [.string resourceGroupName, .string VMScaleSetName]) do
    az.client.Get ext resourceGroupName VMScaleSetName

/-- The method `azVirtualMachineScaleSetsClient.List`. -/
def azVirtualMachineScaleSetsClient.List {T : Vendor} {σ : Type} (ext : External T σ) (az : azVirtualMachineScaleSetsClient T) (resourceGroupName : String) : Exec T σ (T.compute.VirtualMachineScaleSetListResult × error T) := do
  flowcontrol.Accept ext az.rateLimiter
  (← glog.V ext 10).Infof "azVirtualMachineScaleSetsClient.List(%q,%q): start" [.string resourceGroupName]
  Exec.defer (do (← glog.V ext 10).Infof "azVirtualMachineScaleSetsClient.List(%q,%q): end" [.string resourceGroupName]) do
    az.client.List ext resourceGroupName

/-- The method `azVirtualMachineScaleSetsClient.ListNextResults`. -/
def azVirtualMachineScaleSetsClient.ListNextResults {T : Vendor} {σ : Type} (ext : External T σ) (az : azVirtualMachineScaleSetsClient T) (lastResults : T.compute.VirtualMachineScaleSetListResult) : Exec T σ (T.compute.VirtualMachineScaleSetListResult × error T) := do
  flowcontrol.Accept ext az.rateLimiter
  (← glog.V ext 10).Infof "azVirtualMachineScaleSetsClient.ListNextResults(%q): start" [.VirtualMachineScaleSetListResult lastResults]
  Exec.defer (do (← glog.V ext 10).Infof "azVirtualMachineScaleSetsClient.ListNextResults(%q): end" [.VirtualMachineScaleSetListResult lastResults]) do
    az.client.ListNextResults ext lastResults

/-- The method `azVirtualMachineScaleSetsClient.UpdateInstances`. -/
def azVirtualMachineScaleSetsClient.UpdateInstances {T : Vendor} {σ : Type} (ext : External T σ) (az : azVirtualMachineScaleSetsClient T) (resourceGroupName : String) (VMScaleSetName : String) (VMInstanceIDs : T.compute.VirtualMachineScaleSetVMInstanceRequiredIDs) (cancel : T.Chan Unit) : Exec T σ (T.Chan T.compute.OperationStatusResponse × T.Chan (error T)) := do
  flowcontrol.Accept ext az.rateLimiter
  (← glog.V ext 10).Infof "azVirtualMachineScaleSetsClient.UpdateInstances(%q,%q,%q): start" [.string resourceGroupName, .string VMScaleSetName, .VirtualMachineScaleSetVMInstanceRequiredIDs VMInstanceIDs]
  Exec.defer (do (← glog.V ext 10).Infof "azVirtualMachineScaleSetsClient.UpdateInstances(%q,%q,%q): end" [.string resourceGroupName, .string VMScaleSetName, .VirtualMachineScaleSetVMInstanceRequiredIDs VMInstanceIDs]) do
    az.client.UpdateInstances ext resourceGroupName VMScaleSetName VMInstanceIDs cancel

/-- The struct `azVirtualMachineScaleSetVMsClient`. -/
structure azVirtualMachineScaleSetVMsClient (T : Vendor) where
  client : compute.VirtualMachineScaleSetVMsClient T
  rateLimiter : T.flowcontrol.RateLimiter

/-- The constructor `newAzVirtualMachineScaleSetVMsClient`. -/
def newAzVirtualMachineScaleSetVMsClient {T : Vendor} (d : Defaults T) (config : azClientConfig T) : azVirtualMachineScaleSetVMsClient T :=
  let virtualMachineScaleSetVMsClient := compute.NewVirtualMachineScaleSetVMsClient d config.subscriptionID
  let virtualMachineScaleSetVMsClient := { virtualMachineScaleSetVMsClient with BaseURI := config.resourceManagerEndpoint }
  let virtualMachineScaleSetVMsClient := { virtualMachineScaleSetVMsClient with Authorizer := autorest.NewBearerAuthorizer config.servicePrincipalToken }
  let virtualMachineScaleSetVMsClient := { virtualMachineScaleSetVMsClient with PollingDelay := 5 * time.Second }
  let virtualMachineScaleSetVMsClient := { virtualMachineScaleSetVMsClient with toClient := configureUserAgent d virtualMachineScaleSetVMsClient.toClient }
  { client := virtualMachineScaleSetVMsClient
    rateLimiter := config.rateLimiter }

/-- The method `azVirtualMachineScaleSetVMsClient.Get`. -/
def azVirtualMachineScaleSetVMsClient.Get {T : Vendor} {σ : Type} (ext : External T σ) (az : azVirtualMachineScaleSetVMsClient T) (resourceGroupName : String) (VMScaleSetName : String) (instanceID : String) : Exec T σ (T.compute.VirtualMachineScaleSetVM × error T) := do
  flowcontrol.Accept ext az.rateLimiter
  (← glog.V ext 10).Infof "azVirtualMachineScaleSetVMsClient.Get(%q,%q,%q): start" [.string resourceGroupName, .string VMScaleSetName, .string instanceID]
  Exec.defer (do (← glog.V ext 10).Infof "azVirtualMachineScaleSetVMsClient.Get(%q,%q,%q): end" [.string resourceGroupName, .string VMScaleSetName, .string instanceID]) do
    az.client.Get ext resourceGroupName VMScaleSetName instanceID

/-- The method `azVirtualMachineScaleSetVMsClient.GetInstanceView`. -/
def azVirtualMachineScaleSetVMsClient.GetInstanceView {T : Vendor} {σ : Type} (ext : External T σ) (az : azVirtualMachineScaleSetVMsClient T) (resourceGroupName : String) (VMScaleSetName : String) (instanceID : String) : Exec T σ (T.compute.VirtualMachineScaleSetVMInstanceView × error T) := do
  flowcontrol.Accept ext az.rateLimiter
  (← glog.V ext 10).Infof "azVirtualMachineScaleSetVMsClient.GetInstanceView(%q,%q,%q): start" [.string resourceGroupName, .string VMScaleSetName, .string instanceID]
  Exec.defer (do (← glog.V ext 10).Infof "azVirtualMachineScaleSetVMsClient.GetInstanceView(%q,%q,%q): end" [.string resourceGroupName, .string VMScaleSetName, .string instanceID]) do
    az.client.GetInstanceView ext resourceGroupName VMScaleSetName instanceID

/-- The method `azVirtualMachineScaleSetVMsClient.List`. -/
def azVirtualMachineScaleSetVMsClient.List {T : Vendor} {σ : Type} (ext : External T σ) (az : azVirtualMachineScaleSetVMsClient T) (resourceGroupName : String) (virtualMachineScaleSetName : String) (filter : String) (selectParameter : String) (expand : String) : Exec T σ (T.compute.VirtualMachineScaleSetVMListResult × error T) := do
  flowcontrol.Accept ext az.rateLimiter
  (← glog.V ext 10).Infof "azVirtualMachineScaleSetVMsClient.List(%q,%q,%q): start" [.string resourceGroupName, .string virtualMachineScaleSetName, .string filter]
  Exec.defer (do (← glog.V ext 10).Infof "azVirtualMachineScaleSetVMsClient.List(%q,%q,%q): end" [.string resourceGroupName, .string virtualMachineScaleSetName, .string filter]) do
    az.client.List ext resourceGroupName virtualMachineScaleSetName filter selectParameter expand

/-- The method `azVirtualMachineScaleSetVMsClient.ListNextResults`. -/
def azVirtualMachineScaleSetVMsClient.ListNextResults {T : Vendor} {σ : Type} (ext : External T σ) (az : azVirtualMachineScaleSetVMsClient T) (lastResults : T.compute.VirtualMachineScaleSetVMListResult) : Exec T σ (T.compute.VirtualMachineScaleSetVMListResult × error T) := do
  flowcontrol.Accept ext az.rateLimiter
  (← glog.V ext 10).Infof "azVirtualMachineScaleSetVMsClient.ListNextResults(%q,%q,%q): start" [.VirtualMachineScaleSetVMListResult lastResults]
  Exec.defer (do (← glog.V ext 10).Infof "azVirtualMachineScaleSetVMsClient.ListNextResults(%q,%q,%q): end" [.VirtualMachineScaleSetVMListResult lastResults]) do
    az.client.ListNextResults ext lastResults

/-- The struct `azRoutesClient`. -/
structure azRoutesClient (T : Vendor) where
  client : network.RoutesClient T
  rateLimiter : T.flowcontrol.RateLimiter

/-- The constructor `newAzRoutesClient`. -/
def newAzRoutesClient {T : Vendor} (d : Defaults T) (config : azClientConfig T) : azRoutesClient T :=
  let routesClient := network.NewRoutesClient d config.subscriptionID
  let routesClient := { routesClient with BaseURI := config.resourceManagerEndpoint }
  let routesClient := { routesClient with Authorizer := autorest.NewBearerAuthorizer config.servicePrincipalToken }
  let routesClient := { routesClient with PollingDelay := 5 * time.Second }
  let routesClient := { routesClient with toClient := configureUserAgent d routesClient.toClient }
  { client := routesClient
    rateLimiter := config.rateLimiter }

/-- The method `azRoutesClient.CreateOrUpdate`. -/
def azRoutesClient.CreateOrUpdate {T : Vendor} {σ : Type} (ext : External T σ) (az : azRoutesClient T) (resourceGroupName : String) (routeTableName : String) (routeName : String) (routeParameters : T.network.Route) (cancel : T.Chan Unit) : Exec T σ (T.Chan T.network.Route × T.Chan (error T)) := do
  flowcontrol.Accept ext az.rateLimiter
  (← glog.V ext 10).Infof "azRoutesClient.CreateOrUpdate(%q,%q,%q): start" [.string resourceGroupName, .string routeTableName, .string routeName]
  Exec.defer (do (← glog.V ext 10).Infof "azRoutesClient.CreateOrUpdate(%q,%q,%q): end" [.string resourceGroupName, .string routeTableName, .string routeName]) do
    az.client.CreateOrUpdate ext resourceGroupName routeTableName routeName routeParameters cancel

/-- The method `azRoutesClient.Delete`. -/
def azRoutesClient.Delete {T : Vendor} {σ : Type} (ext : External T σ) (az : azRoutesClient T) (resourceGroupName : String) (routeTableName : String) (routeName : String) (cancel : T.Chan Unit) : Exec T σ (T.Chan T.autorest.Response × T.Chan (error T)) := do
  flowcontrol.Accept ext az.rateLimiter
  (← glog.V ext 10).Infof "azRoutesClient.Delete(%q,%q,%q): start" [.string resourceGroupName, .string routeTableName, .string routeName]
  Exec.defer (do (← glog.V ext 10).Infof "azRoutesClient.Delete(%q,%q,%q): end" [.string resourceGroupName, .string routeTableName, .string routeName]) do
    az.client.Delete ext resourceGroupName routeTableName routeName cancel

/-- The struct `azRouteTablesClient`. -/
structure azRouteTablesClient (T : Vendor) where
  client : network.RouteTablesClient T
  rateLimiter : T.flowcontrol.RateLimiter

/-- The constructor `newAzRouteTablesClient`. -/
def newAzRouteTablesClient {T : Vendor} (d : Defaults T) (config : azClientConfig T) : azRouteTablesClient T :=
  let routeTablesClient := network.NewRouteTablesClient d config.subscriptionID
  let routeTablesClient := { routeTablesClient with BaseURI := config.resourceManagerEndpoint }
  let routeTablesClient := { routeTablesClient with Authorizer := autorest.NewBearerAuthorizer config.servicePrincipalToken }
  let routeTablesClient := { routeTablesClient with PollingDelay := 5 * time.Second }
  let routeTablesClient := { routeTablesClient with toClient := configureUserAgent d routeTablesClient.toClient }
  { client := routeTablesClient
    rateLimiter := config.rateLimiter }

/-- The method `azRouteTablesClient.CreateOrUpdate`. -/
def azRouteTablesClient.CreateOrUpdate {T : Vendor} {σ : Type} (ext : External T σ) (az : azRouteTablesClient T) (resourceGroupName : String) (routeTableName : String) (parameters : T.network.RouteTable) (cancel : T.Chan Unit) : Exec T σ (T.Chan T.network.RouteTable × T.Chan (error T)) := do
  flowcontrol.Accept ext az.rateLimiter
  (← glog.V ext 10).Infof "azRouteTablesClient.CreateOrUpdate(%q,%q): start" [.string resourceGroupName, .string routeTableName]
  Exec.defer (do (← glog.V ext 10).Infof "azRouteTablesClient.CreateOrUpdate(%q,%q): end" [.string resourceGroupName, .string routeTableName]) do
    az.client.CreateOrUpdate ext resourceGroupName routeTableName parameters cancel

/-- The method `azRouteTablesClient.Get`. -/
def azRouteTablesClient.Get {T : Vendor} {σ : Type} (ext : External T σ) (az : azRouteTablesClient T) (resourceGroupName : String) (routeTableName : String) (expand : String) : Exec T σ (T.network.RouteTable × error T) := do
  flowcontrol.Accept ext az.rateLimiter
  (← glog.V ext 10).Infof "azRouteTablesClient.Get(%q,%q): start" [.string resourceGroupName, .string routeTableName]
  Exec.defer (do (← glog.V ext 10).Infof "azRouteTablesClient.Get(%q,%q): end" [.string resourceGroupName, .string routeTableName]) do
    az.client.Get ext resourceGroupName routeTableName expand

/-- The struct `azStorageAccountClient`. -/
structure azStorageAccountClient (T : Vendor) where
  client : storage.AccountsClient T
  rateLimiter : T.flowcontrol.RateLimiter

/-- The constructor `newAzStorageAccountClient`. -/
def newAzStorageAccountClient {T : Vendor} (d : Defaults T) (config : azClientConfig T) : azStorageAccountClient T :=
  let storageAccountClient := storage.NewAccountsClientWithBaseURI d config.resourceManagerEndpoint config.subscriptionID
  let storageAccountClient := { storageAccountClient with Authorizer := autorest.NewBearerAuthorizer config.servicePrincipalToken }
  let storageAccountClient := { storageAccountClient with PollingDelay := 5 * time.Second }
  let storageAccountClient := { storageAccountClient with toClient := configureUserAgent d storageAccountClient.toClient }
  { client := storageAccountClient
    rateLimiter := config.rateLimiter }

/-- The method `azStorageAccountClient.Create`. -/
def azStorageAccountClient.Create {T : Vendor} {σ : Type} (ext : External T σ) (az : azStorageAccountClient T) (resourceGroupName : String) (accountName : String) (parameters : T.storage.AccountCreateParameters) (cancel : T.Chan Unit) : Exec T σ (T.Chan T.storage.Account × T.Chan (error T)) := do
  flowcontrol.Accept ext az.rateLimiter
  (← glog.V ext 10).Infof "azStorageAccountClient.Create(%q,%q): start" [.string resourceGroupName, .string accountName]
  Exec.defer (do (← glog.V ext 10).Infof "azStorageAccountClient.Create(%q,%q): end" [.string resourceGroupName, .string accountName]) do
    az.client.Create ext resourceGroupName accountName parameters cancel

/-- The method `azStorageAccountClient.Delete`. -/
def azStorageAccountClient.Delete {T : Vendor} {σ : Type} (ext : External T σ) (az : azStorageAccountClient T) (resourceGroupName : String) (accountName : String) : Exec T σ (T.autorest.Response × error T) := do
  flowcontrol.Accept ext az.rateLimiter
  (← glog.V ext 10).Infof "azStorageAccountClient.Delete(%q,%q): start" [.string resourceGroupName, .string accountName]
  Exec.defer (do (← glog.V ext 10).Infof "azStorageAccountClient.Delete(%q,%q): end" [.string resourceGroupName, .string accountName]) do
    az.client.Delete ext resourceGroupName accountName

/-- The method `azStorageAccountClient.ListKeys`. -/
def azStorageAccountClient.ListKeys {T : Vendor} {σ : Type} (ext : External T σ) (az : azStorageAccountClient T) (resourceGroupName : String) (accountName : String) : Exec T σ (T.storage.AccountListKeysResult × error T) := do
  flowcontrol.Accept ext az.rateLimiter
  (← glog.V ext 10).Infof "azStorageAccountClient.ListKeys(%q,%q): start" [.string resourceGroupName, .string accountName]
  Exec.defer (do (← glog.V ext 10).Infof "azStorageAccountClient.ListKeys(%q,%q): end" [.string resourceGroupName, .string accountName]) do
    az.client.ListKeys ext resourceGroupName accountName

/-- The method `azStorageAccountClient.ListByResourceGroup`. -/
def azStorageAccountClient.ListByResourceGroup {T : Vendor} {σ : Type} (ext : External T σ) (az : azStorageAccountClient T) (resourceGroupName : String) : Exec T σ (T.storage.AccountListResult × error T) := do
  flowcontrol.Accept ext az.rateLimiter
  (← glog.V ext 10).Infof "azStorageAccountClient.ListByResourceGroup(%q): start" [.string resourceGroupName]
  Exec.defer (do (← glog.V ext 10).Infof "azStorageAccountClient.ListByResourceGroup(%q): end" [.string resourceGroupName]) do
    az.client.ListByResourceGroup ext resourceGroupName

/-- The method `azStorageAccountClient.GetProperties`. -/
def azStorageAccountClient.GetProperties {T : Vendor} {σ : Type} (ext : External T σ) (az : azStorageAccountClient T) (resourceGroupName : String) (accountName : String) : Exec T σ (T.storage.Account × error T) := do
  flowcontrol.Accept ext az.rateLimiter
  (← glog.V ext 10).Infof "azStorageAccountClient.GetProperties(%q,%q): start" [.string resourceGroupName, .string accountName]
  Exec.defer (do (← glog.V ext 10).Infof "azStorageAccountClient.GetProperties(%q,%q): end" [.string resourceGroupName, .string accountName]) do
    az.client.GetProperties ext resourceGroupName accountName

/-- The struct `azDisksClient`. -/
structure azDisksClient (T : Vendor) where
  client : disk.DisksClient T
  rateLimiter : T.flowcontrol.RateLimiter

/-- The constructor `newAzDisksClient`. -/
def newAzDisksClient {T : Vendor} (d : Defaults T) (config : azClientConfig T) : azDisksClient T :=
  let disksClient := disk.NewDisksClientWithBaseURI d config.resourceManagerEndpoint config.subscriptionID
  let disksClient := { disksClient with Authorizer := autorest.NewBearerAuthorizer config.servicePrincipalToken }
  let disksClient := { disksClient with PollingDelay := 5 * time.Second }
  let disksClient := { disksClient with toClient := configureUserAgent d disksClient.toClient }
  { client := disksClient
    rateLimiter := config.rateLimiter }

/-- The method `azDisksClient.CreateOrUpdate`. -/
def azDisksClient.CreateOrUpdate {T : Vendor} {σ : Type} (ext : External T σ) (az : azDisksClient T) (resourceGroupName : String) (diskName : String) (diskParameter : T.disk.Model) (cancel : T.Chan Unit) : Exec T σ (T.Chan T.disk.Model × T.Chan (error T)) := do
  flowcontrol.Accept ext az.rateLimiter
  (← glog.V ext 10).Infof "azDisksClient.CreateOrUpdate(%q,%q): start" [.string resourceGroupName, .string diskName]
  Exec.defer (do (← glog.V ext 10).Infof "azDisksClient.CreateOrUpdate(%q,%q): end" [.string resourceGroupName, .string diskName]) do
    az.client.CreateOrUpdate ext resourceGroupName diskName diskParameter cancel

/-- The method `azDisksClient.Delete`. -/
def azDisksClient.Delete {T : Vendor} {σ : Type} (ext : External T σ) (az : azDisksClient T) (resourceGroupName : String) (diskName : String) (cancel : T.Chan Unit) : Exec T σ (T.Chan T.disk.OperationStatusResponse × T.Chan (error T)) := do
  flowcontrol.Accept ext az.rateLimiter
  (← glog.V ext 10).Infof "azDisksClient.Delete(%q,%q): start" [.string resourceGroupName, .string diskName]
  Exec.defer (do (← glog.V ext 10).Infof "azDisksClient.Delete(%q,%q): end" [.string resourceGroupName, .string diskName]) do
    az.client.Delete ext resourceGroupName diskName cancel

/-- The method `azDisksClient.Get`. -/
def azDisksClient.Get {T : Vendor} {σ : Type} (ext : External T σ) (az : azDisksClient T) (resourceGroupName : String) (diskName : String) : Exec T σ (T.disk.Model × error T) := do
  flowcontrol.Accept ext az.rateLimiter
  (← glog.V ext 10).Infof "azDisksClient.Get(%q,%q): start" [.string resourceGroupName, .string diskName]
  Exec.defer (do (← glog.V ext 10).Infof "azDisksClient.Get(%q,%q): end" [.string resourceGroupName, .string diskName]) do
    az.client.Get ext resourceGroupName diskName

/-! ## The methods as one family

`SyncCall T α` is a call of a method that returns `(result α, err error)`;
`AsyncCall T α` is a call of a long-running method, which takes a cancel channel
and returns `(<-chan α, <-chan error)`. Each constructor is one method of one
wrapper with its receiver and arguments. -/

/-- A call of a synchronous wrapper method. -/
inductive SyncCall (T : Vendor) : Type → Type where
  | azVirtualMachinesClient_Get (az : azVirtualMachinesClient T) (resourceGroupName : String) (VMName : String) (expand : T.compute.InstanceViewTypes) : SyncCall T T.compute.VirtualMachine
  | azVirtualMachinesClient_List (az : azVirtualMachinesClient T) (resourceGroupName : String) : SyncCall T T.compute.VirtualMachineListResult
  | azVirtualMachinesClient_ListNextResults (az : azVirtualMachinesClient T) (lastResults : T.compute.VirtualMachineListResult) : SyncCall T T.compute.VirtualMachineListResult
  | azInterfacesClient_Get (az : azInterfacesClient T) (resourceGroupName : String) (networkInterfaceName : String) (expand : String) : SyncCall T T.network.Interface
  | azInterfacesClient_GetVirtualMachineScaleSetNetworkInterface (az : azInterfacesClient T) (resourceGroupName : String) (virtualMachineScaleSetName : String) (virtualmachineIndex : String) (networkInterfaceName : String) (expand : String) : SyncCall T T.network.Interface
  | azLoadBalancersClient_Get (az : azLoadBalancersClient T) (resourceGroupName : String) (loadBalancerName : String) (expand : String) : SyncCall T T.network.LoadBalancer
  | azLoadBalancersClient_List (az : azLoadBalancersClient T) (resourceGroupName : String) : SyncCall T T.network.LoadBalancerListResult
  | azLoadBalancersClient_ListNextResults (az : azLoadBalancersClient T) (lastResult : T.network.LoadBalancerListResult) : SyncCall T T.network.LoadBalancerListResult
  | azPublicIPAddressesClient_Get (az : azPublicIPAddressesClient T) (resourceGroupName : String) (publicIPAddressName : String) (expand : String) : SyncCall T T.network.PublicIPAddress
  | azPublicIPAddressesClient_List (az : azPublicIPAddressesClient T) (resourceGroupName : String) : SyncCall T T.network.PublicIPAddressListResult
  | azPublicIPAddressesClient_ListNextResults (az : azPublicIPAddressesClient T) (lastResults : T.network.PublicIPAddressListResult) : SyncCall T T.network.PublicIPAddressListResult
  | azSubnetsClient_Get (az : azSubnetsClient T) (resourceGroupName : String) (virtualNetworkName : String) (subnetName : String) (expand : String) : SyncCall T T.network.Subnet
  | azSubnetsClient_List (az : azSubnetsClient T) (resourceGroupName : String) (virtualNetworkName : String) : SyncCall T T.network.SubnetListResult
  | azSecurityGroupsClient_Get (az : azSecurityGroupsClient T) (resourceGroupName : String) (networkSecurityGroupName : String) (expand : String) : SyncCall T T.network.SecurityGroup
  | azSecurityGroupsClient_List (az : azSecurityGroupsClient T) (resourceGroupName : String) : SyncCall T T.network.SecurityGroupListResult
  | azVirtualMachineScaleSetsClient_Get (az : azVirtualMachineScaleSetsClient T) (resourceGroupName : String) (VMScaleSetName : String) : SyncCall T T.compute.VirtualMachineScaleSet
  | azVirtualMachineScaleSetsClient_List (az : azVirtualMachineScaleSetsClient T) (resourceGroupName : String) : SyncCall T T.compute.VirtualMachineScaleSetListResult
  | azVirtualMachineScaleSetsClient_ListNextResults (az : azVirtualMachineScaleSetsClient T) (lastResults : T.compute.VirtualMachineScaleSetListResult) : SyncCall T T.compute.VirtualMachineScaleSetListResult
  | azVirtualMachineScaleSetVMsClient_Get (az : azVirtualMachineScaleSetVMsClient T) (resourceGroupName : String) (VMScaleSetName : String) (instanceID : String) : SyncCall T T.compute.VirtualMachineScaleSetVM
  | azVirtualMachineScaleSetVMsClient_GetInstanceView (az : azVirtualMachineScaleSetVMsClient T) (resourceGroupName : String) (VMScaleSetName : String) (instanceID : String) : SyncCall T T.compute.VirtualMachineScaleSetVMInstanceView
  | azVirtualMachineScaleSetVMsClient_List (az : azVirtualMachineScaleSetVMsClient T) (resourceGroupName : String) (virtualMachineScaleSetName : String) (filter : String) (selectParameter : String) (expand : String) : SyncCall T T.compute.VirtualMachineScaleSetVMListResult
  | azVirtualMachineScaleSetVMsClient_ListNextResults (az : azVirtualMachineScaleSetVMsClient T) (lastResults : T.compute.VirtualMachineScaleSetVMListResult) : SyncCall T T.compute.VirtualMachineScaleSetVMListResult
  | azRouteTablesClient_Get (az : azRouteTablesClient T) (resourceGroupName : String) (routeTableName : String) (expand : String) : SyncCall T T.network.RouteTable
  | azStorageAccountClient_Delete (az : azStorageAccountClient T) (resourceGroupName : String) (accountName : String) : SyncCall T T.autorest.Response
  | azStorageAccountClient_ListKeys (az : azStorageAccountClient T) (resourceGroupName : String) (accountName : String) : SyncCall T T.storage.AccountListKeysResult
  | azStorageAccountClient_ListByResourceGroup (az : azStorageAccountClient T) (resourceGroupName : String) : SyncCall T T.storage.AccountListResult
  | azStorageAccountClient_GetProperties (az : azStorageAccountClient T) (resourceGroupName : String) (accountName : String) : SyncCall T T.storage.Account
  | azDisksClient_Get (az : azDisksClient T) (resourceGroupName : String) (diskName : String) : SyncCall T T.disk.Model

/-- A call of a long-running wrapper method. -/
inductive AsyncCall (T : Vendor) : Type → Type where
  | azVirtualMachinesClient_CreateOrUpdate (az : azVirtualMachinesClient T) (resourceGroupName : String) (VMName : String) (parameters : T.compute.VirtualMachine) (cancel : T.Chan Unit) : AsyncCall T T.compute.VirtualMachine
  | azInterfacesClient_CreateOrUpdate (az : azInterfacesClient T) (resourceGroupName : String) (networkInterfaceName : String) (parameters : T.network.Interface) (cancel : T.Chan Unit) : AsyncCall T T.network.Interface
  | azLoadBalancersClient_CreateOrUpdate (az : azLoadBalancersClient T) (resourceGroupName : String) (loadBalancerName : String) (parameters : T.network.LoadBalancer) (cancel : T.Chan Unit) : AsyncCall T T.network.LoadBalancer
  | azLoadBalancersClient_Delete (az : azLoadBalancersClient T) (resourceGroupName : String) (loadBalancerName : String) (cancel : T.Chan Unit) : AsyncCall T T.autorest.Response
  | azPublicIPAddressesClient_CreateOrUpdate (az : azPublicIPAddressesClient T) (resourceGroupName : String) (publicIPAddressName : String) (parameters : T.network.PublicIPAddress) (cancel : T.Chan Unit) : AsyncCall T T.network.PublicIPAddress
  | azPublicIPAddressesClient_Delete (az : azPublicIPAddressesClient T) (resourceGroupName : String) (publicIPAddressName : String) (cancel : T.Chan Unit) : AsyncCall T T.autorest.Response
  | azSubnetsClient_CreateOrUpdate (az : azSubnetsClient T) (resourceGroupName : String) (virtualNetworkName : String) (subnetName : String) (subnetParameters : T.network.Subnet) (cancel : T.Chan Unit) : AsyncCall T T.network.Subnet
  | azSubnetsClient_Delete (az : azSubnetsClient T) (resourceGroupName : String) (virtualNetworkName : String) (subnetName : String) (cancel : T.Chan Unit) : AsyncCall T T.autorest.Response
  | azSecurityGroupsClient_CreateOrUpdate (az : azSecurityGroupsClient T) (resourceGroupName : String) (networkSecurityGroupName : String) (parameters : T.network.SecurityGroup) (cancel : T.Chan Unit) : AsyncCall T T.network.SecurityGroup
  | azSecurityGroupsClient_Delete (az : azSecurityGroupsClient T) (resourceGroupName : String) (networkSecurityGroupName : String) (cancel : T.Chan Unit) : AsyncCall T T.autorest.Response
  | azVirtualMachineScaleSetsClient_CreateOrUpdate (az : azVirtualMachineScaleSetsClient T) (resourceGroupName : String) (VMScaleSetName : String) (parameters : T.compute.VirtualMachineScaleSet) (cancel : T.Chan Unit) : AsyncCall T T.compute.VirtualMachineScaleSet
  | azVirtualMachineScaleSetsClient_UpdateInstances (az : azVirtualMachineScaleSetsClient T) (resourceGroupName : String) (VMScaleSetName : String) (VMInstanceIDs : T.compute.VirtualMachineScaleSetVMInstanceRequiredIDs) (cancel : T.Chan Unit) : AsyncCall T T.compute.OperationStatusResponse
  | azRoutesClient_CreateOrUpdate (az : azRoutesClient T) (resourceGroupName : String) (routeTableName : String) (routeName : String) (routeParameters : T.network.Route) (cancel : T.Chan Unit) : AsyncCall T T.network.Route
  | azRoutesClient_Delete (az : azRoutesClient T) (resourceGroupName : String) (routeTableName : String) (routeName : String) (cancel : T.Chan Unit) : AsyncCall T T.autorest.Response
  | azRouteTablesClient_CreateOrUpdate (az : azRouteTablesClient T) (resourceGroupName : String) (routeTableName : String) (parameters : T.network.RouteTable) (cancel : T.Chan Unit) : AsyncCall T T.network.RouteTable
  | azStorageAccountClient_Create (az : azStorageAccountClient T) (resourceGroupName : String) (accountName : String) (parameters : T.storage.AccountCreateParameters) (cancel : T.Chan Unit) : AsyncCall T T.storage.Account
  | azDisksClient_CreateOrUpdate (az : azDisksClient T) (resourceGroupName : String) (diskName : String) (diskParameter : T.disk.Model) (cancel : T.Chan Unit) : AsyncCall T T.disk.Model
  | azDisksClient_Delete (az : azDisksClient T) (resourceGroupName : String) (diskName : String) (cancel : T.Chan Unit) : AsyncCall T T.disk.OperationStatusResponse

/-- Running the wrapper method of the call. -/
def SyncCall.run {T : Vendor} {σ α : Type} (ext : External T σ) : SyncCall T α → Exec T σ (α × error T)
  | .azVirtualMachinesClient_Get az resourceGroupName VMName expand => az.Get ext resourceGroupName VMName expand
  | .azVirtualMachinesClient_List az resourceGroupName => az.List ext resourceGroupName
  | .azVirtualMachinesClient_ListNextResults az lastResults => az.ListNextResults ext lastResults
  | .azInterfacesClient_Get az resourceGroupName networkInterfaceName expand => az.Get ext resourceGroupName networkInterfaceName expand
  | .azInterfacesClient_GetVirtualMachineScaleSetNetworkInterface az resourceGroupName virtualMachineScaleSetName virtualmachineIndex networkInterfaceName expand => az.GetVirtualMachineScaleSetNetworkInterface ext resourceGroupName virtualMachineScaleSetName virtualmachineIndex networkInterfaceName expand
  | .azLoadBalancersClient_Get az resourceGroupName loadBalancerName expand => az.Get ext resourceGroupName loadBalancerName expand
  | .azLoadBalancersClient_List az resourceGroupName => az.List ext resourceGroupName
  | .azLoadBalancersClient_ListNextResults az lastResult => az.ListNextResults ext lastResult
  | .azPublicIPAddressesClient_Get az resourceGroupName publicIPAddressName expand => az.Get ext resourceGroupName publicIPAddressName expand
  | .azPublicIPAddressesClient_List az resourceGroupName => az.List ext resourceGroupName
  | .azPublicIPAddressesClient_ListNextResults az lastResults => az.ListNextResults ext lastResults
  | .azSubnetsClient_Get az resourceGroupName virtualNetworkName subnetName expand => az.Get ext resourceGroupName virtualNetworkName subnetName expand
  | .azSubnetsClient_List az resourceGroupName virtualNetworkName => az.List ext resourceGroupName virtualNetworkName
  | .azSecurityGroupsClient_Get az resourceGroupName networkSecurityGroupName expand => az.Get ext resourceGroupName networkSecurityGroupName expand
  | .azSecurityGroupsClient_List az resourceGroupName => az.List ext resourceGroupName
  | .azVirtualMachineScaleSetsClient_Get az resourceGroupName VMScaleSetName => az.Get ext resourceGroupName VMScaleSetName
  | .azVirtualMachineScaleSetsClient_List az resourceGroupName => az.List ext resourceGroupName
  | .azVirtualMachineScaleSetsClient_ListNextResults az lastResults => az.ListNextResults ext lastResults
  | .azVirtualMachineScaleSetVMsClient_Get az resourceGroupName VMScaleSetName instanceID => az.Get ext resourceGroupName VMScaleSetName instanceID
  | .azVirtualMachineScaleSetVMsClient_GetInstanceView az resourceGroupName VMScaleSetName instanceID => az.GetInstanceView ext resourceGroupName VMScaleSetName instanceID
  | .azVirtualMachineScaleSetVMsClient_List az resourceGroupName virtualMachineScaleSetName filter selectParameter expand => az.List ext resourceGroupName virtualMachineScaleSetName filter selectParameter expand
  | .azVirtualMachineScaleSetVMsClient_ListNextResults az lastResults => az.ListNextResults ext lastResults
  | .azRouteTablesClient_Get az resourceGroupName routeTableName expand => az.Get ext resourceGroupName routeTableName expand
  | .azStorageAccountClient_Delete az resourceGroupName accountName => az.Delete ext resourceGroupName accountName
  | .azStorageAccountClient_ListKeys az resourceGroupName accountName => az.ListKeys ext resourceGroupName accountName
  | .azStorageAccountClient_ListByResourceGroup az resourceGroupName => az.ListByResourceGroup ext resourceGroupName
  | .azStorageAccountClient_GetProperties az resourceGroupName accountName => az.GetProperties ext resourceGroupName accountName
  | .azDisksClient_Get az resourceGroupName diskName => az.Get ext resourceGroupName diskName

/-- The SDK method of the same name as the wrapper method, on the SDK client the
wrapper holds, with the arguments of the call in the positions of the signature. -/
def SyncCall.direct {T : Vendor} {σ α : Type} (ext : External T σ) : SyncCall T α → σ → (α × error T) × σ
  | .azVirtualMachinesClient_Get az resourceGroupName VMName expand => ext.VirtualMachinesClient_Get az.client resourceGroupName VMName expand
  | .azVirtualMachinesClient_List az resourceGroupName => ext.VirtualMachinesClient_List az.client resourceGroupName
  | .azVirtualMachinesClient_ListNextResults az lastResults => ext.VirtualMachinesClient_ListNextResults az.client lastResults
  | .azInterfacesClient_Get az resourceGroupName networkInterfaceName expand => ext.InterfacesClient_Get az.client resourceGroupName networkInterfaceName expand
  | .azInterfacesClient_GetVirtualMachineScaleSetNetworkInterface az resourceGroupName virtualMachineScaleSetName virtualmachineIndex networkInterfaceName expand => ext.InterfacesClient_GetVirtualMachineScaleSetNetworkInterface az.client resourceGroupName virtualMachineScaleSetName virtualmachineIndex networkInterfaceName expand
  | .azLoadBalancersClient_Get az resourceGroupName loadBalancerName expand => ext.LoadBalancersClient_Get az.client resourceGroupName loadBalancerName expand
  | .azLoadBalancersClient_List az resourceGroupName => ext.LoadBalancersClient_List az.client resourceGroupName
  | .azLoadBalancersClient_ListNextResults az lastResult => ext.LoadBalancersClient_ListNextResults az.client lastResult
  | .azPublicIPAddressesClient_Get az resourceGroupName publicIPAddressName expand => ext.PublicIPAddressesClient_Get az.client resourceGroupName publicIPAddressName expand
  | .azPublicIPAddressesClient_List az resourceGroupName => ext.PublicIPAddressesClient_List az.client resourceGroupName
  | .azPublicIPAddressesClient_ListNextResults az lastResults => ext.PublicIPAddressesClient_ListNextResults az.client lastResults
  | .azSubnetsClient_Get az resourceGroupName virtualNetworkName subnetName expand => ext.SubnetsClient_Get az.client resourceGroupName virtualNetworkName subnetName expand
  | .azSubnetsClient_List az resourceGroupName virtualNetworkName => ext.SubnetsClient_List az.client resourceGroupName virtualNetworkName
  | .azSecurityGroupsClient_Get az resourceGroupName networkSecurityGroupName expand => ext.SecurityGroupsClient_Get az.client resourceGroupName networkSecurityGroupName expand
  | .azSecurityGroupsClient_List az resourceGroupName => ext.SecurityGroupsClient_List az.client resourceGroupName
  | .azVirtualMachineScaleSetsClient_Get az resourceGroupName VMScaleSetName => ext.VirtualMachineScaleSetsClient_Get az.client resourceGroupName VMScaleSetName
  | .azVirtualMachineScaleSetsClient_List az resourceGroupName => ext.VirtualMachineScaleSetsClient_List az.client resourceGroupName
  | .azVirtualMachineScaleSetsClient_ListNextResults az lastResults => ext.VirtualMachineScaleSetsClient_ListNextResults az.client lastResults
  | .azVirtualMachineScaleSetVMsClient_Get az resourceGroupName VMScaleSetName instanceID => ext.VirtualMachineScaleSetVMsClient_Get az.client resourceGroupName VMScaleSetName instanceID
  | .azVirtualMachineScaleSetVMsClient_GetInstanceView az resourceGroupName VMScaleSetName instanceID => ext.VirtualMachineScaleSetVMsClient_GetInstanceView az.client resourceGroupName VMScaleSetName instanceID
  | .azVirtualMachineScaleSetVMsClient_List az resourceGroupName virtualMachineScaleSetName filter selectParameter expand => ext.VirtualMachineScaleSetVMsClient_List az.client resourceGroupName virtualMachineScaleSetName filter selectParameter expand
  | .azVirtualMachineScaleSetVMsClient_ListNextResults az lastResults => ext.VirtualMachineScaleSetVMsClient_ListNextResults az.client lastResults
  | .azRouteTablesClient_Get az resourceGroupName routeTableName expand => ext.RouteTablesClient_Get az.client resourceGroupName routeTableName expand
  | .azStorageAccountClient_Delete az resourceGroupName accountName => ext.AccountsClient_Delete az.client resourceGroupName accountName
  | .azStorageAccountClient_ListKeys az resourceGroupName accountName => ext.AccountsClient_ListKeys az.client resourceGroupName accountName
  | .azStorageAccountClient_ListByResourceGroup az resourceGroupName => ext.AccountsClient_ListByResourceGroup az.client resourceGroupName
  | .azStorageAccountClient_GetProperties az resourceGroupName accountName => ext.AccountsClient_GetProperties az.client resourceGroupName accountName
  | .azDisksClient_Get az resourceGroupName diskName => ext.DisksClient_Get az.client resourceGroupName diskName

/-- The rate limiter of the wrapper the call is made on. -/
def SyncCall.rateLimiter {T : Vendor} {α : Type} : SyncCall T α → T.flowcontrol.RateLimiter
  | .azVirtualMachinesClient_Get az _ _ _ => az.rateLimiter
  | .azVirtualMachinesClient_List az _ => az.rateLimiter
  | .azVirtualMachinesClient_ListNextResults az _ => az.rateLimiter
  | .azInterfacesClient_Get az _ _ _ => az.rateLimiter
  | .azInterfacesClient_GetVirtualMachineScaleSetNetworkInterface az _ _ _ _ _ => az.rateLimiter
  | .azLoadBalancersClient_Get az _ _ _ => az.rateLimiter
  | .azLoadBalancersClient_List az _ => az.rateLimiter
  | .azLoadBalancersClient_ListNextResults az _ => az.rateLimiter
  | .azPublicIPAddressesClient_Get az _ _ _ => az.rateLimiter
  | .azPublicIPAddressesClient_List az _ => az.rateLimiter
  | .azPublicIPAddressesClient_ListNextResults az _ => az.rateLimiter
  | .azSubnetsClient_Get az _ _ _ _ => az.rateLimiter
  | .azSubnetsClient_List az _ _ => az.rateLimiter
  | .azSecurityGroupsClient_Get az _ _ _ => az.rateLimiter
  | .azSecurityGroupsClient_List az _ => az.rateLimiter
  | .azVirtualMachineScaleSetsClient_Get az _ _ => az.rateLimiter
  | .azVirtualMachineScaleSetsClient_List az _ => az.rateLimiter
  | .azVirtualMachineScaleSetsClient_ListNextResults az _ => az.rateLimiter
  | .azVirtualMachineScaleSetVMsClient_Get az _ _ _ => az.rateLimiter
  | .azVirtualMachineScaleSetVMsClient_GetInstanceView az _ _ _ => az.rateLimiter
  | .azVirtualMachineScaleSetVMsClient_List az _ _ _ _ _ => az.rateLimiter
  | .azVirtualMachineScaleSetVMsClient_ListNextResults az _ => az.rateLimiter
  | .azRouteTablesClient_Get az _ _ _ => az.rateLimiter
  | .azStorageAccountClient_Delete az _ _ => az.rateLimiter
  | .azStorageAccountClient_ListKeys az _ _ => az.rateLimiter
  | .azStorageAccountClient_ListByResourceGroup az _ => az.rateLimiter
  | .azStorageAccountClient_GetProperties az _ _ => az.rateLimiter
  | .azDisksClient_Get az _ _ => az.rateLimiter

/-- Running the wrapper method of the call. -/
def AsyncCall.run {T : Vendor} {σ α : Type} (ext : External T σ) : AsyncCall T α → Exec T σ (T.Chan α × T.Chan (error T))
  | .azVirtualMachinesClient_CreateOrUpdate az resourceGroupName VMName parameters cancel => az.CreateOrUpdate ext resourceGroupName VMName parameters cancel
  | .azInterfacesClient_CreateOrUpdate az resourceGroupName networkInterfaceName parameters cancel => az.CreateOrUpdate ext resourceGroupName networkInterfaceName parameters cancel
  | .azLoadBalancersClient_CreateOrUpdate az resourceGroupName loadBalancerName parameters cancel => az.CreateOrUpdate ext resourceGroupName loadBalancerName parameters cancel
  | .azLoadBalancersClient_Delete az resourceGroupName loadBalancerName cancel => az.Delete ext resourceGroupName loadBalancerName cancel
  | .azPublicIPAddressesClient_CreateOrUpdate az resourceGroupName publicIPAddressName parameters cancel => az.CreateOrUpdate ext resourceGroupName publicIPAddressName parameters cancel
  | .azPublicIPAddressesClient_Delete az resourceGroupName publicIPAddressName cancel => az.Delete ext resourceGroupName publicIPAddressName cancel
  | .azSubnetsClient_CreateOrUpdate az resourceGroupName virtualNetworkName subnetName subnetParameters cancel => az.CreateOrUpdate ext resourceGroupName virtualNetworkName subnetName subnetParameters cancel
  | .azSubnetsClient_Delete az resourceGroupName virtualNetworkName subnetName cancel => az.Delete ext resourceGroupName virtualNetworkName subnetName cancel
  | .azSecurityGroupsClient_CreateOrUpdate az resourceGroupName networkSecurityGroupName parameters cancel => az.CreateOrUpdate ext resourceGroupName networkSecurityGroupName parameters cancel
  | .azSecurityGroupsClient_Delete az resourceGroupName networkSecurityGroupName cancel => az.Delete ext resourceGroupName networkSecurityGroupName cancel
  | .azVirtualMachineScaleSetsClient_CreateOrUpdate az resourceGroupName VMScaleSetName parameters cancel => az.CreateOrUpdate ext resourceGroupName VMScaleSetName parameters cancel
  | .azVirtualMachineScaleSetsClient_UpdateInstances az resourceGroupName VMScaleSetName VMInstanceIDs cancel => az.UpdateInstances ext resourceGroupName VMScaleSetName VMInstanceIDs cancel
  | .azRoutesClient_CreateOrUpdate az resourceGroupName routeTableName routeName routeParameters cancel => az.CreateOrUpdate ext resourceGroupName routeTableName routeName routeParameters cancel
  | .azRoutesClient_Delete az resourceGroupName routeTableName routeName cancel => az.Delete ext resourceGroupName routeTableName routeName cancel
  | .azRouteTablesClient_CreateOrUpdate az resourceGroupName routeTableName parameters cancel => az.CreateOrUpdate ext resourceGroupName routeTableName parameters cancel
  | .azStorageAccountClient_Create az resourceGroupName accountName parameters cancel => az.Create ext resourceGroupName accountName parameters cancel
  | .azDisksClient_CreateOrUpdate az resourceGroupName diskName diskParameter cancel => az.CreateOrUpdate ext resourceGroupName diskName diskParameter cancel
  | .azDisksClient_Delete az resourceGroupName diskName cancel => az.Delete ext resourceGroupName diskName cancel

/-- The SDK method of the same name as the wrapper method, on the SDK client the
wrapper holds, with the arguments of the call in the positions of the signature. -/
def AsyncCall.direct {T : Vendor} {σ α : Type} (ext : External T σ) : AsyncCall T α → σ → (T.Chan α × T.Chan (error T)) × σ
  | .azVirtualMachinesClient_CreateOrUpdate az resourceGroupName VMName parameters cancel => ext.VirtualMachinesClient_CreateOrUpdate az.client resourceGroupName VMName parameters cancel
  | .azInterfacesClient_CreateOrUpdate az resourceGroupName networkInterfaceName parameters cancel => ext.InterfacesClient_CreateOrUpdate az.client resourceGroupName networkInterfaceName parameters cancel
  | .azLoadBalancersClient_CreateOrUpdate az resourceGroupName loadBalancerName parameters cancel => ext.LoadBalancersClient_CreateOrUpdate az.client resourceGroupName loadBalancerName parameters cancel
  | .azLoadBalancersClient_Delete az resourceGroupName loadBalancerName cancel => ext.LoadBalancersClient_Delete az.client resourceGroupName loadBalancerName cancel
  | .azPublicIPAddressesClient_CreateOrUpdate az resourceGroupName publicIPAddressName parameters cancel => ext.PublicIPAddressesClient_CreateOrUpdate az.client resourceGroupName publicIPAddressName parameters cancel
  | .azPublicIPAddressesClient_Delete az resourceGroupName publicIPAddressName cancel => ext.PublicIPAddressesClient_Delete az.client resourceGroupName publicIPAddressName cancel
  | .azSubnetsClient_CreateOrUpdate az resourceGroupName virtualNetworkName subnetName subnetParameters cancel => ext.SubnetsClient_CreateOrUpdate az.client resourceGroupName virtualNetworkName subnetName subnetParameters cancel
  | .azSubnetsClient_Delete az resourceGroupName virtualNetworkName subnetName cancel => ext.SubnetsClient_Delete az.client resourceGroupName virtualNetworkName subnetName cancel
  | .azSecurityGroupsClient_CreateOrUpdate az resourceGroupName networkSecurityGroupName parameters cancel => ext.SecurityGroupsClient_CreateOrUpdate az.client resourceGroupName networkSecurityGroupName parameters cancel
  | .azSecurityGroupsClient_Delete az resourceGroupName networkSecurityGroupName cancel => ext.SecurityGroupsClient_Delete az.client resourceGroupName networkSecurityGroupName cancel
  | .azVirtualMachineScaleSetsClient_CreateOrUpdate az resourceGroupName VMScaleSetName parameters cancel => ext.VirtualMachineScaleSetsClient_CreateOrUpdate az.client resourceGroupName VMScaleSetName parameters cancel
  | .azVirtualMachineScaleSetsClient_UpdateInstances az resourceGroupName VMScaleSetName VMInstanceIDs cancel => ext.VirtualMachineScaleSetsClient_UpdateInstances az.client resourceGroupName VMScaleSetName VMInstanceIDs cancel
  | .azRoutesClient_CreateOrUpdate az resourceGroupName routeTableName routeName routeParameters cancel => ext.RoutesClient_CreateOrUpdate az.client resourceGroupName routeTableName routeName routeParameters cancel
  | .azRoutesClient_Delete az resourceGroupName routeTableName routeName cancel => ext.RoutesClient_Delete az.client resourceGroupName routeTableName routeName cancel
  | .azRouteTablesClient_CreateOrUpdate az resourceGroupName routeTableName parameters cancel => ext.RouteTablesClient_CreateOrUpdate az.client resourceGroupName routeTableName parameters cancel
  | .azStorageAccountClient_Create az resourceGroupName accountName parameters cancel => ext.AccountsClient_Create az.client resourceGroupName accountName parameters cancel
  | .azDisksClient_CreateOrUpdate az resourceGroupName diskName diskParameter cancel => ext.DisksClient_CreateOrUpdate az.client resourceGroupName diskName diskParameter cancel
  | .azDisksClient_Delete az resourceGroupName diskName cancel => ext.DisksClient_Delete az.client resourceGroupName diskName cancel

/-- The rate limiter of the wrapper the call is made on. -/
def AsyncCall.rateLimiter {T : Vendor} {α : Type} : AsyncCall T α → T.flowcontrol.RateLimiter
  | .azVirtualMachinesClient_CreateOrUpdate az _ _ _ _ => az.rateLimiter
  | .azInterfacesClient_CreateOrUpdate az _ _ _ _ => az.rateLimiter
  | .azLoadBalancersClient_CreateOrUpdate az _ _ _ _ => az.rateLimiter
  | .azLoadBalancersClient_Delete az _ _ _ => az.rateLimiter
  | .azPublicIPAddressesClient_CreateOrUpdate az _ _ _ _ => az.rateLimiter
  | .azPublicIPAddressesClient_Delete az _ _ _ => az.rateLimiter
  | .azSubnetsClient_CreateOrUpdate az _ _ _ _ _ => az.rateLimiter
  | .azSubnetsClient_Delete az _ _ _ _ => az.rateLimiter
  | .azSecurityGroupsClient_CreateOrUpdate az _ _ _ _ => az.rateLimiter
  | .azSecurityGroupsClient_Delete az _ _ _ => az.rateLimiter
  | .azVirtualMachineScaleSetsClient_CreateOrUpdate az _ _ _ _ => az.rateLimiter
  | .azVirtualMachineScaleSetsClient_UpdateInstances az _ _ _ _ => az.rateLimiter
  | .azRoutesClient_CreateOrUpdate az _ _ _ _ _ => az.rateLimiter
  | .azRoutesClient_Delete az _ _ _ _ => az.rateLimiter
  | .azRouteTablesClient_CreateOrUpdate az _ _ _ _ => az.rateLimiter
  | .azStorageAccountClient_Create az _ _ _ _ => az.rateLimiter
  | .azDisksClient_CreateOrUpdate az _ _ _ _ => az.rateLimiter
  | .azDisksClient_Delete az _ _ _ => az.rateLimiter

/-- The cancel channel the caller gives. -/
def AsyncCall.cancel {T : Vendor} {α : Type} : AsyncCall T α → T.Chan Unit
  | .azVirtualMachinesClient_CreateOrUpdate _ _ _ _ cancel => cancel
  | .azInterfacesClient_CreateOrUpdate _ _ _ _ cancel => cancel
  | .azLoadBalancersClient_CreateOrUpdate _ _ _ _ cancel => cancel
  | .azLoadBalancersClient_Delete _ _ _ cancel => cancel
  | .azPublicIPAddressesClient_CreateOrUpdate _ _ _ _ cancel => cancel
  | .azPublicIPAddressesClient_Delete _ _ _ cancel => cancel
  | .azSubnetsClient_CreateOrUpdate _ _ _ _ _ cancel => cancel
  | .azSubnetsClient_Delete _ _ _ _ cancel => cancel
  | .azSecurityGroupsClient_CreateOrUpdate _ _ _ _ cancel => cancel
  | .azSecurityGroupsClient_Delete _ _ _ cancel => cancel
  | .azVirtualMachineScaleSetsClient_CreateOrUpdate _ _ _ _ cancel => cancel
  | .azVirtualMachineScaleSetsClient_UpdateInstances _ _ _ _ cancel => cancel
  | .azRoutesClient_CreateOrUpdate _ _ _ _ _ cancel => cancel
  | .azRoutesClient_Delete _ _ _ _ cancel => cancel
  | .azRouteTablesClient_CreateOrUpdate _ _ _ _ cancel => cancel
  | .azStorageAccountClient_Create _ _ _ _ cancel => cancel
  | .azDisksClient_CreateOrUpdate _ _ _ _ cancel => cancel
  | .azDisksClient_Delete _ _ _ cancel => cancel

/-- A call of any wrapper method. -/
inductive Call (T : Vendor) : Type 1 where
  | sync {α : Type} (c : SyncCall T α)
  | longRunning {α : Type} (c : AsyncCall T α)

/-- The calls the wrapper method makes, in order. -/
def Call.events {T : Vendor} {σ : Type} (ext : External T σ) : Call T → σ → List (Event T)
  | .sync c, s => (c.run ext s).events
  | .longRunning c, s => (c.run ext s).events

/-- The outside world when the wrapper method has returned. -/
def Call.final {T : Vendor} {σ : Type} (ext : External T σ) : Call T → σ → σ
  | .sync c, s => (c.run ext s).ext
  | .longRunning c, s => (c.run ext s).ext

/-- The outside world after one call of the SDK method of the same name from `s`. -/
def Call.directFinal {T : Vendor} {σ : Type} (ext : External T σ) : Call T → σ → σ
  | .sync c, s => (c.direct ext s).2
  | .longRunning c, s => (c.direct ext s).2

/-- The rate limiter of the wrapper the call is made on. -/
def Call.rateLimiter {T : Vendor} : Call T → T.flowcontrol.RateLimiter
  | .sync c => c.rateLimiter
  | .longRunning c => c.rateLimiter

/-- The twelve constructors `newAz*Client`, each named by the resource of its wrapper
(`VirtualMachines` is `newAzVirtualMachinesClient`, and so on). -/
inductive Constructor where
  | VirtualMachines
  | Interfaces
  | LoadBalancers
  | PublicIPAddresses
  | Subnets
  | SecurityGroups
  | VirtualMachineScaleSets
  | VirtualMachineScaleSetVMs
  | Routes
  | RouteTables
  | StorageAccount
  | Disks
  deriving DecidableEq

/-- The SDK client held by the wrapper the constructor returns, as the management
client it embeds. -/
def Constructor.client {T : Vendor} (d : Defaults T) (config : azClientConfig T) : Constructor → ManagementClient T
  | .VirtualMachines => (newAzVirtualMachinesClient d config).client.toManagementClient
  | .Interfaces => (newAzInterfacesClient d config).client.toManagementClient
  | .LoadBalancers => (newAzLoadBalancersClient d config).client.toManagementClient
  | .PublicIPAddresses => (newAzPublicIPAddressesClient d config).client.toManagementClient
  | .Subnets => (newAzSubnetsClient d config).client.toManagementClient
  | .SecurityGroups => (newAzSecurityGroupsClient d config).client.toManagementClient
  | .VirtualMachineScaleSets => (newAzVirtualMachineScaleSetsClient d config).client.toManagementClient
  | .VirtualMachineScaleSetVMs => (newAzVirtualMachineScaleSetVMsClient d config).client.toManagementClient
  | .Routes => (newAzRoutesClient d config).client.toManagementClient
  | .RouteTables => (newAzRouteTablesClient d config).client.toManagementClient
  | .StorageAccount => (newAzStorageAccountClient d config).client.toManagementClient
  | .Disks => (newAzDisksClient d config).client.toManagementClient

/-- The `rateLimiter` field of the wrapper the constructor returns. -/
def Constructor.rateLimiter {T : Vendor} (d : Defaults T) (config : azClientConfig T) : Constructor → T.flowcontrol.RateLimiter
  | .VirtualMachines => (newAzVirtualMachinesClient d config).rateLimiter
  | .Interfaces => (newAzInterfacesClient d config).rateLimiter
  | .LoadBalancers => (newAzLoadBalancersClient d config).rateLimiter
  | .PublicIPAddresses => (newAzPublicIPAddressesClient d config).rateLimiter
  | .Subnets => (newAzSubnetsClient d config).rateLimiter
  | .SecurityGroups => (newAzSecurityGroupsClient d config).rateLimiter
  | .VirtualMachineScaleSets => (newAzVirtualMachineScaleSetsClient d config).rateLimiter
  | .VirtualMachineScaleSetVMs => (newAzVirtualMachineScaleSetVMsClient d config).rateLimiter
  | .Routes => (newAzRoutesClient d config).rateLimiter
  | .RouteTables => (newAzRouteTablesClient d config).rateLimiter
  | .StorageAccount => (newAzStorageAccountClient d config).rateLimiter
  | .Disks => (newAzDisksClient d config).rateLimiter

/-! ## A concrete outside world, for evaluating the definitions -/

/-- SDK values are strings; limiters, tokens and channels are numbered references. -/
@[reducible] def sampleVendor : Vendor where
  compute := ⟨String, String, String, String, String, String, String, String, String, String⟩
  network := ⟨String, String, String, String, String, String, String, String, String, String, String⟩
  storage := ⟨String, String, String, String⟩
  disk := ⟨String, String⟩
  autorest := ⟨String, String, String⟩
  flowcontrol := ⟨Nat⟩
  adal := ⟨Nat⟩
  Chan := fun _ => Nat
  ErrorValue := String

/-- Package-level values of the concrete world. -/
def sampleDefaults : Defaults sampleVendor where
  DefaultBaseURI := fun _ => "https://management.azure.com"
  NewClientWithUserAgent := fun pkg => ⟨autorest.Authorizer.Other "null", 60000000000, "Azure-SDK-For-Go arm-" ++ pkg, ""⟩
  userAgent := fun ua => ua ++ "; kubernetes-cloudprovider"

/-- A concrete outside world whose state counts the calls made so far: glog
writes up to verbosity 10, a synchronous SDK method fails on every odd call, a
long-running one hands out two fresh channels. -/
def sampleWorld : External sampleVendor Nat where
  V := fun level _ => decide (level ≤ 10)
  Accept := fun _ s => s + 1
  VirtualMachinesClient_CreateOrUpdate := fun _ _ _ _ _ s => ((2 * s, 2 * s + 1), s + 1)
  VirtualMachinesClient_Get := fun _ _ _ _ s => (("Get", if s % 2 = 1 then some "conflict" else none), s + 1)
  VirtualMachinesClient_List := fun _ _ s => (("List", if s % 2 = 1 then some "conflict" else none), s + 1)
  VirtualMachinesClient_ListNextResults := fun _ _ s => (("ListNextResults", if s % 2 = 1 then some "conflict" else none), s + 1)
  InterfacesClient_CreateOrUpdate := fun _ _ _ _ _ s => ((2 * s, 2 * s + 1), s + 1)
  InterfacesClient_Get := fun _ _ _ _ s => (("Get", if s % 2 = 1 then some "conflict" else none), s + 1)
  InterfacesClient_GetVirtualMachineScaleSetNetworkInterface := fun _ _ _ _ _ _ s => (("GetVirtualMachineScaleSetNetworkInterface", if s % 2 = 1 then some "conflict" else none), s + 1)
  LoadBalancersClient_CreateOrUpdate := fun _ _ _ _ _ s => ((2 * s, 2 * s + 1), s + 1)
  LoadBalancersClient_Delete := fun _ _ _ _ s => ((2 * s, 2 * s + 1), s + 1)
  LoadBalancersClient_Get := fun _ _ _ _ s => (("Get", if s % 2 = 1 then some "conflict" else none), s + 1)
  LoadBalancersClient_List := fun _ _ s => (("List", if s % 2 = 1 then some "conflict" else none), s + 1)
  LoadBalancersClient_ListNextResults := fun _ _ s => (("ListNextResults", if s % 2 = 1 then some "conflict" else none), s + 1)
  PublicIPAddressesClient_CreateOrUpdate := fun _ _ _ _ _ s => ((2 * s, 2 * s + 1), s + 1)
  PublicIPAddressesClient_Delete := fun _ _ _ _ s => ((2 * s, 2 * s + 1), s + 1)
  PublicIPAddressesClient_Get := fun _ _ _ _ s => (("Get", if s % 2 = 1 then some "conflict" else none), s + 1)
  PublicIPAddressesClient_List := fun _ _ s => (("List", if s % 2 = 1 then some "conflict" else none), s + 1)
  PublicIPAddressesClient_ListNextResults := fun _ _ s => (("ListNextResults", if s % 2 = 1 then some "conflict" else none), s + 1)
  SubnetsClient_CreateOrUpdate := fun _ _ _ _ _ _ s => ((2 * s, 2 * s + 1), s + 1)
  SubnetsClient_Delete := fun _ _ _ _ _ s => ((2 * s, 2 * s + 1), s + 1)
  SubnetsClient_Get := fun _ _ _ _ _ s => (("Get", if s % 2 = 1 then some "conflict" else none), s + 1)
  SubnetsClient_List := fun _ _ _ s => (("List", if s % 2 = 1 then some "conflict" else none), s + 1)
  SecurityGroupsClient_CreateOrUpdate := fun _ _ _ _ _ s => ((2 * s, 2 * s + 1), s + 1)
  SecurityGroupsClient_Delete := fun _ _ _ _ s => ((2 * s, 2 * s + 1), s + 1)
  SecurityGroupsClient_Get := fun _ _ _ _ s => (("Get", if s % 2 = 1 then some "conflict" else none), s + 1)
  SecurityGroupsClient_List := fun _ _ s => (("List", if s % 2 = 1 then some "conflict" else none), s + 1)
  VirtualMachineScaleSetsClient_CreateOrUpdate := fun _ _ _ _ _ s => ((2 * s, 2 * s + 1), s + 1)
  VirtualMachineScaleSetsClient_Get := fun _ _ _ s => (("Get", if s % 2 = 1 then some "conflict" else none), s + 1)
  VirtualMachineScaleSetsClient_List := fun _ _ s => (("List", if s % 2 = 1 then some "conflict" else none), s + 1)
  VirtualMachineScaleSetsClient_ListNextResults := fun _ _ s => (("ListNextResults", if s % 2 = 1 then some "conflict" else none), s + 1)
  VirtualMachineScaleSetsClient_UpdateInstances := fun _ _ _ _ _ s => ((2 * s, 2 * s + 1), s + 1)
  VirtualMachineScaleSetVMsClient_Get := fun _ _ _ _ s => (("Get", if s % 2 = 1 then some "conflict" else none), s + 1)
  VirtualMachineScaleSetVMsClient_GetInstanceView := fun _ _ _ _ s => (("GetInstanceView", if s % 2 = 1 then some "conflict" else none), s + 1)
  VirtualMachineScaleSetVMsClient_List := fun _ _ _ _ _ _ s => (("List", if s % 2 = 1 then some "conflict" else none), s + 1)
  VirtualMachineScaleSetVMsClient_ListNextResults := fun _ _ s => (("ListNextResults", if s % 2 = 1 then some "conflict" else none), s + 1)
  RoutesClient_CreateOrUpdate := fun _ _ _ _ _ _ s => ((2 * s, 2 * s + 1), s + 1)
  RoutesClient_Delete := fun _ _ _ _ _ s => ((2 * s, 2 * s + 1), s + 1)
  RouteTablesClient_CreateOrUpdate := fun _ _ _ _ _ s => ((2 * s, 2 * s + 1), s + 1)
  RouteTablesClient_Get := fun _ _ _ _ s => (("Get", if s % 2 = 1 then some "conflict" else none), s + 1)
  AccountsClient_Create := fun _ _ _ _ _ s => ((2 * s, 2 * s + 1), s + 1)
  AccountsClient_Delete := fun _ _ _ s => (("Delete", if s % 2 = 1 then some "conflict" else none), s + 1)
  AccountsClient_ListKeys := fun _ _ _ s => (("ListKeys", if s % 2 = 1 then some "conflict" else none), s + 1)
  AccountsClient_ListByResourceGroup := fun _ _ s => (("ListByResourceGroup", if s % 2 = 1 then some "conflict" else none), s + 1)
  AccountsClient_GetProperties := fun _ _ _ s => (("GetProperties", if s % 2 = 1 then some "conflict" else none), s + 1)
  DisksClient_CreateOrUpdate := fun _ _ _ _ _ s => ((2 * s, 2 * s + 1), s + 1)
  DisksClient_Delete := fun _ _ _ _ s => ((2 * s, 2 * s + 1), s + 1)
  DisksClient_Get := fun _ _ _ s => (("Get", if s % 2 = 1 then some "conflict" else none), s + 1)

/-- A configuration of the concrete world. -/
def sampleConfig : azClientConfig sampleVendor where
  subscriptionID := "sub-1"
  resourceManagerEndpoint := "https://management.example.net"
  servicePrincipalToken := 41
  rateLimiter := 7

/-- A call of `azVirtualMachinesClient.Get` on the wrapper built from the sample
configuration. -/
def sampleCall : Call sampleVendor :=
  Call.sync (SyncCall.azVirtualMachinesClient_Get (newAzVirtualMachinesClient sampleDefaults sampleConfig) "rg" "vm-0" "instanceView")

/-! ## The client interfaces

A Go interface is the record of its methods; a wrapper implements it when each
method of the record can be filled with the wrapper method of that name. -/

/-- The interface `VirtualMachinesClient`. -/
structure VirtualMachinesClient (T : Vendor) (σ : Type) where
  CreateOrUpdate : String → String → T.compute.VirtualMachine → T.Chan Unit → Exec T σ (T.Chan T.compute.VirtualMachine × T.Chan (error T))
  Get : String → String → T.compute.InstanceViewTypes → Exec T σ (T.compute.VirtualMachine × error T)
  List : String → Exec T σ (T.compute.VirtualMachineListResult × error T)
  ListNextResults : T.compute.VirtualMachineListResult → Exec T σ (T.compute.VirtualMachineListResult × error T)

/-- The interface `InterfacesClient`. -/
structure InterfacesClient (T : Vendor) (σ : Type) where
  CreateOrUpdate : String → String → T.network.Interface → T.Chan Unit → Exec T σ (T.Chan T.network.Interface × T.Chan (error T))
  Get : String → String → String → Exec T σ (T.network.Interface × error T)
  GetVirtualMachineScaleSetNetworkInterface : String → String → String → String → String → Exec T σ (T.network.Interface × error T)

/-- The interface `LoadBalancersClient`. -/
structure LoadBalancersClient (T : Vendor) (σ : Type) where
  CreateOrUpdate : String → String → T.network.LoadBalancer → T.Chan Unit → Exec T σ (T.Chan T.network.LoadBalancer × T.Chan (error T))
  Delete : String → String → T.Chan Unit → Exec T σ (T.Chan T.autorest.Response × T.Chan (error T))
  Get : String → String → String → Exec T σ (T.network.LoadBalancer × error T)
  List : String → Exec T σ (T.network.LoadBalancerListResult × error T)
  ListNextResults : T.network.LoadBalancerListResult → Exec T σ (T.network.LoadBalancerListResult × error T)

/-- The interface `PublicIPAddressesClient`. -/
structure PublicIPAddressesClient (T : Vendor) (σ : Type) where
  CreateOrUpdate : String → String → T.network.PublicIPAddress → T.Chan Unit → Exec T σ (T.Chan T.network.PublicIPAddress × T.Chan (error T))
  Delete : String → String → T.Chan Unit → Exec T σ (T.Chan T.autorest.Response × T.Chan (error T))
  Get : String → String → String → Exec T σ (T.network.PublicIPAddress × error T)
  List : String → Exec T σ (T.network.PublicIPAddressListResult × error T)
  ListNextResults : T.network.PublicIPAddressListResult → Exec T σ (T.network.PublicIPAddressListResult × error T)

/-- The interface `SubnetsClient`. -/
structure SubnetsClient (T : Vendor) (σ : Type) where
  CreateOrUpdate : String → String → String → T.network.Subnet → T.Chan Unit → Exec T σ (T.Chan T.network.Subnet × T.Chan (error T))
  Delete : String → String → String → T.Chan Unit → Exec T σ (T.Chan T.autorest.Response × T.Chan (error T))
  Get : String → String → String → String → Exec T σ (T.network.Subnet × error T)
  List : String → String → Exec T σ (T.network.SubnetListResult × error T)

/-- The interface `SecurityGroupsClient`. -/
structure SecurityGroupsClient (T : Vendor) (σ : Type) where
  CreateOrUpdate : String → String → T.network.SecurityGroup → T.Chan Unit → Exec T σ (T.Chan T.network.SecurityGroup × T.Chan (error T))
  Delete : String → String → T.Chan Unit → Exec T σ (T.Chan T.autorest.Response × T.Chan (error T))
  Get : String → String → String → Exec T σ (T.network.SecurityGroup × error T)
  List : String → Exec T σ (T.network.SecurityGroupListResult × error T)

/-- The interface `VirtualMachineScaleSetsClient`. -/
structure VirtualMachineScaleSetsClient (T : Vendor) (σ : Type) where
  CreateOrUpdate : String → String → T.compute.VirtualMachineScaleSet → T.Chan Unit → Exec T σ (T.Chan T.compute.VirtualMachineScaleSet × T.Chan (error T))
  Get : String → String → Exec T σ (T.compute.VirtualMachineScaleSet × error T)
  List : String → Exec T σ (T.compute.VirtualMachineScaleSetListResult × error T)
  ListNextResults : T.compute.VirtualMachineScaleSetListResult → Exec T σ (T.compute.VirtualMachineScaleSetListResult × error T)
  UpdateInstances : String → String → T.compute.VirtualMachineScaleSetVMInstanceRequiredIDs → T.Chan Unit → Exec T σ (T.Chan T.compute.OperationStatusResponse × T.Chan (error T))

/-- The interface `VirtualMachineScaleSetVMsClient`. -/
structure VirtualMachineScaleSetVMsClient (T : Vendor) (σ : Type) where
  Get : String → String → String → Exec T σ (T.compute.VirtualMachineScaleSetVM × error T)
  GetInstanceView : String → String → String → Exec T σ (T.compute.VirtualMachineScaleSetVMInstanceView × error T)
  List : String → String → String → String → String → Exec T σ (T.compute.VirtualMachineScaleSetVMListResult × error T)
  ListNextResults : T.compute.VirtualMachineScaleSetVMListResult → Exec T σ (T.compute.VirtualMachineScaleSetVMListResult × error T)

/-- The interface `RoutesClient`. -/
structure RoutesClient (T : Vendor) (σ : Type) where
  CreateOrUpdate : String → String → String → T.network.Route → T.Chan Unit → Exec T σ (T.Chan T.network.Route × T.Chan (error T))
  Delete : String → String → String → T.Chan Unit → Exec T σ (T.Chan T.autorest.Response × T.Chan (error T))

/-- The interface `RouteTablesClient`. -/
structure RouteTablesClient (T : Vendor) (σ : Type) where
  CreateOrUpdate : String → String → T.network.RouteTable → T.Chan Unit → Exec T σ (T.Chan T.network.RouteTable × T.Chan (error T))
  Get : String → String → String → Exec T σ (T.network.RouteTable × error T)

/-- The interface `StorageAccountClient`. -/
structure StorageAccountClient (T : Vendor) (σ : Type) where
  Create : String → String → T.storage.AccountCreateParameters → T.Chan Unit → Exec T σ (T.Chan T.storage.Account × T.Chan (error T))
  Delete : String → String → Exec T σ (T.autorest.Response × error T)
  ListKeys : String → String → Exec T σ (T.storage.AccountListKeysResult × error T)
  ListByResourceGroup : String → Exec T σ (T.storage.AccountListResult × error T)
  GetProperties : String → String → Exec T σ (T.storage.Account × error T)

/-- The interface `DisksClient`. -/
structure DisksClient (T : Vendor) (σ : Type) where
  CreateOrUpdate : String → String → T.disk.Model → T.Chan Unit → Exec T σ (T.Chan T.disk.Model × T.Chan (error T))
  Delete : String → String → T.Chan Unit → Exec T σ (T.Chan T.disk.OperationStatusResponse × T.Chan (error T))
  Get : String → String → Exec T σ (T.disk.Model × error T)

/-- A `*azVirtualMachinesClient` used as a `VirtualMachinesClient`: each interface method is the wrapper method
of that name. -/
def azVirtualMachinesClient.asVirtualMachinesClient {T : Vendor} {σ : Type} (ext : External T σ) (az : azVirtualMachinesClient T) : VirtualMachinesClient T σ where
  CreateOrUpdate := az.CreateOrUpdate ext
  Get := az.Get ext
  List := az.List ext
  ListNextResults := az.ListNextResults ext

/-- A `*azInterfacesClient` used as a `InterfacesClient`: each interface method is the wrapper method
of that name. -/
def azInterfacesClient.asInterfacesClient {T : Vendor} {σ : Type} (ext : External T σ) (az : azInterfacesClient T) : InterfacesClient T σ where
  CreateOrUpdate := az.CreateOrUpdate ext
  Get := az.Get ext
  GetVirtualMachineScaleSetNetworkInterface := az.GetVirtualMachineScaleSetNetworkInterface ext

/-- A `*azLoadBalancersClient` used as a `LoadBalancersClient`: each interface method is the wrapper method
of that name. -/
def azLoadBalancersClient.asLoadBalancersClient {T : Vendor} {σ : Type} (ext : External T σ) (az : azLoadBalancersClient T) : LoadBalancersClient T σ where
  CreateOrUpdate := az.CreateOrUpdate ext
  Delete := az.Delete ext
  Get := az.Get ext
  List := az.List ext
  ListNextResults := az.ListNextResults ext

/-- A `*azPublicIPAddressesClient` used as a `PublicIPAddressesClient`: each interface method is the wrapper method
of that name. -/
def azPublicIPAddressesClient.asPublicIPAddressesClient {T : Vendor} {σ : Type} (ext : External T σ) (az : azPublicIPAddressesClient T) : PublicIPAddressesClient T σ where
  CreateOrUpdate := az.CreateOrUpdate ext
  Delete := az.Delete ext
  Get := az.Get ext
  List := az.List ext
  ListNextResults := az.ListNextResults ext

/-- A `*azSubnetsClient` used as a `SubnetsClient`: each interface method is the wrapper method
of that name. -/
def azSubnetsClient.asSubnetsClient {T : Vendor} {σ : Type} (ext : External T σ) (az : azSubnetsClient T) : SubnetsClient T σ where
  CreateOrUpdate := az.CreateOrUpdate ext
  Delete := az.Delete ext
  Get := az.Get ext
  List := az.List ext

/-- A `*azSecurityGroupsClient` used as a `SecurityGroupsClient`: each interface method is the wrapper method
of that name. -/
def azSecurityGroupsClient.asSecurityGroupsClient {T : Vendor} {σ : Type} (ext : External T σ) (az : azSecurityGroupsClient T) : SecurityGroupsClient T σ where
  CreateOrUpdate := az.CreateOrUpdate ext
  Delete := az.Delete ext
  Get := az.Get ext
  List := az.List ext

/-- A `*azVirtualMachineScaleSetsClient` used as a `VirtualMachineScaleSetsClient`: each interface method is the wrapper method
of that name. -/
def azVirtualMachineScaleSetsClient.asVirtualMachineScaleSetsClient {T : Vendor} {σ : Type} (ext : External T σ) (az : azVirtualMachineScaleSetsClient T) : VirtualMachineScaleSetsClient T σ where
  CreateOrUpdate := az.CreateOrUpdate ext
  Get := az.Get ext
  List := az.List ext
  ListNextResults := az.ListNextResults ext
  UpdateInstances := az.UpdateInstances ext

/-- A `*azVirtualMachineScaleSetVMsClient` used as a `VirtualMachineScaleSetVMsClient`: each interface method is the wrapper method
of that name. -/
def azVirtualMachineScaleSetVMsClient.asVirtualMachineScaleSetVMsClient {T : Vendor} {σ : Type} (ext : External T σ) (az : azVirtualMachineScaleSetVMsClient T) : VirtualMachineScaleSetVMsClient T σ where
  Get := az.Get ext
  GetInstanceView := az.GetInstanceView ext
  List := az.List ext
  ListNextResults := az.ListNextResults ext

/-- A `*azRoutesClient` used as a `RoutesClient`: each interface method is the wrapper method
of that name. -/
def azRoutesClient.asRoutesClient {T : Vendor} {σ : Type} (ext : External T σ) (az : azRoutesClient T) : RoutesClient T σ where
  CreateOrUpdate := az.CreateOrUpdate ext
  Delete := az.Delete ext

/-- A `*azRouteTablesClient` used as a `RouteTablesClient`: each interface method is the wrapper method
of that name. -/
def azRouteTablesClient.asRouteTablesClient {T : Vendor} {σ : Type} (ext : External T σ) (az : azRouteTablesClient T) : RouteTablesClient T σ where
  CreateOrUpdate := az.CreateOrUpdate ext
  Get := az.Get ext

/-- A `*azStorageAccountClient` used as a `StorageAccountClient`: each interface method is the wrapper method
of that name. -/
def azStorageAccountClient.asStorageAccountClient {T : Vendor} {σ : Type} (ext : External T σ) (az : azStorageAccountClient T) : StorageAccountClient T σ where
  Create := az.Create ext
  Delete := az.Delete ext
  ListKeys := az.ListKeys ext
  ListByResourceGroup := az.ListByResourceGroup ext
  GetProperties := az.GetProperties ext

/-- A `*azDisksClient` used as a `DisksClient`: each interface method is the wrapper method
of that name. -/
def azDisksClient.asDisksClient {T : Vendor} {σ : Type} (ext : External T σ) (az : azDisksClient T) : DisksClient T σ where
  CreateOrUpdate := az.CreateOrUpdate ext
  Delete := az.Delete ext
  Get := az.Get ext

/-! ## Trace lines -/

/-- The format and the arguments of an `Infof` call; nothing for any other call. -/
def Event.line {T : Vendor} : Event T → Option (String × List (LogArg T))
  | .Infof _ format args => some (format, args)
  | _ => none

/-- The trace lines of a sequence of calls: format and arguments of its `Infof` calls. -/
def traceLines {T : Vendor} (events : List (Event T)) : List (String × List (LogArg T)) :=
  events.filterMap Event.line

/-- Can the call be observed from outside: `Infof` on a disabled `glog.Verbose`
writes nothing, every other call happens. -/
def Event.observable {T : Vendor} : Event T → Bool
  | .Infof v _ _ => v.enabled
  | _ => true

/-- Is the call an `Infof` whose format ends in `word`. -/
def Event.logs {T : Vendor} (word : String) : Event T → Bool
  | .Infof _ format _ => word.data.isSuffixOf format.data
  | _ => false

/-- Is the call an `Infof` that writes a line ending in `word`. -/
def Event.writes {T : Vendor} (word : String) (e : Event T) : Bool :=
  e.logs word && e.observable

/-- The number of `%q` verbs in a format string. -/
def countVerbs : List Char → Nat
  | [] => 0
  | c :: rest =>
    match c, rest with
    | '%', 'q' :: _ => countVerbs rest + 1
    | _, _ => countVerbs rest

/-- For an `Infof` call, the number of `%q` verbs of its format and the number of
arguments it is given. -/
def Event.verbsAndArguments {T : Vendor} : Event T → Option (Nat × Nat)
  | .Infof _ format args => some (countVerbs format.data, args.length)
  | _ => none

/-- The string without its last `n` characters. -/
def dropEnd (n : Nat) (s : String) : String :=
  ⟨s.data.take (s.data.length - n)⟩

/-- The string without its first `n` characters. -/
def dropStart (n : Nat) (s : String) : String :=
  ⟨s.data.drop n⟩

/-- The wrapper type the method of the call is declared on (its receiver type). -/
def SyncCall.receiverType {T : Vendor} {α : Type} : SyncCall T α → String
  | .azVirtualMachinesClient_Get _ _ _ _ => "azVirtualMachinesClient"
  | .azVirtualMachinesClient_List _ _ => "azVirtualMachinesClient"
  | .azVirtualMachinesClient_ListNextResults _ _ => "azVirtualMachinesClient"
  | .azInterfacesClient_Get _ _ _ _ => "azInterfacesClient"
  | .azInterfacesClient_GetVirtualMachineScaleSetNetworkInterface _ _ _ _ _ _ => "azInterfacesClient"
  | .azLoadBalancersClient_Get _ _ _ _ => "azLoadBalancersClient"
  | .azLoadBalancersClient_List _ _ => "azLoadBalancersClient"
  | .azLoadBalancersClient_ListNextResults _ _ => "azLoadBalancersClient"
  | .azPublicIPAddressesClient_Get _ _ _ _ => "azPublicIPAddressesClient"
  | .azPublicIPAddressesClient_List _ _ => "azPublicIPAddressesClient"
  | .azPublicIPAddressesClient_ListNextResults _ _ => "azPublicIPAddressesClient"
  | .azSubnetsClient_Get _ _ _ _ _ => "azSubnetsClient"
  | .azSubnetsClient_List _ _ _ => "azSubnetsClient"
  | .azSecurityGroupsClient_Get _ _ _ _ => "azSecurityGroupsClient"
  | .azSecurityGroupsClient_List _ _ => "azSecurityGroupsClient"
  | .azVirtualMachineScaleSetsClient_Get _ _ _ => "azVirtualMachineScaleSetsClient"
  | .azVirtualMachineScaleSetsClient_List _ _ => "azVirtualMachineScaleSetsClient"
  | .azVirtualMachineScaleSetsClient_ListNextResults _ _ => "azVirtualMachineScaleSetsClient"
  | .azVirtualMachineScaleSetVMsClient_Get _ _ _ _ => "azVirtualMachineScaleSetVMsClient"
  | .azVirtualMachineScaleSetVMsClient_GetInstanceView _ _ _ _ => "azVirtualMachineScaleSetVMsClient"
  | .azVirtualMachineScaleSetVMsClient_List _ _ _ _ _ _ => "azVirtualMachineScaleSetVMsClient"
  | .azVirtualMachineScaleSetVMsClient_ListNextResults _ _ => "azVirtualMachineScaleSetVMsClient"
  | .azRouteTablesClient_Get _ _ _ _ => "azRouteTablesClient"
  | .azStorageAccountClient_Delete _ _ _ => "azStorageAccountClient"
  | .azStorageAccountClient_ListKeys _ _ _ => "azStorageAccountClient"
  | .azStorageAccountClient_ListByResourceGroup _ _ => "azStorageAccountClient"
  | .azStorageAccountClient_GetProperties _ _ _ => "azStorageAccountClient"
  | .azDisksClient_Get _ _ _ => "azDisksClient"

/-- The name the method of the call is declared with. -/
def SyncCall.methodName {T : Vendor} {α : Type} : SyncCall T α → String
  | .azVirtualMachinesClient_Get _ _ _ _ => "Get"
  | .azVirtualMachinesClient_List _ _ => "List"
  | .azVirtualMachinesClient_ListNextResults _ _ => "ListNextResults"
  | .azInterfacesClient_Get _ _ _ _ => "Get"
  | .azInterfacesClient_GetVirtualMachineScaleSetNetworkInterface _ _ _ _ _ _ => "GetVirtualMachineScaleSetNetworkInterface"
  | .azLoadBalancersClient_Get _ _ _ _ => "Get"
  | .azLoadBalancersClient_List _ _ => "List"
  | .azLoadBalancersClient_ListNextResults _ _ => "ListNextResults"
  | .azPublicIPAddressesClient_Get _ _ _ _ => "Get"
  | .azPublicIPAddressesClient_List _ _ => "List"
  | .azPublicIPAddressesClient_ListNextResults _ _ => "ListNextResults"
  | .azSubnetsClient_Get _ _ _ _ _ => "Get"
  | .azSubnetsClient_List _ _ _ => "List"
  | .azSecurityGroupsClient_Get _ _ _ _ => "Get"
  | .azSecurityGroupsClient_List _ _ => "List"
  | .azVirtualMachineScaleSetsClient_Get _ _ _ => "Get"
  | .azVirtualMachineScaleSetsClient_List _ _ => "List"
  | .azVirtualMachineScaleSetsClient_ListNextResults _ _ => "ListNextResults"
  | .azVirtualMachineScaleSetVMsClient_Get _ _ _ _ => "Get"
  | .azVirtualMachineScaleSetVMsClient_GetInstanceView _ _ _ _ => "GetInstanceView"
  | .azVirtualMachineScaleSetVMsClient_List _ _ _ _ _ _ => "List"
  | .azVirtualMachineScaleSetVMsClient_ListNextResults _ _ => "ListNextResults"
  | .azRouteTablesClient_Get _ _ _ _ => "Get"
  | .azStorageAccountClient_Delete _ _ _ => "Delete"
  | .azStorageAccountClient_ListKeys _ _ _ => "ListKeys"
  | .azStorageAccountClient_ListByResourceGroup _ _ => "ListByResourceGroup"
  | .azStorageAccountClient_GetProperties _ _ _ => "GetProperties"
  | .azDisksClient_Get _ _ _ => "Get"

/-- The wrapper type the method of the call is declared on (its receiver type). -/
def AsyncCall.receiverType {T : Vendor} {α : Type} : AsyncCall T α → String
  | .azVirtualMachinesClient_CreateOrUpdate _ _ _ _ _ => "azVirtualMachinesClient"
  | .azInterfacesClient_CreateOrUpdate _ _ _ _ _ => "azInterfacesClient"
  | .azLoadBalancersClient_CreateOrUpdate _ _ _ _ _ => "azLoadBalancersClient"
  | .azLoadBalancersClient_Delete _ _ _ _ => "azLoadBalancersClient"
  | .azPublicIPAddressesClient_CreateOrUpdate _ _ _ _ _ => "azPublicIPAddressesClient"
  | .azPublicIPAddressesClient_Delete _ _ _ _ => "azPublicIPAddressesClient"
  | .azSubnetsClient_CreateOrUpdate _ _ _ _ _ _ => "azSubnetsClient"
  | .azSubnetsClient_Delete _ _ _ _ _ => "azSubnetsClient"
  | .azSecurityGroupsClient_CreateOrUpdate _ _ _ _ _ => "azSecurityGroupsClient"
  | .azSecurityGroupsClient_Delete _ _ _ _ => "azSecurityGroupsClient"
  | .azVirtualMachineScaleSetsClient_CreateOrUpdate _ _ _ _ _ => "azVirtualMachineScaleSetsClient"
  | .azVirtualMachineScaleSetsClient_UpdateInstances _ _ _ _ _ => "azVirtualMachineScaleSetsClient"
  | .azRoutesClient_CreateOrUpdate _ _ _ _ _ _ => "azRoutesClient"
  | .azRoutesClient_Delete _ _ _ _ _ => "azRoutesClient"
  | .azRouteTablesClient_CreateOrUpdate _ _ _ _ _ => "azRouteTablesClient"
  | .azStorageAccountClient_Create _ _ _ _ _ => "azStorageAccountClient"
  | .azDisksClient_CreateOrUpdate _ _ _ _ _ => "azDisksClient"
  | .azDisksClient_Delete _ _ _ _ => "azDisksClient"

/-- The name the method of the call is declared with. -/
def AsyncCall.methodName {T : Vendor} {α : Type} : AsyncCall T α → String
  | .azVirtualMachinesClient_CreateOrUpdate _ _ _ _ _ => "CreateOrUpdate"
  | .azInterfacesClient_CreateOrUpdate _ _ _ _ _ => "CreateOrUpdate"
  | .azLoadBalancersClient_CreateOrUpdate _ _ _ _ _ => "CreateOrUpdate"
  | .azLoadBalancersClient_Delete _ _ _ _ => "Delete"
  | .azPublicIPAddressesClient_CreateOrUpdate _ _ _ _ _ => "CreateOrUpdate"
  | .azPublicIPAddressesClient_Delete _ _ _ _ => "Delete"
  | .azSubnetsClient_CreateOrUpdate _ _ _ _ _ _ => "CreateOrUpdate"
  | .azSubnetsClient_Delete _ _ _ _ _ => "Delete"
  | .azSecurityGroupsClient_CreateOrUpdate _ _ _ _ _ => "CreateOrUpdate"
  | .azSecurityGroupsClient_Delete _ _ _ _ => "Delete"
  | .azVirtualMachineScaleSetsClient_CreateOrUpdate _ _ _ _ _ => "CreateOrUpdate"
  | .azVirtualMachineScaleSetsClient_UpdateInstances _ _ _ _ _ => "UpdateInstances"
  | .azRoutesClient_CreateOrUpdate _ _ _ _ _ _ => "CreateOrUpdate"
  | .azRoutesClient_Delete _ _ _ _ _ => "Delete"
  | .azRouteTablesClient_CreateOrUpdate _ _ _ _ _ => "CreateOrUpdate"
  | .azStorageAccountClient_Create _ _ _ _ _ => "Create"
  | .azDisksClient_CreateOrUpdate _ _ _ _ _ => "CreateOrUpdate"
  | .azDisksClient_Delete _ _ _ _ => "Delete"

/-- The wrapper type the method of the call is declared on. -/
def Call.receiverType {T : Vendor} : Call T → String
  | .sync c => c.receiverType
  | .longRunning c => c.receiverType

/-- The name the method of the call is declared with. -/
def Call.methodName {T : Vendor} : Call T → String
  | .sync c => c.methodName
  | .longRunning c => c.methodName

/-- The claim of C15 on a sequence of calls: what can be observed is exactly an
`Accept` on `rateLimiter`, a trace line, an SDK call, a trace line. -/
def ObservedExactly {T : Vendor} (rateLimiter : T.flowcontrol.RateLimiter) (events : List (Event T)) : Prop :=
  ∃ v₁ f₁ a₁ client method cancel v₂ f₂ a₂,
    events.filter Event.observable =
      [Event.Accept rateLimiter, Event.Infof v₁ f₁ a₁, Event.SDKCall client method cancel, Event.Infof v₂ f₂ a₂]

/-! ## The methods, with the receiver in memory

Every method has the receiver `az *W`. Here the struct `az` points to is part of
the state a method runs in, so that a method could write to it. -/

/-- The state a method with receiver `az *W` runs in: the struct `az` points to, and
the outside world. -/
structure Receiver (W σ : Type) where
  self : W
  outside : σ

/-- Reading a field of the struct `az` points to (`az.rateLimiter`, `az.client`). -/
def Receiver.load {T : Vendor} {W σ β : Type} (field : W → β) : Exec T (Receiver W σ) β :=
  fun m => ⟨field m.self, m, []⟩

/-- A call that leaves the file. It is handed values (a limiter reference, a
verbosity level, a copy of the SDK client, whose methods have value receivers)
and no pointer into the wrapper, so it works on the outside world only. -/
def Receiver.call {T : Vendor} {W σ α : Type} (x : Exec T σ α) : Exec T (Receiver W σ) α :=
  fun m =>
    let o := x m.outside
    ⟨o.value, { m with outside := o.ext }, o.events⟩

/-- The method `azVirtualMachinesClient.CreateOrUpdate`, run on the struct its receiver points to. -/
def Mem.azVirtualMachinesClient.CreateOrUpdate {T : Vendor} {σ : Type} (ext : External T σ) (resourceGroupName : String) (VMName : String) (parameters : T.compute.VirtualMachine) (cancel : T.Chan Unit) : Exec T (Receiver (azVirtualMachinesClient T) σ) (T.Chan T.compute.VirtualMachine × T.Chan (error T)) := do
  Receiver.call (flowcontrol.Accept ext (← Receiver.load (·.rateLimiter)))
  (← Receiver.call (glog.V ext 10)).Infof "azVirtualMachinesClient.CreateOrUpdate(%q, %q): start" [.string resourceGroupName, .string VMName]
  Exec.defer (do (← Receiver.call (glog.V ext 10)).Infof "azVirtualMachinesClient.CreateOrUpdate(%q, %q): end" [.string resourceGroupName, .string VMName]) do
    Receiver.call ((← Receiver.load (·.client)).CreateOrUpdate ext resourceGroupName VMName parameters cancel)

/-- The method `azVirtualMachinesClient.Get`, run on the struct its receiver points to. -/
def Mem.azVirtualMachinesClient.Get {T : Vendor} {σ : Type} (ext : External T σ) (resourceGroupName : String) (VMName : String) (expand : T.compute.InstanceViewTypes) : Exec T (Receiver (azVirtualMachinesClient T) σ) (T.compute.VirtualMachine × error T) := do
  Receiver.call (flowcontrol.Accept ext (← Receiver.load (·.rateLimiter)))
  (← Receiver.call (glog.V ext 10)).Infof "azVirtualMachinesClient.Get(%q, %q): start" [.string resourceGroupName, .string VMName]
  Exec.defer (do (← Receiver.call (glog.V ext 10)).Infof "azVirtualMachinesClient.Get(%q, %q): end" [.string resourceGroupName, .string VMName]) do
    Receiver.call ((← Receiver.load (·.client)).Get ext resourceGroupName VMName expand)

/-- The method `azVirtualMachinesClient.List`, run on the struct its receiver points to. -/
def Mem.azVirtualMachinesClient.List {T : Vendor} {σ : Type} (ext : External T σ) (resourceGroupName : String) : Exec T (Receiver (azVirtualMachinesClient T) σ) (T.compute.VirtualMachineListResult × error T) := do
  Receiver.call (flowcontrol.Accept ext (← Receiver.load (·.rateLimiter)))
  (← Receiver.call (glog.V ext 10)).Infof "azVirtualMachinesClient.List(%q): start" [.string resourceGroupName]
  Exec.defer (do (← Receiver.call (glog.V ext 10)).Infof "azVirtualMachinesClient.List(%q): end" [.string resourceGroupName]) do
    Receiver.call ((← Receiver.load (·.client)).List ext resourceGroupName)

/-- The method `azVirtualMachinesClient.ListNextResults`, run on the struct its receiver points to. -/
def Mem.azVirtualMachinesClient.ListNextResults {T : Vendor} {σ : Type} (ext : External T σ) (lastResults : T.compute.VirtualMachineListResult) : Exec T (Receiver (azVirtualMachinesClient T) σ) (T.compute.VirtualMachineListResult × error T) := do
  Receiver.call (flowcontrol.Accept ext (← Receiver.load (·.rateLimiter)))
  (← Receiver.call (glog.V ext 10)).Infof "azVirtualMachinesClient.ListNextResults(%q): start" [.VirtualMachineListResult lastResults]
  Exec.defer (do (← Receiver.call (glog.V ext 10)).Infof "azVirtualMachinesClient.ListNextResults(%q): end" [.VirtualMachineListResult lastResults]) do
    Receiver.call ((← Receiver.load (·.client)).ListNextResults ext lastResults)

/-- The method `azInterfacesClient.CreateOrUpdate`, run on the struct its receiver points to. -/
def Mem.azInterfacesClient.CreateOrUpdate {T : Vendor} {σ : Type} (ext : External T σ) (resourceGroupName : String) (networkInterfaceName : String) (parameters : T.network.Interface) (cancel : T.Chan Unit) : Exec T (Receiver (azInterfacesClient T) σ) (T.Chan T.network.Interface × T.Chan (error T)) := do
  Receiver.call (flowcontrol.Accept ext (← Receiver.load (·.rateLimiter)))
  (← Receiver.call (glog.V ext 10)).Infof "azInterfacesClient.CreateOrUpdate(%q,%q): start" [.string resourceGroupName, .string networkInterfaceName]
  Exec.defer (do (← Receiver.call (glog.V ext 10)).Infof "azInterfacesClient.CreateOrUpdate(%q,%q): end" [.string resourceGroupName, .string networkInterfaceName]) do
    Receiver.call ((← Receiver.load (·.client)).CreateOrUpdate ext resourceGroupName networkInterfaceName parameters cancel)

/-- The method `azInterfacesClient.Get`, run on the struct its receiver points to. -/
def Mem.azInterfacesClient.Get {T : Vendor} {σ : Type} (ext : External T σ) (resourceGroupName : String) (networkInterfaceName : String) (expand : String) : Exec T (Receiver (azInterfacesClient T) σ) (T.network.Interface × error T) := do
  Receiver.call (flowcontrol.Accept ext (← Receiver.load (·.rateLimiter)))
  (← Receiver.call (glog.V ext 10)).Infof "azInterfacesClient.Get(%q,%q): start" [.string resourceGroupName, .string networkInterfaceName]
  Exec.defer (do (← Receiver.call (glog.V ext 10)).Infof "azInterfacesClient.Get(%q,%q): end" [.string resourceGroupName, .string networkInterfaceName]) do
    Receiver.call ((← Receiver.load (·.client)).Get ext resourceGroupName networkInterfaceName expand)

/-- The method `azInterfacesClient.GetVirtualMachineScaleSetNetworkInterface`, run on the struct its receiver points to. -/
def Mem.azInterfacesClient.GetVirtualMachineScaleSetNetworkInterface {T : Vendor} {σ : Type} (ext : External T σ) (resourceGroupName : String) (virtualMachineScaleSetName : String) (virtualmachineIndex : String) (networkInterfaceName : String) (expand : String) : Exec T (Receiver (azInterfacesClient T) σ) (T.network.Interface × error T) := do
  Receiver.call (flowcontrol.Accept ext (← Receiver.load (·.rateLimiter)))
  (← Receiver.call (glog.V ext 10)).Infof "azInterfacesClient.GetVirtualMachineScaleSetNetworkInterface(%q,%q,%q,%q): start" [.string resourceGroupName, .string virtualMachineScaleSetName, .string virtualmachineIndex, .string networkInterfaceName]
  Exec.defer (do (← Receiver.call (glog.V ext 10)).Infof "azInterfacesClient.GetVirtualMachineScaleSetNetworkInterface(%q,%q,%q,%q): end" [.string resourceGroupName, .string virtualMachineScaleSetName, .string virtualmachineIndex, .string networkInterfaceName]) do
    Receiver.call ((← Receiver.load (·.client)).GetVirtualMachineScaleSetNetworkInterface ext resourceGroupName virtualMachineScaleSetName virtualmachineIndex networkInterfaceName expand)

/-- The method `azLoadBalancersClient.CreateOrUpdate`, run on the struct its receiver points to. -/
def Mem.azLoadBalancersClient.CreateOrUpdate {T : Vendor} {σ : Type} (ext : External T σ) (resourceGroupName : String) (loadBalancerName : String) (parameters : T.network.LoadBalancer) (cancel : T.Chan Unit) : Exec T (Receiver (azLoadBalancersClient T) σ) (T.Chan T.network.LoadBalancer × T.Chan (error T)) := do
  Receiver.call (flowcontrol.Accept ext (← Receiver.load (·.rateLimiter)))
  (← Receiver.call (glog.V ext 10)).Infof "azLoadBalancersClient.CreateOrUpdate(%q,%q): start" [.string resourceGroupName, .string loadBalancerName]
  Exec.defer (do (← Receiver.call (glog.V ext 10)).Infof "azLoadBalancersClient.CreateOrUpdate(%q,%q): end" [.string resourceGroupName, .string loadBalancerName]) do
    Receiver.call ((← Receiver.load (·.client)).CreateOrUpdate ext resourceGroupName loadBalancerName parameters cancel)

/-- The method `azLoadBalancersClient.Delete`, run on the struct its receiver points to. -/
def Mem.azLoadBalancersClient.Delete {T : Vendor} {σ : Type} (ext : External T σ) (resourceGroupName : String) (loadBalancerName : String) (cancel : T.Chan Unit) : Exec T (Receiver (azLoadBalancersClient T) σ) (T.Chan T.autorest.Response × T.Chan (error T)) := do
  Receiver.call (flowcontrol.Accept ext (← Receiver.load (·.rateLimiter)))
  (← Receiver.call (glog.V ext 10)).Infof "azLoadBalancersClient.Delete(%q,%q): start" [.string resourceGroupName, .string loadBalancerName]
  Exec.defer (do (← Receiver.call (glog.V ext 10)).Infof "azLoadBalancersClient.Delete(%q,%q): end" [.string resourceGroupName, .string loadBalancerName]) do
    Receiver.call ((← Receiver.load (·.client)).Delete ext resourceGroupName loadBalancerName cancel)

/-- The method `azLoadBalancersClient.Get`, run on the struct its receiver points to. -/
def Mem.azLoadBalancersClient.Get {T : Vendor} {σ : Type} (ext : External T σ) (resourceGroupName : String) (loadBalancerName : String) (expand : String) : Exec T (Receiver (azLoadBalancersClient T) σ) (T.network.LoadBalancer × error T) := do
  Receiver.call (flowcontrol.Accept ext (← Receiver.load (·.rateLimiter)))
  (← Receiver.call (glog.V ext 10)).Infof "azLoadBalancersClient.Get(%q,%q): start" [.string resourceGroupName, .string loadBalancerName]
  Exec.defer (do (← Receiver.call (glog.V ext 10)).Infof "azLoadBalancersClient.Get(%q,%q): end" [.string resourceGroupName, .string loadBalancerName]) do
    Receiver.call ((← Receiver.load (·.client)).Get ext resourceGroupName loadBalancerName expand)

/-- The method `azLoadBalancersClient.List`, run on the struct its receiver points to. -/
def Mem.azLoadBalancersClient.List {T : Vendor} {σ : Type} (ext : External T σ) (resourceGroupName : String) : Exec T (Receiver (azLoadBalancersClient T) σ) (T.network.LoadBalancerListResult × error T) := do
  Receiver.call (flowcontrol.Accept ext (← Receiver.load (·.rateLimiter)))
  (← Receiver.call (glog.V ext 10)).Infof "azLoadBalancersClient.List(%q): start" [.string resourceGroupName]
  Exec.defer (do (← Receiver.call (glog.V ext 10)).Infof "azLoadBalancersClient.List(%q): end" [.string resourceGroupName]) do
    Receiver.call ((← Receiver.load (·.client)).List ext resourceGroupName)

/-- The method `azLoadBalancersClient.ListNextResults`, run on the struct its receiver points to. -/
def Mem.azLoadBalancersClient.ListNextResults {T : Vendor} {σ : Type} (ext : External T σ) (lastResult : T.network.LoadBalancerListResult) : Exec T (Receiver (azLoadBalancersClient T) σ) (T.network.LoadBalancerListResult × error T) := do
  Receiver.call (flowcontrol.Accept ext (← Receiver.load (·.rateLimiter)))
  (← Receiver.call (glog.V ext 10)).Infof "azLoadBalancersClient.ListNextResults(%q): start" [.LoadBalancerListResult lastResult]
  Exec.defer (do (← Receiver.call (glog.V ext 10)).Infof "azLoadBalancersClient.ListNextResults(%q): end" [.LoadBalancerListResult lastResult]) do
    Receiver.call ((← Receiver.load (·.client)).ListNextResults ext lastResult)

/-- The method `azPublicIPAddressesClient.CreateOrUpdate`, run on the struct its receiver points to. -/
def Mem.azPublicIPAddressesClient.CreateOrUpdate {T : Vendor} {σ : Type} (ext : External T σ) (resourceGroupName : String) (publicIPAddressName : String) (parameters : T.network.PublicIPAddress) (cancel : T.Chan Unit) : Exec T (Receiver (azPublicIPAddressesClient T) σ) (T.Chan T.network.PublicIPAddress × T.Chan (error T)) := do
  Receiver.call (flowcontrol.Accept ext (← Receiver.load (·.rateLimiter)))
  (← Receiver.call (glog.V ext 10)).Infof "azPublicIPAddressesClient.CreateOrUpdate(%q,%q): start" [.string resourceGroupName, .string publicIPAddressName]
  Exec.defer (do (← Receiver.call (glog.V ext 10)).Infof "azPublicIPAddressesClient.CreateOrUpdate(%q,%q): end" [.string resourceGroupName, .string publicIPAddressName]) do
    Receiver.call ((← Receiver.load (·.client)).CreateOrUpdate ext resourceGroupName publicIPAddressName parameters cancel)

/-- The method `azPublicIPAddressesClient.Delete`, run on the struct its receiver points to. -/
def Mem.azPublicIPAddressesClient.Delete {T : Vendor} {σ : Type} (ext : External T σ) (resourceGroupName : String) (publicIPAddressName : String) (cancel : T.Chan Unit) : Exec T (Receiver (azPublicIPAddressesClient T) σ) (T.Chan T.autorest.Response × T.Chan (error T)) := do
  Receiver.call (flowcontrol.Accept ext (← Receiver.load (·.rateLimiter)))
  (← Receiver.call (glog.V ext 10)).Infof "azPublicIPAddressesClient.Delete(%q,%q): start" [.string resourceGroupName, .string publicIPAddressName]
  Exec.defer (do (← Receiver.call (glog.V ext 10)).Infof "azPublicIPAddressesClient.Delete(%q,%q): end" [.string resourceGroupName, .string publicIPAddressName]) do
    Receiver.call ((← Receiver.load (·.client)).Delete ext resourceGroupName publicIPAddressName cancel)

/-- The method `azPublicIPAddressesClient.Get`, run on the struct its receiver points to. -/
def Mem.azPublicIPAddressesClient.Get {T : Vendor} {σ : Type} (ext : External T σ) (resourceGroupName : String) (publicIPAddressName : String) (expand : String) : Exec T (Receiver (azPublicIPAddressesClient T) σ) (T.network.PublicIPAddress × error T) := do
  Receiver.call (flowcontrol.Accept ext (← Receiver.load (·.rateLimiter)))
  (← Receiver.call (glog.V ext 10)).Infof "azPublicIPAddressesClient.Get(%q,%q): start" [.string resourceGroupName, .string publicIPAddressName]
  Exec.defer (do (← Receiver.call (glog.V ext 10)).Infof "azPublicIPAddressesClient.Get(%q,%q): end" [.string resourceGroupName, .string publicIPAddressName]) do
    Receiver.call ((← Receiver.load (·.client)).Get ext resourceGroupName publicIPAddressName expand)

/-- The method `azPublicIPAddressesClient.List`, run on the struct its receiver points to. -/
def Mem.azPublicIPAddressesClient.List {T : Vendor} {σ : Type} (ext : External T σ) (resourceGroupName : String) : Exec T (Receiver (azPublicIPAddressesClient T) σ) (T.network.PublicIPAddressListResult × error T) := do
  Receiver.call (flowcontrol.Accept ext (← Receiver.load (·.rateLimiter)))
  (← Receiver.call (glog.V ext 10)).Infof "azPublicIPAddressesClient.List(%q): start" [.string resourceGroupName]
  Exec.defer (do (← Receiver.call (glog.V ext 10)).Infof "azPublicIPAddressesClient.List(%q): end" [.string resourceGroupName]) do
    Receiver.call ((← Receiver.load (·.client)).List ext resourceGroupName)

/-- The method `azPublicIPAddressesClient.ListNextResults`, run on the struct its receiver points to. -/
def Mem.azPublicIPAddressesClient.ListNextResults {T : Vendor} {σ : Type} (ext : External T σ) (lastResults : T.network.PublicIPAddressListResult) : Exec T (Receiver (azPublicIPAddressesClient T) σ) (T.network.PublicIPAddressListResult × error T) := do
  Receiver.call (flowcontrol.Accept ext (← Receiver.load (·.rateLimiter)))
  (← Receiver.call (glog.V ext 10)).Infof "azPublicIPAddressesClient.ListNextResults(%q): start" [.PublicIPAddressListResult lastResults]
  Exec.defer (do (← Receiver.call (glog.V ext 10)).Infof "azPublicIPAddressesClient.ListNextResults(%q): end" [.PublicIPAddressListResult lastResults]) do
    Receiver.call ((← Receiver.load (·.client)).ListNextResults ext lastResults)

/-- The method `azSubnetsClient.CreateOrUpdate`, run on the struct its receiver points to. -/
def Mem.azSubnetsClient.CreateOrUpdate {T : Vendor} {σ : Type} (ext : External T σ) (resourceGroupName : String) (virtualNetworkName : String) (subnetName : String) (subnetParameters : T.network.Subnet) (cancel : T.Chan Unit) : Exec T (Receiver (azSubnetsClient T) σ) (T.Chan T.network.Subnet × T.Chan (error T)) := do
  Receiver.call (flowcontrol.Accept ext (← Receiver.load (·.rateLimiter)))
  (← Receiver.call (glog.V ext 10)).Infof "azSubnetsClient.CreateOrUpdate(%q,%q,%q): start" [.string resourceGroupName, .string virtualNetworkName, .string subnetName]
  Exec.defer (do (← Receiver.call (glog.V ext 10)).Infof "azSubnetsClient.CreateOrUpdate(%q,%q,%q): end" [.string resourceGroupName, .string virtualNetworkName, .string subnetName]) do
    Receiver.call ((← Receiver.load (·.client)).CreateOrUpdate ext resourceGroupName virtualNetworkName subnetName subnetParameters cancel)

/-- The method `azSubnetsClient.Delete`, run on the struct its receiver points to. -/
def Mem.azSubnetsClient.Delete {T : Vendor} {σ : Type} (ext : External T σ) (resourceGroupName : String) (virtualNetworkName : String) (subnetName : String) (cancel : T.Chan Unit) : Exec T (Receiver (azSubnetsClient T) σ) (T.Chan T.autorest.Response × T.Chan (error T)) := do
  Receiver.call (flowcontrol.Accept ext (← Receiver.load (·.rateLimiter)))
  (← Receiver.call (glog.V ext 10)).Infof "azSubnetsClient.Delete(%q,%q,%q): start" [.string resourceGroupName, .string virtualNetworkName, .string subnetName]
  Exec.defer (do (← Receiver.call (glog.V ext 10)).Infof "azSubnetsClient.Delete(%q,%q,%q): end" [.string resourceGroupName, .string virtualNetworkName, .string subnetName]) do
    Receiver.call ((← Receiver.load (·.client)).Delete ext resourceGroupName virtualNetworkName subnetName cancel)

/-- The method `azSubnetsClient.Get`, run on the struct its receiver points to. -/
def Mem.azSubnetsClient.Get {T : Vendor} {σ : Type} (ext : External T σ) (resourceGroupName : String) (virtualNetworkName : String) (subnetName : String) (expand : String) : Exec T (Receiver (azSubnetsClient T) σ) (T.network.Subnet × error T) := do
  Receiver.call (flowcontrol.Accept ext (← Receiver.load (·.rateLimiter)))
  (← Receiver.call (glog.V ext 10)).Infof "azSubnetsClient.Get(%q,%q,%q): start" [.string resourceGroupName, .string virtualNetworkName, .string subnetName]
  Exec.defer (do (← Receiver.call (glog.V ext 10)).Infof "azSubnetsClient.Get(%q,%q,%q): end" [.string resourceGroupName, .string virtualNetworkName, .string subnetName]) do
    Receiver.call ((← Receiver.load (·.client)).Get ext resourceGroupName virtualNetworkName subnetName expand)

/-- The method `azSubnetsClient.List`, run on the struct its receiver points to. -/
def Mem.azSubnetsClient.List {T : Vendor} {σ : Type} (ext : External T σ) (resourceGroupName : String) (virtualNetworkName : String) : Exec T (Receiver (azSubnetsClient T) σ) (T.network.SubnetListResult × error T) := do
  Receiver.call (flowcontrol.Accept ext (← Receiver.load (·.rateLimiter)))
  (← Receiver.call (glog.V ext 10)).Infof "azSubnetsClient.List(%q,%q): start" [.string resourceGroupName, .string virtualNetworkName]
  Exec.defer (do (← Receiver.call (glog.V ext 10)).Infof "azSubnetsClient.List(%q,%q): end" [.string resourceGroupName, .string virtualNetworkName]) do
    Receiver.call ((← Receiver.load (·.client)).List ext resourceGroupName virtualNetworkName)

/-- The method `azSecurityGroupsClient.CreateOrUpdate`, run on the struct its receiver points to. -/
def Mem.azSecurityGroupsClient.CreateOrUpdate {T : Vendor} {σ : Type} (ext : External T σ) (resourceGroupName : String) (networkSecurityGroupName : String) (parameters : T.network.SecurityGroup) (cancel : T.Chan Unit) : Exec T (Receiver (azSecurityGroupsClient T) σ) (T.Chan T.network.SecurityGroup × T.Chan (error T)) := do
  Receiver.call (flowcontrol.Accept ext (← Receiver.load (·.rateLimiter)))
  (← Receiver.call (glog.V ext 10)).Infof "azSecurityGroupsClient.CreateOrUpdate(%q,%q): start" [.string resourceGroupName, .string networkSecurityGroupName]
  Exec.defer (do (← Receiver.call (glog.V ext 10)).Infof "azSecurityGroupsClient.CreateOrUpdate(%q,%q): end" [.string resourceGroupName, .string networkSecurityGroupName]) do
    Receiver.call ((← Receiver.load (·.client)).CreateOrUpdate ext resourceGroupName networkSecurityGroupName parameters cancel)

/-- The method `azSecurityGroupsClient.Delete`, run on the struct its receiver points to. -/
def Mem.azSecurityGroupsClient.Delete {T : Vendor} {σ : Type} (ext : External T σ) (resourceGroupName : String) (networkSecurityGroupName : String) (cancel : T.Chan Unit) : Exec T (Receiver (azSecurityGroupsClient T) σ) (T.Chan T.autorest.Response × T.Chan (error T)) := do
  Receiver.call (flowcontrol.Accept ext (← Receiver.load (·.rateLimiter)))
  (← Receiver.call (glog.V ext 10)).Infof "azSecurityGroupsClient.Delete(%q,%q): start" [.string resourceGroupName, .string networkSecurityGroupName]
  Exec.defer (do (← Receiver.call (glog.V ext 10)).Infof "azSecurityGroupsClient.Delete(%q,%q): end" [.string resourceGroupName, .string networkSecurityGroupName]) do
    Receiver.call ((← Receiver.load (·.client)).Delete ext resourceGroupName networkSecurityGroupName cancel)

/-- The method `azSecurityGroupsClient.Get`, run on the struct its receiver points to. -/
def Mem.azSecurityGroupsClient.Get {T : Vendor} {σ : Type} (ext : External T σ) (resourceGroupName : String) (networkSecurityGroupName : String) (expand : String) : Exec T (Receiver (azSecurityGroupsClient T) σ) (T.network.SecurityGroup × error T) := do
  Receiver.call (flowcontrol.Accept ext (← Receiver.load (·.rateLimiter)))
  (← Receiver.call (glog.V ext 10)).Infof "azSecurityGroupsClient.Get(%q,%q): start" [.string resourceGroupName, .string networkSecurityGroupName]
  Exec.defer (do (← Receiver.call (glog.V ext 10)).Infof "azSecurityGroupsClient.Get(%q,%q): end" [.string resourceGroupName, .string networkSecurityGroupName]) do
    Receiver.call ((← Receiver.load (·.client)).Get ext resourceGroupName networkSecurityGroupName expand)

/-- The method `azSecurityGroupsClient.List`, run on the struct its receiver points to. -/
def Mem.azSecurityGroupsClient.List {T : Vendor} {σ : Type} (ext : External T σ) (resourceGroupName : String) : Exec T (Receiver (azSecurityGroupsClient T) σ) (T.network.SecurityGroupListResult × error T) := do
  Receiver.call (flowcontrol.Accept ext (← Receiver.load (·.rateLimiter)))
  (← Receiver.call (glog.V ext 10)).Infof "azSecurityGroupsClient.List(%q): start" [.string resourceGroupName]
  Exec.defer (do (← Receiver.call (glog.V ext 10)).Infof "azSecurityGroupsClient.List(%q): end" [.string resourceGroupName]) do
    Receiver.call ((← Receiver.load (·.client)).List ext resourceGroupName)

/-- The method `azVirtualMachineScaleSetsClient.CreateOrUpdate`, run on the struct its receiver points to. -/
def Mem.azVirtualMachineScaleSetsClient.CreateOrUpdate {T : Vendor} {σ : Type} (ext : External T σ) (resourceGroupName : String) (VMScaleSetName : String) (parameters : T.compute.VirtualMachineScaleSet) (cancel : T.Chan Unit) : Exec T (Receiver (azVirtualMachineScaleSetsClient T) σ) (T.Chan T.compute.VirtualMachineScaleSet × T.Chan (error T)) := do
  Receiver.call (flowcontrol.Accept ext (← Receiver.load (·.rateLimiter)))
  (← Receiver.call (glog.V ext 10)).Infof "azVirtualMachineScaleSetsClient.CreateOrUpdate(%q,%q): start" [.string resourceGroupName, .string VMScaleSetName]
  Exec.defer (do (← Receiver.call (glog.V ext 10)).Infof "azVirtualMachineScaleSetsClient.CreateOrUpdate(%q,%q): end" [.string resourceGroupName, .string VMScaleSetName]) do
    Receiver.call ((← Receiver.load (·.client)).CreateOrUpdate ext resourceGroupName VMScaleSetName parameters cancel)

/-- The method `azVirtualMachineScaleSetsClient.Get`, run on the struct its receiver points to. -/
def Mem.azVirtualMachineScaleSetsClient.Get {T : Vendor} {σ : Type} (ext : External T σ) (resourceGroupName : String) (VMScaleSetName : String) : Exec T (Receiver (azVirtualMachineScaleSetsClient T) σ) (T.compute.VirtualMachineScaleSet × error T) := do
  Receiver.call (flowcontrol.Accept ext (← Receiver.load (·.rateLimiter)))
  (← Receiver.call (glog.V ext 10)).Infof "azVirtualMachineScaleSetsClient.Get(%q,%q): start" [.string resourceGroupName, .string VMScaleSetName]
  Exec.defer (do (← Receiver.call (glog.V ext 10)).Infof "azVirtualMachineScaleSetsClient.Get(%q,%q): end" [.string resourceGroupName, .string VMScaleSetName]) do
    Receiver.call ((← Receiver.load (·.client)).Get ext resourceGroupName VMScaleSetName)

/-- The method `azVirtualMachineScaleSetsClient.List`, run on the struct its receiver points to. -/
def Mem.azVirtualMachineScaleSetsClient.List {T : Vendor} {σ : Type} (ext : External T σ) (resourceGroupName : String) : Exec T (Receiver (azVirtualMachineScaleSetsClient T) σ) (T.compute.VirtualMachineScaleSetListResult × error T) := do
  Receiver.call (flowcontrol.Accept ext (← Receiver.load (·.rateLimiter)))
  (← Receiver.call (glog.V ext 10)).Infof "azVirtualMachineScaleSetsClient.List(%q,%q): start" [.string resourceGroupName]
  Exec.defer (do (← Receiver.call (glog.V ext 10)).Infof "azVirtualMachineScaleSetsClient.List(%q,%q): end" [.string resourceGroupName]) do
    Receiver.call ((← Receiver.load (·.client)).List ext resourceGroupName)

/-- The method `azVirtualMachineScaleSetsClient.ListNextResults`, run on the struct its receiver points to. -/
def Mem.azVirtualMachineScaleSetsClient.ListNextResults {T : Vendor} {σ : Type} (ext : External T σ) (lastResults : T.compute.VirtualMachineScaleSetListResult) : Exec T (Receiver (azVirtualMachineScaleSetsClient T) σ) (T.compute.VirtualMachineScaleSetListResult × error T) := do
  Receiver.call (flowcontrol.Accept ext (← Receiver.load (·.rateLimiter)))
  (← Receiver.call (glog.V ext 10)).Infof "azVirtualMachineScaleSetsClient.ListNextResults(%q): start" [.VirtualMachineScaleSetListResult lastResults]
  Exec.defer (do (← Receiver.call (glog.V ext 10)).Infof "azVirtualMachineScaleSetsClient.ListNextResults(%q): end" [.VirtualMachineScaleSetListResult lastResults]) do
    Receiver.call ((← Receiver.load (·.client)).ListNextResults ext lastResults)

/-- The method `azVirtualMachineScaleSetsClient.UpdateInstances`, run on the struct its receiver points to. -/
def Mem.azVirtualMachineScaleSetsClient.UpdateInstances {T : Vendor} {σ : Type} (ext : External T σ) (resourceGroupName : String) (VMScaleSetName : String) (VMInstanceIDs : T.compute.VirtualMachineScaleSetVMInstanceRequiredIDs) (cancel : T.Chan Unit) : Exec T (Receiver (azVirtualMachineScaleSetsClient T) σ) (T.Chan T.compute.OperationStatusResponse × T.Chan (error T)) := do
  Receiver.call (flowcontrol.Accept ext (← Receiver.load (·.rateLimiter)))
  (← Receiver.call (glog.V ext 10)).Infof "azVirtualMachineScaleSetsClient.UpdateInstances(%q,%q,%q): start" [.string resourceGroupName, .string VMScaleSetName, .VirtualMachineScaleSetVMInstanceRequiredIDs VMInstanceIDs]
  Exec.defer (do (← Receiver.call (glog.V ext 10)).Infof "azVirtualMachineScaleSetsClient.UpdateInstances(%q,%q,%q): end" [.string resourceGroupName, .string VMScaleSetName, .VirtualMachineScaleSetVMInstanceRequiredIDs VMInstanceIDs]) do
    Receiver.call ((← Receiver.load (·.client)).UpdateInstances ext resourceGroupName VMScaleSetName VMInstanceIDs cancel)

/-- The method `azVirtualMachineScaleSetVMsClient.Get`, run on the struct its receiver points to. -/
def Mem.azVirtualMachineScaleSetVMsClient.Get {T : Vendor} {σ : Type} (ext : External T σ) (resourceGroupName : String) (VMScaleSetName : String) (instanceID : String) : Exec T (Receiver (azVirtualMachineScaleSetVMsClient T) σ) (T.compute.VirtualMachineScaleSetVM × error T) := do
  Receiver.call (flowcontrol.Accept ext (← Receiver.load (·.rateLimiter)))
  (← Receiver.call (glog.V ext 10)).Infof "azVirtualMachineScaleSetVMsClient.Get(%q,%q,%q): start" [.string resourceGroupName, .string VMScaleSetName, .string instanceID]
  Exec.defer (do (← Receiver.call (glog.V ext 10)).Infof "azVirtualMachineScaleSetVMsClient.Get(%q,%q,%q): end" [.string resourceGroupName, .string VMScaleSetName, .string instanceID]) do
    Receiver.call ((← Receiver.load (·.client)).Get ext resourceGroupName VMScaleSetName instanceID)

/-- The method `azVirtualMachineScaleSetVMsClient.GetInstanceView`, run on the struct its receiver points to. -/
def Mem.azVirtualMachineScaleSetVMsClient.GetInstanceView {T : Vendor} {σ : Type} (ext : External T σ) (resourceGroupName : String) (VMScaleSetName : String) (instanceID : String) : Exec T (Receiver (azVirtualMachineScaleSetVMsClient T) σ) (T.compute.VirtualMachineScaleSetVMInstanceView × error T) := do
  Receiver.call (flowcontrol.Accept ext (← Receiver.load (·.rateLimiter)))
  (← Receiver.call (glog.V ext 10)).Infof "azVirtualMachineScaleSetVMsClient.GetInstanceView(%q,%q,%q): start" [.string resourceGroupName, .string VMScaleSetName, .string instanceID]
  Exec.defer (do (← Receiver.call (glog.V ext 10)).Infof "azVirtualMachineScaleSetVMsClient.GetInstanceView(%q,%q,%q): end" [.string resourceGroupName, .string VMScaleSetName, .string instanceID]) do
    Receiver.call ((← Receiver.load (·.client)).GetInstanceView ext resourceGroupName VMScaleSetName instanceID)

/-- The method `azVirtualMachineScaleSetVMsClient.List`, run on the struct its receiver points to. -/
def Mem.azVirtualMachineScaleSetVMsClient.List {T : Vendor} {σ : Type} (ext : External T σ) (resourceGroupName : String) (virtualMachineScaleSetName : String) (filter : String) (selectParameter : String) (expand : String) : Exec T (Receiver (azVirtualMachineScaleSetVMsClient T) σ) (T.compute.VirtualMachineScaleSetVMListResult × error T) := do
  Receiver.call (flowcontrol.Accept ext (← Receiver.load (·.rateLimiter)))
  (← Receiver.call (glog.V ext 10)).Infof "azVirtualMachineScaleSetVMsClient.List(%q,%q,%q): start" [.string resourceGroupName, .string virtualMachineScaleSetName, .string filter]
  Exec.defer (do (← Receiver.call (glog.V ext 10)).Infof "azVirtualMachineScaleSetVMsClient.List(%q,%q,%q): end" [.string resourceGroupName, .string virtualMachineScaleSetName, .string filter]) do
    Receiver.call ((← Receiver.load (·.client)).List ext resourceGroupName virtualMachineScaleSetName filter selectParameter expand)

/-- The method `azVirtualMachineScaleSetVMsClient.ListNextResults`, run on the struct its receiver points to. -/
def Mem.azVirtualMachineScaleSetVMsClient.ListNextResults {T : Vendor} {σ : Type} (ext : External T σ) (lastResults : T.compute.VirtualMachineScaleSetVMListResult) : Exec T (Receiver (azVirtualMachineScaleSetVMsClient T) σ) (T.compute.VirtualMachineScaleSetVMListResult × error T) := do
  Receiver.call (flowcontrol.Accept ext (← Receiver.load (·.rateLimiter)))
  (← Receiver.call (glog.V ext 10)).Infof "azVirtualMachineScaleSetVMsClient.ListNextResults(%q,%q,%q): start" [.VirtualMachineScaleSetVMListResult lastResults]
  Exec.defer (do (← Receiver.call (glog.V ext 10)).Infof "azVirtualMachineScaleSetVMsClient.ListNextResults(%q,%q,%q): end" [.VirtualMachineScaleSetVMListResult lastResults]) do
    Receiver.call ((← Receiver.load (·.client)).ListNextResults ext lastResults)

/-- The method `azRoutesClient.CreateOrUpdate`, run on the struct its receiver points to. -/
def Mem.azRoutesClient.CreateOrUpdate {T : Vendor} {σ : Type} (ext : External T σ) (resourceGroupName : String) (routeTableName : String) (routeName : String) (routeParameters : T.network.Route) (cancel : T.Chan Unit) : Exec T (Receiver (azRoutesClient T) σ) (T.Chan T.network.Route × T.Chan (error T)) := do
  Receiver.call (flowcontrol.Accept ext (← Receiver.load (·.rateLimiter)))
  (← Receiver.call (glog.V ext 10)).Infof "azRoutesClient.CreateOrUpdate(%q,%q,%q): start" [.string resourceGroupName, .string routeTableName, .string routeName]
  Exec.defer (do (← Receiver.call (glog.V ext 10)).Infof "azRoutesClient.CreateOrUpdate(%q,%q,%q): end" [.string resourceGroupName, .string routeTableName, .string routeName]) do
    Receiver.call ((← Receiver.load (·.client)).CreateOrUpdate ext resourceGroupName routeTableName routeName routeParameters cancel)

/-- The method `azRoutesClient.Delete`, run on the struct its receiver points to. -/
def Mem.azRoutesClient.Delete {T : Vendor} {σ : Type} (ext : External T σ) (resourceGroupName : String) (routeTableName : String) (routeName : String) (cancel : T.Chan Unit) : Exec T (Receiver (azRoutesClient T) σ) (T.Chan T.autorest.Response × T.Chan (error T)) := do
  Receiver.call (flowcontrol.Accept ext (← Receiver.load (·.rateLimiter)))
  (← Receiver.call (glog.V ext 10)).Infof "azRoutesClient.Delete(%q,%q,%q): start" [.string resourceGroupName, .string routeTableName, .string routeName]
  Exec.defer (do (← Receiver.call (glog.V ext 10)).Infof "azRoutesClient.Delete(%q,%q,%q): end" [.string resourceGroupName, .string routeTableName, .string routeName]) do
    Receiver.call ((← Receiver.load (·.client)).Delete ext resourceGroupName routeTableName routeName cancel)

/-- The method `azRouteTablesClient.CreateOrUpdate`, run on the struct its receiver points to. -/
def Mem.azRouteTablesClient.CreateOrUpdate {T : Vendor} {σ : Type} (ext : External T σ) (resourceGroupName : String) (routeTableName : String) (parameters : T.network.RouteTable) (cancel : T.Chan Unit) : Exec T (Receiver (azRouteTablesClient T) σ) (T.Chan T.network.RouteTable × T.Chan (error T)) := do
  Receiver.call (flowcontrol.Accept ext (← Receiver.load (·.rateLimiter)))
  (← Receiver.call (glog.V ext 10)).Infof "azRouteTablesClient.CreateOrUpdate(%q,%q): start" [.string resourceGroupName, .string routeTableName]
  Exec.defer (do (← Receiver.call (glog.V ext 10)).Infof "azRouteTablesClient.CreateOrUpdate(%q,%q): end" [.string resourceGroupName, .string routeTableName]) do
    Receiver.call ((← Receiver.load (·.client)).CreateOrUpdate ext resourceGroupName routeTableName parameters cancel)

/-- The method `azRouteTablesClient.Get`, run on the struct its receiver points to. -/
def Mem.azRouteTablesClient.Get {T : Vendor} {σ : Type} (ext : External T σ) (resourceGroupName : String) (routeTableName : String) (expand : String) : Exec T (Receiver (azRouteTablesClient T) σ) (T.network.RouteTable × error T) := do
  Receiver.call (flowcontrol.Accept ext (← Receiver.load (·.rateLimiter)))
  (← Receiver.call (glog.V ext 10)).Infof "azRouteTablesClient.Get(%q,%q): start" [.string resourceGroupName, .string routeTableName]
  Exec.defer (do (← Receiver.call (glog.V ext 10)).Infof "azRouteTablesClient.Get(%q,%q): end" [.string resourceGroupName, .string routeTableName]) do
    Receiver.call ((← Receiver.load (·.client)).Get ext resourceGroupName routeTableName expand)

/-- The method `azStorageAccountClient.Create`, run on the struct its receiver points to. -/
def Mem.azStorageAccountClient.Create {T : Vendor} {σ : Type} (ext : External T σ) (resourceGroupName : String) (accountName : String) (parameters : T.storage.AccountCreateParameters) (cancel : T.Chan Unit) : Exec T (Receiver (azStorageAccountClient T) σ) (T.Chan T.storage.Account × T.Chan (error T)) := do
  Receiver.call (flowcontrol.Accept ext (← Receiver.load (·.rateLimiter)))
  (← Receiver.call (glog.V ext 10)).Infof "azStorageAccountClient.Create(%q,%q): start" [.string resourceGroupName, .string accountName]
  Exec.defer (do (← Receiver.call (glog.V ext 10)).Infof "azStorageAccountClient.Create(%q,%q): end" [.string resourceGroupName, .string accountName]) do
    Receiver.call ((← Receiver.load (·.client)).Create ext resourceGroupName accountName parameters cancel)

/-- The method `azStorageAccountClient.Delete`, run on the struct its receiver points to. -/
def Mem.azStorageAccountClient.Delete {T : Vendor} {σ : Type} (ext : External T σ) (resourceGroupName : String) (accountName : String) : Exec T (Receiver (azStorageAccountClient T) σ) (T.autorest.Response × error T) := do
  Receiver.call (flowcontrol.Accept ext (← Receiver.load (·.rateLimiter)))
  (← Receiver.call (glog.V ext 10)).Infof "azStorageAccountClient.Delete(%q,%q): start" [.string resourceGroupName, .string accountName]
  Exec.defer (do (← Receiver.call (glog.V ext 10)).Infof "azStorageAccountClient.Delete(%q,%q): end" [.string resourceGroupName, .string accountName]) do
    Receiver.call ((← Receiver.load (·.client)).Delete ext resourceGroupName accountName)

/-- The method `azStorageAccountClient.ListKeys`, run on the struct its receiver points to. -/
def Mem.azStorageAccountClient.ListKeys {T : Vendor} {σ : Type} (ext : External T σ) (resourceGroupName : String) (accountName : String) : Exec T (Receiver (azStorageAccountClient T) σ) (T.storage.AccountListKeysResult × error T) := do
  Receiver.call (flowcontrol.Accept ext (← Receiver.load (·.rateLimiter)))
  (← Receiver.call (glog.V ext 10)).Infof "azStorageAccountClient.ListKeys(%q,%q): start" [.string resourceGroupName, .string accountName]
  Exec.defer (do (← Receiver.call (glog.V ext 10)).Infof "azStorageAccountClient.ListKeys(%q,%q): end" [.string resourceGroupName, .string accountName]) do
    Receiver.call ((← Receiver.load (·.client)).ListKeys ext resourceGroupName accountName)

/-- The method `azStorageAccountClient.ListByResourceGroup`, run on the struct its receiver points to. -/
def Mem.azStorageAccountClient.ListByResourceGroup {T : Vendor} {σ : Type} (ext : External T σ) (resourceGroupName : String) : Exec T (Receiver (azStorageAccountClient T) σ) (T.storage.AccountListResult × error T) := do
  Receiver.call (flowcontrol.Accept ext (← Receiver.load (·.rateLimiter)))
  (← Receiver.call (glog.V ext 10)).Infof "azStorageAccountClient.ListByResourceGroup(%q): start" [.string resourceGroupName]
  Exec.defer (do (← Receiver.call (glog.V ext 10)).Infof "azStorageAccountClient.ListByResourceGroup(%q): end" [.string resourceGroupName]) do
    Receiver.call ((← Receiver.load (·.client)).ListByResourceGroup ext resourceGroupName)

/-- The method `azStorageAccountClient.GetProperties`, run on the struct its receiver points to. -/
def Mem.azStorageAccountClient.GetProperties {T : Vendor} {σ : Type} (ext : External T σ) (resourceGroupName : String) (accountName : String) : Exec T (Receiver (azStorageAccountClient T) σ) (T.storage.Account × error T) := do
  Receiver.call (flowcontrol.Accept ext (← Receiver.load (·.rateLimiter)))
  (← Receiver.call (glog.V ext 10)).Infof "azStorageAccountClient.GetProperties(%q,%q): start" [.string resourceGroupName, .string accountName]
  Exec.defer (do (← Receiver.call (glog.V ext 10)).Infof "azStorageAccountClient.GetProperties(%q,%q): end" [.string resourceGroupName, .string accountName]) do
    Receiver.call ((← Receiver.load (·.client)).GetProperties ext resourceGroupName accountName)

/-- The method `azDisksClient.CreateOrUpdate`, run on the struct its receiver points to. -/
def Mem.azDisksClient.CreateOrUpdate {T : Vendor} {σ : Type} (ext : External T σ) (resourceGroupName : String) (diskName : String) (diskParameter : T.disk.Model) (cancel : T.Chan Unit) : Exec T (Receiver (azDisksClient T) σ) (T.Chan T.disk.Model × T.Chan (error T)) := do
  Receiver.call (flowcontrol.Accept ext (← Receiver.load (·.rateLimiter)))
  (← Receiver.call (glog.V ext 10)).Infof "azDisksClient.CreateOrUpdate(%q,%q): start" [.string resourceGroupName, .string diskName]
  Exec.defer (do (← Receiver.call (glog.V ext 10)).Infof "azDisksClient.CreateOrUpdate(%q,%q): end" [.string resourceGroupName, .string diskName]) do
    Receiver.call ((← Receiver.load (·.client)).CreateOrUpdate ext resourceGroupName diskName diskParameter cancel)

/-- The method `azDisksClient.Delete`, run on the struct its receiver points to. -/
def Mem.azDisksClient.Delete {T : Vendor} {σ : Type} (ext : External T σ) (resourceGroupName : String) (diskName : String) (cancel : T.Chan Unit) : Exec T (Receiver (azDisksClient T) σ) (T.Chan T.disk.OperationStatusResponse × T.Chan (error T)) := do
  Receiver.call (flowcontrol.Accept ext (← Receiver.load (·.rateLimiter)))
  (← Receiver.call (glog.V ext 10)).Infof "azDisksClient.Delete(%q,%q): start" [.string resourceGroupName, .string diskName]
  Exec.defer (do (← Receiver.call (glog.V ext 10)).Infof "azDisksClient.Delete(%q,%q): end" [.string resourceGroupName, .string diskName]) do
    Receiver.call ((← Receiver.load (·.client)).Delete ext resourceGroupName diskName cancel)

/-- The method `azDisksClient.Get`, run on the struct its receiver points to. -/
def Mem.azDisksClient.Get {T : Vendor} {σ : Type} (ext : External T σ) (resourceGroupName : String) (diskName : String) : Exec T (Receiver (azDisksClient T) σ) (T.disk.Model × error T) := do
  Receiver.call (flowcontrol.Accept ext (← Receiver.load (·.rateLimiter)))
  (← Receiver.call (glog.V ext 10)).Infof "azDisksClient.Get(%q,%q): start" [.string resourceGroupName, .string diskName]
  Exec.defer (do (← Receiver.call (glog.V ext 10)).Infof "azDisksClient.Get(%q,%q): end" [.string resourceGroupName, .string diskName]) do
    Receiver.call ((← Receiver.load (·.client)).Get ext resourceGroupName diskName)

/-- A wrapper struct of any of the twelve types. -/
inductive Wrapper (T : Vendor) where
  | VirtualMachines (az : azVirtualMachinesClient T)
  | Interfaces (az : azInterfacesClient T)
  | LoadBalancers (az : azLoadBalancersClient T)
  | PublicIPAddresses (az : azPublicIPAddressesClient T)
  | Subnets (az : azSubnetsClient T)
  | SecurityGroups (az : azSecurityGroupsClient T)
  | VirtualMachineScaleSets (az : azVirtualMachineScaleSetsClient T)
  | VirtualMachineScaleSetVMs (az : azVirtualMachineScaleSetVMsClient T)
  | Routes (az : azRoutesClient T)
  | RouteTables (az : azRouteTablesClient T)
  | StorageAccount (az : azStorageAccountClient T)
  | Disks (az : azDisksClient T)

/-- The SDK client a wrapper struct holds, as the management client it embeds. -/
def Wrapper.client {T : Vendor} : Wrapper T → ManagementClient T
  | .VirtualMachines az => az.client.toManagementClient
  | .Interfaces az => az.client.toManagementClient
  | .LoadBalancers az => az.client.toManagementClient
  | .PublicIPAddresses az => az.client.toManagementClient
  | .Subnets az => az.client.toManagementClient
  | .SecurityGroups az => az.client.toManagementClient
  | .VirtualMachineScaleSets az => az.client.toManagementClient
  | .VirtualMachineScaleSetVMs az => az.client.toManagementClient
  | .Routes az => az.client.toManagementClient
  | .RouteTables az => az.client.toManagementClient
  | .StorageAccount az => az.client.toManagementClient
  | .Disks az => az.client.toManagementClient

/-- The rate limiter a wrapper struct holds. -/
def Wrapper.rateLimiter {T : Vendor} : Wrapper T → T.flowcontrol.RateLimiter
  | .VirtualMachines az => az.rateLimiter
  | .Interfaces az => az.rateLimiter
  | .LoadBalancers az => az.rateLimiter
  | .PublicIPAddresses az => az.rateLimiter
  | .Subnets az => az.rateLimiter
  | .SecurityGroups az => az.rateLimiter
  | .VirtualMachineScaleSets az => az.rateLimiter
  | .VirtualMachineScaleSetVMs az => az.rateLimiter
  | .Routes az => az.rateLimiter
  | .RouteTables az => az.rateLimiter
  | .StorageAccount az => az.rateLimiter
  | .Disks az => az.rateLimiter

/-- The outcome of a method run on its receiver, with the receiver seen as a `Wrapper`. -/
def Outcome.asWrapper {T : Vendor} {W σ α : Type} (inj : W → Wrapper T) (o : Outcome T (Receiver W σ) α) :
    Outcome T (Receiver (Wrapper T) σ) α :=
  ⟨o.value, ⟨inj o.ext.self, o.ext.outside⟩, o.events⟩

/-- The wrapper struct the call is made on. -/
def SyncCall.receiver {T : Vendor} {α : Type} : SyncCall T α → Wrapper T
  | .azVirtualMachinesClient_Get az _ _ _ => .VirtualMachines az
  | .azVirtualMachinesClient_List az _ => .VirtualMachines az
  | .azVirtualMachinesClient_ListNextResults az _ => .VirtualMachines az
  | .azInterfacesClient_Get az _ _ _ => .Interfaces az
  | .azInterfacesClient_GetVirtualMachineScaleSetNetworkInterface az _ _ _ _ _ => .Interfaces az
  | .azLoadBalancersClient_Get az _ _ _ => .LoadBalancers az
  | .azLoadBalancersClient_List az _ => .LoadBalancers az
  | .azLoadBalancersClient_ListNextResults az _ => .LoadBalancers az
  | .azPublicIPAddressesClient_Get az _ _ _ => .PublicIPAddresses az
  | .azPublicIPAddressesClient_List az _ => .PublicIPAddresses az
  | .azPublicIPAddressesClient_ListNextResults az _ => .PublicIPAddresses az
  | .azSubnetsClient_Get az _ _ _ _ => .Subnets az
  | .azSubnetsClient_List az _ _ => .Subnets az
  | .azSecurityGroupsClient_Get az _ _ _ => .SecurityGroups az
  | .azSecurityGroupsClient_List az _ => .SecurityGroups az
  | .azVirtualMachineScaleSetsClient_Get az _ _ => .VirtualMachineScaleSets az
  | .azVirtualMachineScaleSetsClient_List az _ => .VirtualMachineScaleSets az
  | .azVirtualMachineScaleSetsClient_ListNextResults az _ => .VirtualMachineScaleSets az
  | .azVirtualMachineScaleSetVMsClient_Get az _ _ _ => .VirtualMachineScaleSetVMs az
  | .azVirtualMachineScaleSetVMsClient_GetInstanceView az _ _ _ => .VirtualMachineScaleSetVMs az
  | .azVirtualMachineScaleSetVMsClient_List az _ _ _ _ _ => .VirtualMachineScaleSetVMs az
  | .azVirtualMachineScaleSetVMsClient_ListNextResults az _ => .VirtualMachineScaleSetVMs az
  | .azRouteTablesClient_Get az _ _ _ => .RouteTables az
  | .azStorageAccountClient_Delete az _ _ => .StorageAccount az
  | .azStorageAccountClient_ListKeys az _ _ => .StorageAccount az
  | .azStorageAccountClient_ListByResourceGroup az _ => .StorageAccount az
  | .azStorageAccountClient_GetProperties az _ _ => .StorageAccount az
  | .azDisksClient_Get az _ _ => .Disks az

/-- Running the wrapper method of the call on the struct its receiver points to. -/
def SyncCall.onPointer {T : Vendor} {σ α : Type} (ext : External T σ) : SyncCall T α → σ → Outcome T (Receiver (Wrapper T) σ) (α × error T)
  | .azVirtualMachinesClient_Get az resourceGroupName VMName expand, s => (Mem.azVirtualMachinesClient.Get ext resourceGroupName VMName expand ⟨az, s⟩).asWrapper .VirtualMachines
  | .azVirtualMachinesClient_List az resourceGroupName, s => (Mem.azVirtualMachinesClient.List ext resourceGroupName ⟨az, s⟩).asWrapper .VirtualMachines
  | .azVirtualMachinesClient_ListNextResults az lastResults, s => (Mem.azVirtualMachinesClient.ListNextResults ext lastResults ⟨az, s⟩).asWrapper .VirtualMachines
  | .azInterfacesClient_Get az resourceGroupName networkInterfaceName expand, s => (Mem.azInterfacesClient.Get ext resourceGroupName networkInterfaceName expand ⟨az, s⟩).asWrapper .Interfaces
  | .azInterfacesClient_GetVirtualMachineScaleSetNetworkInterface az resourceGroupName virtualMachineScaleSetName virtualmachineIndex networkInterfaceName expand, s => (Mem.azInterfacesClient.GetVirtualMachineScaleSetNetworkInterface ext resourceGroupName virtualMachineScaleSetName virtualmachineIndex networkInterfaceName expand ⟨az, s⟩).asWrapper .Interfaces
  | .azLoadBalancersClient_Get az resourceGroupName loadBalancerName expand, s => (Mem.azLoadBalancersClient.Get ext resourceGroupName loadBalancerName expand ⟨az, s⟩).asWrapper .LoadBalancers
  | .azLoadBalancersClient_List az resourceGroupName, s => (Mem.azLoadBalancersClient.List ext resourceGroupName ⟨az, s⟩).asWrapper .LoadBalancers
  | .azLoadBalancersClient_ListNextResults az lastResult, s => (Mem.azLoadBalancersClient.ListNextResults ext lastResult ⟨az, s⟩).asWrapper .LoadBalancers
  | .azPublicIPAddressesClient_Get az resourceGroupName publicIPAddressName expand, s => (Mem.azPublicIPAddressesClient.Get ext resourceGroupName publicIPAddressName expand ⟨az, s⟩).asWrapper .PublicIPAddresses
  | .azPublicIPAddressesClient_List az resourceGroupName, s => (Mem.azPublicIPAddressesClient.List ext resourceGroupName ⟨az, s⟩).asWrapper .PublicIPAddresses
  | .azPublicIPAddressesClient_ListNextResults az lastResults, s => (Mem.azPublicIPAddressesClient.ListNextResults ext lastResults ⟨az, s⟩).asWrapper .PublicIPAddresses
  | .azSubnetsClient_Get az resourceGroupName virtualNetworkName subnetName expand, s => (Mem.azSubnetsClient.Get ext resourceGroupName virtualNetworkName subnetName expand ⟨az, s⟩).asWrapper .Subnets
  | .azSubnetsClient_List az resourceGroupName virtualNetworkName, s => (Mem.azSubnetsClient.List ext resourceGroupName virtualNetworkName ⟨az, s⟩).asWrapper .Subnets
  | .azSecurityGroupsClient_Get az resourceGroupName networkSecurityGroupName expand, s => (Mem.azSecurityGroupsClient.Get ext resourceGroupName networkSecurityGroupName expand ⟨az, s⟩).asWrapper .SecurityGroups
  | .azSecurityGroupsClient_List az resourceGroupName, s => (Mem.azSecurityGroupsClient.List ext resourceGroupName ⟨az, s⟩).asWrapper .SecurityGroups
  | .azVirtualMachineScaleSetsClient_Get az resourceGroupName VMScaleSetName, s => (Mem.azVirtualMachineScaleSetsClient.Get ext resourceGroupName VMScaleSetName ⟨az, s⟩).asWrapper .VirtualMachineScaleSets
  | .azVirtualMachineScaleSetsClient_List az resourceGroupName, s => (Mem.azVirtualMachineScaleSetsClient.List ext resourceGroupName ⟨az, s⟩).asWrapper .VirtualMachineScaleSets
  | .azVirtualMachineScaleSetsClient_ListNextResults az lastResults, s => (Mem.azVirtualMachineScaleSetsClient.ListNextResults ext lastResults ⟨az, s⟩).asWrapper .VirtualMachineScaleSets
  | .azVirtualMachineScaleSetVMsClient_Get az resourceGroupName VMScaleSetName instanceID, s => (Mem.azVirtualMachineScaleSetVMsClient.Get ext resourceGroupName VMScaleSetName instanceID ⟨az, s⟩).asWrapper .VirtualMachineScaleSetVMs
  | .azVirtualMachineScaleSetVMsClient_GetInstanceView az resourceGroupName VMScaleSetName instanceID, s => (Mem.azVirtualMachineScaleSetVMsClient.GetInstanceView ext resourceGroupName VMScaleSetName instanceID ⟨az, s⟩).asWrapper .VirtualMachineScaleSetVMs
  | .azVirtualMachineScaleSetVMsClient_List az resourceGroupName virtualMachineScaleSetName filter selectParameter expand, s => (Mem.azVirtualMachineScaleSetVMsClient.List ext resourceGroupName virtualMachineScaleSetName filter selectParameter expand ⟨az, s⟩).asWrapper .VirtualMachineScaleSetVMs
  | .azVirtualMachineScaleSetVMsClient_ListNextResults az lastResults, s => (Mem.azVirtualMachineScaleSetVMsClient.ListNextResults ext lastResults ⟨az, s⟩).asWrapper .VirtualMachineScaleSetVMs
  | .azRouteTablesClient_Get az resourceGroupName routeTableName expand, s => (Mem.azRouteTablesClient.Get ext resourceGroupName routeTableName expand ⟨az, s⟩).asWrapper .RouteTables
  | .azStorageAccountClient_Delete az resourceGroupName accountName, s => (Mem.azStorageAccountClient.Delete ext resourceGroupName accountName ⟨az, s⟩).asWrapper .StorageAccount
  | .azStorageAccountClient_ListKeys az resourceGroupName accountName, s => (Mem.azStorageAccountClient.ListKeys ext resourceGroupName accountName ⟨az, s⟩).asWrapper .StorageAccount
  | .azStorageAccountClient_ListByResourceGroup az resourceGroupName, s => (Mem.azStorageAccountClient.ListByResourceGroup ext resourceGroupName ⟨az, s⟩).asWrapper .StorageAccount
  | .azStorageAccountClient_GetProperties az resourceGroupName accountName, s => (Mem.azStorageAccountClient.GetProperties ext resourceGroupName accountName ⟨az, s⟩).asWrapper .StorageAccount
  | .azDisksClient_Get az resourceGroupName diskName, s => (Mem.azDisksClient.Get ext resourceGroupName diskName ⟨az, s⟩).asWrapper .Disks

/-- The wrapper struct the call is made on. -/
def AsyncCall.receiver {T : Vendor} {α : Type} : AsyncCall T α → Wrapper T
  | .azVirtualMachinesClient_CreateOrUpdate az _ _ _ _ => .VirtualMachines az
  | .azInterfacesClient_CreateOrUpdate az _ _ _ _ => .Interfaces az
  | .azLoadBalancersClient_CreateOrUpdate az _ _ _ _ => .LoadBalancers az
  | .azLoadBalancersClient_Delete az _ _ _ => .LoadBalancers az
  | .azPublicIPAddressesClient_CreateOrUpdate az _ _ _ _ => .PublicIPAddresses az
  | .azPublicIPAddressesClient_Delete az _ _ _ => .PublicIPAddresses az
  | .azSubnetsClient_CreateOrUpdate az _ _ _ _ _ => .Subnets az
  | .azSubnetsClient_Delete az _ _ _ _ => .Subnets az
  | .azSecurityGroupsClient_CreateOrUpdate az _ _ _ _ => .SecurityGroups az
  | .azSecurityGroupsClient_Delete az _ _ _ => .SecurityGroups az
  | .azVirtualMachineScaleSetsClient_CreateOrUpdate az _ _ _ _ => .VirtualMachineScaleSets az
  | .azVirtualMachineScaleSetsClient_UpdateInstances az _ _ _ _ => .VirtualMachineScaleSets az
  | .azRoutesClient_CreateOrUpdate az _ _ _ _ _ => .Routes az
  | .azRoutesClient_Delete az _ _ _ _ => .Routes az
  | .azRouteTablesClient_CreateOrUpdate az _ _ _ _ => .RouteTables az
  | .azStorageAccountClient_Create az _ _ _ _ => .StorageAccount az
  | .azDisksClient_CreateOrUpdate az _ _ _ _ => .Disks az
  | .azDisksClient_Delete az _ _ _ => .Disks az

/-- Running the wrapper method of the call on the struct its receiver points to. -/
def AsyncCall.onPointer {T : Vendor} {σ α : Type} (ext : External T σ) : AsyncCall T α → σ → Outcome T (Receiver (Wrapper T) σ) (T.Chan α × T.Chan (error T))
  | .azVirtualMachinesClient_CreateOrUpdate az resourceGroupName VMName parameters cancel, s => (Mem.azVirtualMachinesClient.CreateOrUpdate ext resourceGroupName VMName parameters cancel ⟨az, s⟩).asWrapper .VirtualMachines
  | .azInterfacesClient_CreateOrUpdate az resourceGroupName networkInterfaceName parameters cancel, s => (Mem.azInterfacesClient.CreateOrUpdate ext resourceGroupName networkInterfaceName parameters cancel ⟨az, s⟩).asWrapper .Interfaces
  | .azLoadBalancersClient_CreateOrUpdate az resourceGroupName loadBalancerName parameters cancel, s => (Mem.azLoadBalancersClient.CreateOrUpdate ext resourceGroupName loadBalancerName parameters cancel ⟨az, s⟩).asWrapper .LoadBalancers
  | .azLoadBalancersClient_Delete az resourceGroupName loadBalancerName cancel, s => (Mem.azLoadBalancersClient.Delete ext resourceGroupName loadBalancerName cancel ⟨az, s⟩).asWrapper .LoadBalancers
  | .azPublicIPAddressesClient_CreateOrUpdate az resourceGroupName publicIPAddressName parameters cancel, s => (Mem.azPublicIPAddressesClient.CreateOrUpdate ext resourceGroupName publicIPAddressName parameters cancel ⟨az, s⟩).asWrapper .PublicIPAddresses
  | .azPublicIPAddressesClient_Delete az resourceGroupName publicIPAddressName cancel, s => (Mem.azPublicIPAddressesClient.Delete ext resourceGroupName publicIPAddressName cancel ⟨az, s⟩).asWrapper .PublicIPAddresses
  | .azSubnetsClient_CreateOrUpdate az resourceGroupName virtualNetworkName subnetName subnetParameters cancel, s => (Mem.azSubnetsClient.CreateOrUpdate ext resourceGroupName virtualNetworkName subnetName subnetParameters cancel ⟨az, s⟩).asWrapper .Subnets
  | .azSubnetsClient_Delete az resourceGroupName virtualNetworkName subnetName cancel, s => (Mem.azSubnetsClient.Delete ext resourceGroupName virtualNetworkName subnetName cancel ⟨az, s⟩).asWrapper .Subnets
  | .azSecurityGroupsClient_CreateOrUpdate az resourceGroupName networkSecurityGroupName parameters cancel, s => (Mem.azSecurityGroupsClient.CreateOrUpdate ext resourceGroupName networkSecurityGroupName parameters cancel ⟨az, s⟩).asWrapper .SecurityGroups
  | .azSecurityGroupsClient_Delete az resourceGroupName networkSecurityGroupName cancel, s => (Mem.azSecurityGroupsClient.Delete ext resourceGroupName networkSecurityGroupName cancel ⟨az, s⟩).asWrapper .SecurityGroups
  | .azVirtualMachineScaleSetsClient_CreateOrUpdate az resourceGroupName VMScaleSetName parameters cancel, s => (Mem.azVirtualMachineScaleSetsClient.CreateOrUpdate ext resourceGroupName VMScaleSetName parameters cancel ⟨az, s⟩).asWrapper .VirtualMachineScaleSets
  | .azVirtualMachineScaleSetsClient_UpdateInstances az resourceGroupName VMScaleSetName VMInstanceIDs cancel, s => (Mem.azVirtualMachineScaleSetsClient.UpdateInstances ext resourceGroupName VMScaleSetName VMInstanceIDs cancel ⟨az, s⟩).asWrapper .VirtualMachineScaleSets
  | .azRoutesClient_CreateOrUpdate az resourceGroupName routeTableName routeName routeParameters cancel, s => (Mem.azRoutesClient.CreateOrUpdate ext resourceGroupName routeTableName routeName routeParameters cancel ⟨az, s⟩).asWrapper .Routes
  | .azRoutesClient_Delete az resourceGroupName routeTableName routeName cancel, s => (Mem.azRoutesClient.Delete ext resourceGroupName routeTableName routeName cancel ⟨az, s⟩).asWrapper .Routes
  | .azRouteTablesClient_CreateOrUpdate az resourceGroupName routeTableName parameters cancel, s => (Mem.azRouteTablesClient.CreateOrUpdate ext resourceGroupName routeTableName parameters cancel ⟨az, s⟩).asWrapper .RouteTables
  | .azStorageAccountClient_Create az resourceGroupName accountName parameters cancel, s => (Mem.azStorageAccountClient.Create ext resourceGroupName accountName parameters cancel ⟨az, s⟩).asWrapper .StorageAccount
  | .azDisksClient_CreateOrUpdate az resourceGroupName diskName diskParameter cancel, s => (Mem.azDisksClient.CreateOrUpdate ext resourceGroupName diskName diskParameter cancel ⟨az, s⟩).asWrapper .Disks
  | .azDisksClient_Delete az resourceGroupName diskName cancel, s => (Mem.azDisksClient.Delete ext resourceGroupName diskName cancel ⟨az, s⟩).asWrapper .Disks

/-- The wrapper struct the call is made on. -/
def Call.receiver {T : Vendor} : Call T → Wrapper T
  | .sync c => c.receiver
  | .longRunning c => c.receiver

/-- The struct the receiver points to when the wrapper method has returned. -/
def Call.receiverAfter {T : Vendor} {σ : Type} (ext : External T σ) : Call T → σ → Wrapper T
  | .sync c, s => (c.onPointer ext s).ext.self
  | .longRunning c, s => (c.onPointer ext s).ext.self

/-! ## The constructors, with the configuration in memory

Every constructor is given a pointer `config *azClientConfig` and returns a pointer
to a newly allocated wrapper. Here the struct `config` points to and the
allocator are part of the state a constructor runs in. -/

/-- An address on the heap. -/
abbrev Addr : Type := Nat

/-- A pointer: the address of a struct, and the struct stored there. -/
structure Pointer (α : Type) where
  addr : Addr
  target : α

/-- The state a constructor runs in: the struct `config` points to, and the address
the next allocation returns. -/
structure Memory (T : Vendor) where
  config : azClientConfig T
  next : Addr

/-- What a constructor does besides computing values: `NewBearerAuthorizer` allocates
an authorizer, `configureUserAgent` is called on a pointer to an autorest client
(recorded with the client it finds there), `&azXClient{...}` allocates a wrapper. -/
inductive BuildEvent (T : Vendor) where
  | NewBearerAuthorizer (tokenProvider : T.adal.ServicePrincipalToken) (addr : Addr)
  | configureUserAgent (client : autorest.Client T)
  | new (addr : Addr)

/-- Is the event a call of `configureUserAgent`. -/
def BuildEvent.isConfigureUserAgent {T : Vendor} : BuildEvent T → Bool
  | .configureUserAgent _ => true
  | _ => false

/-- What running a piece of a constructor yields: its value, the memory afterwards,
and what it did, oldest first. -/
structure Built (T : Vendor) (α : Type) where
  value : α
  memory : Memory T
  events : List (BuildEvent T)

/-- A piece of a constructor, run from a memory. -/
def Build (T : Vendor) (α : Type) : Type := Memory T → Built T α

/-- Code that does nothing and yields `a`. -/
def Build.pure {T : Vendor} {α : Type} (a : α) : Build T α :=
  fun m => ⟨a, m, []⟩

/-- Sequencing: `x`, then `f` on its value, from the memory `x` left. -/
def Build.bind {T : Vendor} {α β : Type} (x : Build T α) (f : α → Build T β) : Build T β :=
  fun m =>
    let a := x m
    let b := f a.value a.memory
    ⟨b.value, b.memory, a.events ++ b.events⟩

instance (T : Vendor) : Monad (Build T) where
  pure := Build.pure
  bind := Build.bind

/-- Reading a field of the struct `config` points to (`config.subscriptionID`, ...). -/
def Build.config {T : Vendor} {β : Type} (field : azClientConfig T → β) : Build T β :=
  fun m => ⟨field m.config, m, []⟩

/-- The composite literal `&W{...}`: the struct is stored at a new address. -/
def Build.new {T : Vendor} {α : Type} (target : α) : Build T (Pointer α) :=
  fun m => ⟨⟨m.next, target⟩, { m with next := m.next + 1 }, [BuildEvent.new m.next]⟩

/-- Modelled from the spec: `autorest.NewBearerAuthorizer` is outside the sources; it
returns a pointer to a newly allocated bearer authorizer of the token provider. -/
def Mem.NewBearerAuthorizer {T : Vendor} (tokenProvider : T.adal.ServicePrincipalToken) : Build T (autorest.Authorizer T) :=
  fun m => ⟨autorest.NewBearerAuthorizer tokenProvider, { m with next := m.next + 1 },
    [BuildEvent.NewBearerAuthorizer tokenProvider m.next]⟩

/-- Modelled from the spec: `configureUserAgent` is defined in another file of the
package; called on a pointer to an autorest client, it rewrites the user agent
stored there and touches nothing else. The value is the client it leaves there. -/
def Mem.configureUserAgentOn {T : Vendor} (d : Defaults T) (client : autorest.Client T) : Build T (autorest.Client T) :=
  fun m => ⟨configureUserAgent d client, m, [BuildEvent.configureUserAgent client]⟩

/-- The constructor `newAzVirtualMachinesClient`, run on the struct `config` points to. -/
def Mem.newAzVirtualMachinesClient {T : Vendor} (d : Defaults T) : Build T (Pointer (azVirtualMachinesClient T)) := do
  let virtualMachinesClient := compute.NewVirtualMachinesClient d (← Build.config (·.subscriptionID))
  let virtualMachinesClient := { virtualMachinesClient with BaseURI := (← Build.config (·.resourceManagerEndpoint)) }
  let virtualMachinesClient := { virtualMachinesClient with Authorizer := (← Mem.NewBearerAuthorizer (← Build.config (·.servicePrincipalToken))) }
  let virtualMachinesClient := { virtualMachinesClient with PollingDelay := 5 * time.Second }
  let virtualMachinesClient := { virtualMachinesClient with toClient := (← Mem.configureUserAgentOn d virtualMachinesClient.toClient) }
  Build.new
    { rateLimiter := (← Build.config (·.rateLimiter))
      client := virtualMachinesClient }

/-- The constructor `newAzInterfacesClient`, run on the struct `config` points to. -/
def Mem.newAzInterfacesClient {T : Vendor} (d : Defaults T) : Build T (Pointer (azInterfacesClient T)) := do
  let interfacesClient := network.NewInterfacesClient d (← Build.config (·.subscriptionID))
  let interfacesClient := { interfacesClient with BaseURI := (← Build.config (·.resourceManagerEndpoint)) }
  let interfacesClient := { interfacesClient with Authorizer := (← Mem.NewBearerAuthorizer (← Build.config (·.servicePrincipalToken))) }
  let interfacesClient := { interfacesClient with PollingDelay := 5 * time.Second }
  let interfacesClient := { interfacesClient with toClient := (← Mem.configureUserAgentOn d interfacesClient.toClient) }
  Build.new
    { rateLimiter := (← Build.config (·.rateLimiter))
      client := interfacesClient }

/-- The constructor `newAzLoadBalancersClient`, run on the struct `config` points to. -/
def Mem.newAzLoadBalancersClient {T : Vendor} (d : Defaults T) : Build T (Pointer (azLoadBalancersClient T)) := do
  let loadBalancerClient := network.NewLoadBalancersClient d (← Build.config (·.subscriptionID))
  let loadBalancerClient := { loadBalancerClient with BaseURI := (← Build.config (·.resourceManagerEndpoint)) }
  let loadBalancerClient := { loadBalancerClient with Authorizer := (← Mem.NewBearerAuthorizer (← Build.config (·.servicePrincipalToken))) }
  let loadBalancerClient := { loadBalancerClient with PollingDelay := 5 * time.Second }
  let loadBalancerClient := { loadBalancerClient with toClient := (← Mem.configureUserAgentOn d loadBalancerClient.toClient) }
  Build.new
    { rateLimiter := (← Build.config (·.rateLimiter))
      client := loadBalancerClient }

/-- The constructor `newAzPublicIPAddressesClient`, run on the struct `config` points to. -/
def Mem.newAzPublicIPAddressesClient {T : Vendor} (d : Defaults T) : Build T (Pointer (azPublicIPAddressesClient T)) := do
  let publicIPAddressClient := network.NewPublicIPAddressesClient d (← Build.config (·.subscriptionID))
  let publicIPAddressClient := { publicIPAddressClient with BaseURI := (← Build.config (·.resourceManagerEndpoint)) }
  let publicIPAddressClient := { publicIPAddressClient with Authorizer := (← Mem.NewBearerAuthorizer (← Build.config (·.servicePrincipalToken))) }
  let publicIPAddressClient := { publicIPAddressClient with PollingDelay := 5 * time.Second }
  let publicIPAddressClient := { publicIPAddressClient with toClient := (← Mem.configureUserAgentOn d publicIPAddressClient.toClient) }
  Build.new
    { rateLimiter := (← Build.config (·.rateLimiter))
      client := publicIPAddressClient }

/-- The constructor `newAzSubnetsClient`, run on the struct `config` points to. -/
def Mem.newAzSubnetsClient {T : Vendor} (d : Defaults T) : Build T (Pointer (azSubnetsClient T)) := do
  let subnetsClient := network.NewSubnetsClient d (← Build.config (·.subscriptionID))
  let subnetsClient := { subnetsClient with BaseURI := (← Build.config (·.resourceManagerEndpoint)) }
  let subnetsClient := { subnetsClient with Authorizer := (← Mem.NewBearerAuthorizer (← Build.config (·.servicePrincipalToken))) }
  let subnetsClient := { subnetsClient with PollingDelay := 5 * time.Second }
  let subnetsClient := { subnetsClient with toClient := (← Mem.configureUserAgentOn d subnetsClient.toClient) }
  Build.new
    { client := subnetsClient
      rateLimiter := (← Build.config (·.rateLimiter)) }

/-- The constructor `newAzSecurityGroupsClient`, run on the struct `config` points to. -/
def Mem.newAzSecurityGroupsClient {T : Vendor} (d : Defaults T) : Build T (Pointer (azSecurityGroupsClient T)) := do
  let securityGroupsClient := network.NewSecurityGroupsClient d (← Build.config (·.subscriptionID))
  let securityGroupsClient := { securityGroupsClient with BaseURI := (← Build.config (·.resourceManagerEndpoint)) }
  let securityGroupsClient := { securityGroupsClient with Authorizer := (← Mem.NewBearerAuthorizer (← Build.config (·.servicePrincipalToken))) }
  let securityGroupsClient := { securityGroupsClient with PollingDelay := 5 * time.Second }
  let securityGroupsClient := { securityGroupsClient with toClient := (← Mem.configureUserAgentOn d securityGroupsClient.toClient) }
  Build.new
    { rateLimiter := (← Build.config (·.rateLimiter))
      client := securityGroupsClient }

/-- The constructor `newAzVirtualMachineScaleSetsClient`, run on the struct `config` points to. -/
def Mem.newAzVirtualMachineScaleSetsClient {T : Vendor} (d : Defaults T) : Build T (Pointer (azVirtualMachineScaleSetsClient T)) := do
  let virtualMachineScaleSetsClient := compute.NewVirtualMachineScaleSetsClient d (← Build.config (·.subscriptionID))
  let virtualMachineScaleSetsClient := { virtualMachineScaleSetsClient with BaseURI := (← Build.config (·.resourceManagerEndpoint)) }
  let virtualMachineScaleSetsClient := { virtualMachineScaleSetsClient with Authorizer := (← Mem.NewBearerAuthorizer (← Build.config (·.servicePrincipalToken))) }
  let virtualMachineScaleSetsClient := { virtualMachineScaleSetsClient with PollingDelay := 5 * time.Second }
  let virtualMachineScaleSetsClient := { virtualMachineScaleSetsClient with toClient := (← Mem.configureUserAgentOn d virtualMachineScaleSetsClient.toClient) }
  Build.new
    { client := virtualMachineScaleSetsClient
      rateLimiter := (← Build.config (·.rateLimiter)) }

/-- The constructor `newAzVirtualMachineScaleSetVMsClient`, run on the struct `config` points to. -/
def Mem.newAzVirtualMachineScaleSetVMsClient {T : Vendor} (d : Defaults T) : Build T (Pointer (azVirtualMachineScaleSetVMsClient T)) := do
  let virtualMachineScaleSetVMsClient := compute.NewVirtualMachineScaleSetVMsClient d (← Build.config (·.subscriptionID))
  let virtualMachineScaleSetVMsClient := { virtualMachineScaleSetVMsClient with BaseURI := (← Build.config (·.resourceManagerEndpoint)) }
  let virtualMachineScaleSetVMsClient := { virtualMachineScaleSetVMsClient with Authorizer := (← Mem.NewBearerAuthorizer (← Build.config (·.servicePrincipalToken))) }
  let virtualMachineScaleSetVMsClient := { virtualMachineScaleSetVMsClient with PollingDelay := 5 * time.Second }
  let virtualMachineScaleSetVMsClient := { virtualMachineScaleSetVMsClient with toClient := (← Mem.configureUserAgentOn d virtualMachineScaleSetVMsClient.toClient) }
  Build.new
    { client := virtualMachineScaleSetVMsClient
      rateLimiter := (← Build.config (·.rateLimiter)) }

/-- The constructor `newAzRoutesClient`, run on the struct `config` points to. -/
def Mem.newAzRoutesClient {T : Vendor} (d : Defaults T) : Build T (Pointer (azRoutesClient T)) := do
  let routesClient := network.NewRoutesClient d (← Build.config (·.subscriptionID))
  let routesClient := { routesClient with BaseURI := (← Build.config (·.resourceManagerEndpoint)) }
  let routesClient := { routesClient with Authorizer := (← Mem.NewBearerAuthorizer (← Build.config (·.servicePrincipalToken))) }
  let routesClient := { routesClient with PollingDelay := 5 * time.Second }
  let routesClient := { routesClient with toClient := (← Mem.configureUserAgentOn d routesClient.toClient) }
  Build.new
    { client := routesClient
      rateLimiter := (← Build.config (·.rateLimiter)) }

/-- The constructor `newAzRouteTablesClient`, run on the struct `config` points to. -/
def Mem.newAzRouteTablesClient {T : Vendor} (d : Defaults T) : Build T (Pointer (azRouteTablesClient T)) := do
  let routeTablesClient := network.NewRouteTablesClient d (← Build.config (·.subscriptionID))
  let routeTablesClient := { routeTablesClient with BaseURI := (← Build.config (·.resourceManagerEndpoint)) }
  let routeTablesClient := { routeTablesClient with Authorizer := (← Mem.NewBearerAuthorizer (← Build.config (·.servicePrincipalToken))) }
  let routeTablesClient := { routeTablesClient with PollingDelay := 5 * time.Second }
  let routeTablesClient := { routeTablesClient with toClient := (← Mem.configureUserAgentOn d routeTablesClient.toClient) }
  Build.new
    { client := routeTablesClient
      rateLimiter := (← Build.config (·.rateLimiter)) }

/-- The constructor `newAzStorageAccountClient`, run on the struct `config` points to. -/
def Mem.newAzStorageAccountClient {T : Vendor} (d : Defaults T) : Build T (Pointer (azStorageAccountClient T)) := do
  let storageAccountClient := storage.NewAccountsClientWithBaseURI d (← Build.config (·.resourceManagerEndpoint)) (← Build.config (·.subscriptionID))
  let storageAccountClient := { storageAccountClient with Authorizer := (← Mem.NewBearerAuthorizer (← Build.config (·.servicePrincipalToken))) }
  let storageAccountClient := { storageAccountClient with PollingDelay := 5 * time.Second }
  let storageAccountClient := { storageAccountClient with toClient := (← Mem.configureUserAgentOn d storageAccountClient.toClient) }
  Build.new
    { client := storageAccountClient
      rateLimiter := (← Build.config (·.rateLimiter)) }

/-- The constructor `newAzDisksClient`, run on the struct `config` points to. -/
def Mem.newAzDisksClient {T : Vendor} (d : Defaults T) : Build T (Pointer (azDisksClient T)) := do
  let disksClient := disk.NewDisksClientWithBaseURI d (← Build.config (·.resourceManagerEndpoint)) (← Build.config (·.subscriptionID))
  let disksClient := { disksClient with Authorizer := (← Mem.NewBearerAuthorizer (← Build.config (·.servicePrincipalToken))) }
  let disksClient := { disksClient with PollingDelay := 5 * time.Second }
  let disksClient := { disksClient with toClient := (← Mem.configureUserAgentOn d disksClient.toClient) }
  Build.new
    { client := disksClient
      rateLimiter := (← Build.config (·.rateLimiter)) }

/-- The SDK package the constructor builds its client from. -/
def Constructor.package : Constructor → String
  | .VirtualMachines => "compute"
  | .Interfaces => "network"
  | .LoadBalancers => "network"
  | .PublicIPAddresses => "network"
  | .Subnets => "network"
  | .SecurityGroups => "network"
  | .VirtualMachineScaleSets => "compute"
  | .VirtualMachineScaleSetVMs => "compute"
  | .Routes => "network"
  | .RouteTables => "network"
  | .StorageAccount => "storage"
  | .Disks => "disk"

/-- Running the constructor on the struct `config` points to; the wrapper it
returns a pointer to is seen as a `Wrapper`. -/
def Constructor.build {T : Vendor} (d : Defaults T) : Constructor → Build T (Pointer (Wrapper T))
  | .VirtualMachines => fun m =>
    let b := Mem.newAzVirtualMachinesClient d m
    ⟨⟨b.value.addr, .VirtualMachines b.value.target⟩, b.memory, b.events⟩
  | .Interfaces => fun m =>
    let b := Mem.newAzInterfacesClient d m
    ⟨⟨b.value.addr, .Interfaces b.value.target⟩, b.memory, b.events⟩
  | .LoadBalancers => fun m =>
    let b := Mem.newAzLoadBalancersClient d m
    ⟨⟨b.value.addr, .LoadBalancers b.value.target⟩, b.memory, b.events⟩
  | .PublicIPAddresses => fun m =>
    let b := Mem.newAzPublicIPAddressesClient d m
    ⟨⟨b.value.addr, .PublicIPAddresses b.value.target⟩, b.memory, b.events⟩
  | .Subnets => fun m =>
    let b := Mem.newAzSubnetsClient d m
    ⟨⟨b.value.addr, .Subnets b.value.target⟩, b.memory, b.events⟩
  | .SecurityGroups => fun m =>
    let b := Mem.newAzSecurityGroupsClient d m
    ⟨⟨b.value.addr, .SecurityGroups b.value.target⟩, b.memory, b.events⟩
  | .VirtualMachineScaleSets => fun m =>
    let b := Mem.newAzVirtualMachineScaleSetsClient d m
    ⟨⟨b.value.addr, .VirtualMachineScaleSets b.value.target⟩, b.memory, b.events⟩
  | .VirtualMachineScaleSetVMs => fun m =>
    let b := Mem.newAzVirtualMachineScaleSetVMsClient d m
    ⟨⟨b.value.addr, .VirtualMachineScaleSetVMs b.value.target⟩, b.memory, b.events⟩
  | .Routes => fun m =>
    let b := Mem.newAzRoutesClient d m
    ⟨⟨b.value.addr, .Routes b.value.target⟩, b.memory, b.events⟩
  | .RouteTables => fun m =>
    let b := Mem.newAzRouteTablesClient d m
    ⟨⟨b.value.addr, .RouteTables b.value.target⟩, b.memory, b.events⟩
  | .StorageAccount => fun m =>
    let b := Mem.newAzStorageAccountClient d m
    ⟨⟨b.value.addr, .StorageAccount b.value.target⟩, b.memory, b.events⟩
  | .Disks => fun m =>
    let b := Mem.newAzDisksClient d m
    ⟨⟨b.value.addr, .Disks b.value.target⟩, b.memory, b.events⟩

/-- The wrapper struct the constructor builds from a configuration, by the
definitions that take the configuration as a value. -/
def Constructor.wrapper {T : Vendor} (d : Defaults T) (config : azClientConfig T) : Constructor → Wrapper T
  | .VirtualMachines => .VirtualMachines (newAzVirtualMachinesClient d config)
  | .Interfaces => .Interfaces (newAzInterfacesClient d config)
  | .LoadBalancers => .LoadBalancers (newAzLoadBalancersClient d config)
  | .PublicIPAddresses => .PublicIPAddresses (newAzPublicIPAddressesClient d config)
  | .Subnets => .Subnets (newAzSubnetsClient d config)
  | .SecurityGroups => .SecurityGroups (newAzSecurityGroupsClient d config)
  | .VirtualMachineScaleSets => .VirtualMachineScaleSets (newAzVirtualMachineScaleSetsClient d config)
  | .VirtualMachineScaleSetVMs => .VirtualMachineScaleSetVMs (newAzVirtualMachineScaleSetVMsClient d config)
  | .Routes => .Routes (newAzRoutesClient d config)
  | .RouteTables => .RouteTables (newAzRouteTablesClient d config)
  | .StorageAccount => .StorageAccount (newAzStorageAccountClient d config)
  | .Disks => .Disks (newAzDisksClient d config)

/-- Running constructors one after the other on the same `config` pointer: the
wrappers they return pointers to, in order, and the memory left. -/
def Constructor.buildAll {T : Vendor} (d : Defaults T) : List Constructor → Memory T → List (Wrapper T) × Memory T
  | [], m => ([], m)
  | k :: ks, m =>
    let b := k.build d m
    let rest := Constructor.buildAll d ks b.memory
    (b.value.target :: rest.1, rest.2)

/-! ## What wrappers share -/

/-- The claim of C13 on two wrappers, in what it says of the token: no service
principal token held by the bearer authorizer of one is held by the bearer
authorizer of the other. -/
def NoTokenShared {T : Vendor} (a b : Wrapper T) : Prop :=
  ∀ t, a.client.Authorizer = autorest.Authorizer.Bearer t → b.client.Authorizer ≠ autorest.Authorizer.Bearer t

/-! ## More of the concrete world -/

/-- The sample world with glog below verbosity 10: `glog.V(10)` is false. -/
def quietWorld : External sampleVendor Nat :=
  { sampleWorld with V := fun _ _ => false }

/-- A memory holding the sample configuration, nothing allocated yet. -/
def sampleMemory : Memory sampleVendor :=
  ⟨sampleConfig, 0⟩

/-- A call of `azVirtualMachineScaleSetsClient.List` on the wrapper built from the
sample configuration. -/
def scaleSetsListCall : Call sampleVendor :=
  Call.sync (SyncCall.azVirtualMachineScaleSetsClient_List (newAzVirtualMachineScaleSetsClient sampleDefaults sampleConfig) "rg")

/-- A call of `azVirtualMachineScaleSetVMsClient.ListNextResults` on the wrapper built
from the sample configuration. -/
def scaleSetVMsListNextCall : Call sampleVendor :=
  Call.sync (SyncCall.azVirtualMachineScaleSetVMsClient_ListNextResults (newAzVirtualMachineScaleSetVMsClient sampleDefaults sampleConfig) "page-1")

/-! ## Shape of the calls of one wrapper method -/

/-- A synchronous wrapper method makes four calls: `Accept` on its limiter, `Infof`,
one SDK method (which takes no cancel channel), `Infof`. -/
theorem sync_events_shape {T : Vendor} {σ α : Type} (ext : External T σ) (c : SyncCall T α) (s : σ) :
    ∃ v₁ f₁ a₁ client method v₂ f₂ a₂, (c.run ext s).events =
      [Event.Accept c.rateLimiter, Event.Infof v₁ f₁ a₁, Event.SDKCall client method none, Event.Infof v₂ f₂ a₂] := by
  cases c <;> exact ⟨_, _, _, _, _, _, _, _, rfl⟩

/-- A long-running wrapper method makes four calls: `Accept` on its limiter, `Infof`,
one SDK method (given the cancel channel of the caller), `Infof`. -/
theorem async_events_shape {T : Vendor} {σ α : Type} (ext : External T σ) (c : AsyncCall T α) (s : σ) :
    ∃ v₁ f₁ a₁ client method v₂ f₂ a₂, (c.run ext s).events =
      [Event.Accept c.rateLimiter, Event.Infof v₁ f₁ a₁, Event.SDKCall client method (some c.cancel), Event.Infof v₂ f₂ a₂] := by
  cases c <;> exact ⟨_, _, _, _, _, _, _, _, rfl⟩

/-- Every wrapper method makes four calls: `Accept` on its limiter, `Infof`, one SDK
method, `Infof`. -/
theorem call_events_shape {T : Vendor} {σ : Type} (ext : External T σ) (c : Call T) (s : σ) :
    ∃ v₁ f₁ a₁ client method cancel v₂ f₂ a₂, c.events ext s =
      [Event.Accept c.rateLimiter, Event.Infof v₁ f₁ a₁, Event.SDKCall client method cancel, Event.Infof v₂ f₂ a₂] := by
  cases c with
  | sync c =>
    obtain ⟨v₁, f₁, a₁, client, method, v₂, f₂, a₂, h⟩ := sync_events_shape ext c s
    exact ⟨v₁, f₁, a₁, client, method, none, v₂, f₂, a₂, h⟩
  | longRunning c =>
    obtain ⟨v₁, f₁, a₁, client, method, v₂, f₂, a₂, h⟩ := async_events_shape ext c s
    exact ⟨v₁, f₁, a₁, client, method, some c.cancel, v₂, f₂, a₂, h⟩

/-- In a list that starts with a call that is no SDK call, whatever precedes an SDK
call contains that first call. -/
theorem head_mem_of_split {T : Vendor} (a e : Event T) (rest pre post : List (Event T))
    (ha : a.isSDKCall = false) (he : e.isSDKCall = true) (h : a :: rest = pre ++ e :: post) : a ∈ pre := by
  cases pre with
  | nil =>
    simp at h
    obtain ⟨h1, _⟩ := h
    subst h1
    rw [ha] at he
    cases he
  | cons b pre =>
    simp at h
    obtain ⟨h1, _⟩ := h
    subst h1
    exact List.mem_cons_self _ _

/-! ## The definitions evaluated in the concrete world -/

/-- The sample call makes four calls: `Accept` on limiter 7, the start line, the SDK
method `Get`, the end line. -/
theorem sample_call_events :
    sampleCall.events sampleWorld 0 =
      [Event.Accept 7,
       Event.Infof ⟨true⟩ "azVirtualMachinesClient.Get(%q, %q): start" [LogArg.string "rg", LogArg.string "vm-0"],
       Event.SDKCall "compute.VirtualMachinesClient" "Get" none,
       Event.Infof ⟨true⟩ "azVirtualMachinesClient.Get(%q, %q): end" [LogArg.string "rg", LogArg.string "vm-0"]] := by
  rfl

/-- From state 0 the sample wrapper returns the failure the SDK reports in state 1
(the state the limiter leaves), and the world ends in state 2. -/
theorem sample_get_outcome :
    ((newAzVirtualMachinesClient sampleDefaults sampleConfig).Get sampleWorld "rg" "vm-0" "instanceView" 0).value
        = ("Get", some "conflict") ∧
      ((newAzVirtualMachinesClient sampleDefaults sampleConfig).Get sampleWorld "rg" "vm-0" "instanceView" 0).ext = 2 := by
  exact ⟨rfl, rfl⟩

/-- The storage-account client built from the sample configuration. -/
theorem sample_storage_client :
    (newAzStorageAccountClient sampleDefaults sampleConfig).client.BaseURI = "https://management.example.net" ∧
      (newAzStorageAccountClient sampleDefaults sampleConfig).client.SubscriptionID = "sub-1" ∧
      (newAzStorageAccountClient sampleDefaults sampleConfig).client.UserAgent
        = "Azure-SDK-For-Go arm-storage; kubernetes-cloudprovider" ∧
      (newAzStorageAccountClient sampleDefaults sampleConfig).rateLimiter = 7 := by
  exact ⟨rfl, rfl, by decide, rfl⟩

/-! ## The claims -/

/-- C1: for every synchronous wrapper method, every SDK behaviour, every receiver and
argument tuple, the pair `(result, err)` the wrapper returns is the pair the SDK
method of the same name returns on the same arguments in the same positions
(called on the held client, once the limiter has admitted the caller). -/
theorem sync_wrapper_returns_sdk_pair {T : Vendor} {σ α : Type} (ext : External T σ) (c : SyncCall T α) (s : σ) :
    (c.run ext s).value = (c.direct ext (ext.Accept c.rateLimiter s)).1 := by
  cases c <;> rfl

/-- C2: every wrapper method, whatever the SDK call returns, calls `Accept` exactly
once, and on the rate limiter of its wrapper. -/
theorem accept_exactly_once {T : Vendor} {σ : Type} (ext : External T σ) (c : Call T) (s : σ) :
    (c.events ext s).filter Event.isAccept = [Event.Accept c.rateLimiter] ∧
      (c.events ext s).countP Event.isAccept = 1 := by
  obtain ⟨v₁, f₁, a₁, client, method, cancel, v₂, f₂, a₂, h⟩ := call_events_shape ext c s
  rw [h]
  exact ⟨rfl, rfl⟩

/-- C3: in every wrapper method, whenever the sequence of calls is split at an SDK
call, the `Accept` on the wrapper's rate limiter is among the calls before it. -/
theorem sdk_call_after_accept {T : Vendor} {σ : Type} (ext : External T σ) (c : Call T) (s : σ)
    (pre post : List (Event T)) (client method : String) (cancel : Option (T.Chan Unit))
    (h : c.events ext s = pre ++ Event.SDKCall client method cancel :: post) :
    Event.Accept c.rateLimiter ∈ pre := by
  obtain ⟨v₁, f₁, a₁, client', method', cancel', v₂, f₂, a₂, hs⟩ := call_events_shape ext c s
  rw [hs] at h
  exact head_mem_of_split (Event.Accept c.rateLimiter) (Event.SDKCall client method cancel) _ pre post rfl rfl h

/-- The theorem of C3 at the sample call: split at its SDK call, the calls before
it contain the `Accept` on limiter 7. -/
theorem sdk_call_after_accept_witness :
    sampleCall.events sampleWorld 0 =
        [Event.Accept 7,
         Event.Infof ⟨true⟩ "azVirtualMachinesClient.Get(%q, %q): start" [LogArg.string "rg", LogArg.string "vm-0"]]
          ++ Event.SDKCall "compute.VirtualMachinesClient" "Get" none
            :: [Event.Infof ⟨true⟩ "azVirtualMachinesClient.Get(%q, %q): end" [LogArg.string "rg", LogArg.string "vm-0"]] ∧
      Event.Accept sampleCall.rateLimiter ∈
        [Event.Accept 7,
         Event.Infof ⟨true⟩ "azVirtualMachinesClient.Get(%q, %q): start" [LogArg.string "rg", LogArg.string "vm-0"]] :=
  ⟨rfl, sdk_call_after_accept sampleWorld sampleCall 0 _ _ _ _ _ rfl⟩

/-- C4: for every synchronous wrapper method the returned error is non-nil exactly
when the error of the SDK call is, it is that same error value, and the result
value is the one the SDK returned. -/
theorem sync_wrapper_error_verbatim {T : Vendor} {σ α : Type} (ext : External T σ) (c : SyncCall T α) (s : σ) :
    ((c.run ext s).value.2 ≠ none ↔ (c.direct ext (ext.Accept c.rateLimiter s)).1.2 ≠ none) ∧
      (c.run ext s).value.2 = (c.direct ext (ext.Accept c.rateLimiter s)).1.2 ∧
      (c.run ext s).value.1 = (c.direct ext (ext.Accept c.rateLimiter s)).1.1 := by
  cases c <;> exact ⟨Iff.rfl, rfl, rfl⟩

/-- C5: for every long-running wrapper method, the one SDK call it makes is given the
cancel channel of the caller, the pair of channels it returns is the pair that
SDK call returned, and the outside world (the channels included) is left as that
SDK call left it. -/
theorem long_running_wrapper_forwards_channels {T : Vendor} {σ α : Type} (ext : External T σ) (c : AsyncCall T α) (s : σ) :
    (∃ client method, (c.run ext s).events.filter Event.isSDKCall = [Event.SDKCall client method (some c.cancel)]) ∧
      (c.run ext s).value = (c.direct ext (ext.Accept c.rateLimiter s)).1 ∧
      (c.run ext s).ext = (c.direct ext (ext.Accept c.rateLimiter s)).2 := by
  cases c <;> exact ⟨⟨_, _, rfl⟩, rfl, rfl⟩

/-- C6: every wrapper method calls the SDK client exactly once, whatever that call
returns, and leaves the outside world as that one call left it. -/
theorem sdk_called_exactly_once {T : Vendor} {σ : Type} (ext : External T σ) (c : Call T) (s : σ) :
    (c.events ext s).countP Event.isSDKCall = 1 ∧
      c.final ext s = c.directFinal ext (ext.Accept c.rateLimiter s) := by
  refine ⟨?_, ?_⟩
  · obtain ⟨v₁, f₁, a₁, client, method, cancel, v₂, f₂, a₂, h⟩ := call_events_shape ext c s
    rw [h]
    rfl
  · cases c with
    | sync c => cases c <;> rfl
    | longRunning c => cases c <;> rfl

/-- C7: for each of the twelve constructors and every configuration, the SDK client
of the returned wrapper has the subscription ID and the resource manager
endpoint of the configuration as its subscription ID and base URI. -/
theorem constructor_subscription_and_base_uri {T : Vendor} (d : Defaults T) (config : azClientConfig T) (k : Constructor) :
    (k.client d config).SubscriptionID = config.subscriptionID ∧
      (k.client d config).BaseURI = config.resourceManagerEndpoint := by
  cases k <;> exact ⟨rfl, rfl⟩

/-- C8: for each of the twelve constructors and every configuration, the rate limiter
of the returned wrapper is the rate limiter of the configuration, so two
wrappers built from one configuration hold the same limiter. -/
theorem constructor_rate_limiter {T : Vendor} (d : Defaults T) (config : azClientConfig T) (k k₂ : Constructor) :
    k.rateLimiter d config = config.rateLimiter ∧ k.rateLimiter d config = k₂.rateLimiter d config := by
  cases k <;> cases k₂ <;> exact ⟨rfl, rfl⟩

/-- C9: for each of the twelve constructors and every configuration, the authorizer
of the SDK client of the returned wrapper is the bearer authorizer built from the
service principal token of the configuration. -/
theorem constructor_bearer_authorizer {T : Vendor} (d : Defaults T) (config : azClientConfig T) (k : Constructor) :
    (k.client d config).Authorizer = autorest.NewBearerAuthorizer config.servicePrincipalToken := by
  cases k <;> rfl

/-- C10: for each of the twelve constructors and every configuration, the polling
delay of the SDK client of the returned wrapper is five seconds. -/
theorem constructor_polling_delay {T : Vendor} (d : Defaults T) (config : azClientConfig T) (k : Constructor) :
    (k.client d config).PollingDelay = 5 * time.Second ∧ (k.client d config).PollingDelay = 5000000000 := by
  cases k <;> exact ⟨rfl, rfl⟩

/-! ## The two levels agree -/

/-- A synchronous method run on the struct its receiver points to yields the value,
the outside world and the calls of the method run on the struct as a value. -/
theorem sync_on_pointer_agrees {T : Vendor} {σ α : Type} (ext : External T σ) (c : SyncCall T α) (s : σ) :
    (c.onPointer ext s).value = (c.run ext s).value ∧
      (c.onPointer ext s).ext.outside = (c.run ext s).ext ∧
      (c.onPointer ext s).events = (c.run ext s).events := by
  cases c <;> exact ⟨rfl, rfl, rfl⟩

/-- A long-running method run on the struct its receiver points to yields the value,
the outside world and the calls of the method run on the struct as a value. -/
theorem async_on_pointer_agrees {T : Vendor} {σ α : Type} (ext : External T σ) (c : AsyncCall T α) (s : σ) :
    (c.onPointer ext s).value = (c.run ext s).value ∧
      (c.onPointer ext s).ext.outside = (c.run ext s).ext ∧
      (c.onPointer ext s).events = (c.run ext s).events := by
  cases c <;> exact ⟨rfl, rfl, rfl⟩

/-- What a constructor run on the struct `config` points to does: it allocates the
authorizer, calls `configureUserAgent` on the autorest client of the SDK client
it has built so far, and allocates the wrapper; the wrapper is the one the
constructor on values builds, and the configuration is as it was. -/
theorem build_shape {T : Vendor} (d : Defaults T) (m : Memory T) (k : Constructor) :
    (k.build d m).events =
        [BuildEvent.NewBearerAuthorizer m.config.servicePrincipalToken m.next,
         BuildEvent.configureUserAgent
           { d.NewClientWithUserAgent k.package with
             Authorizer := autorest.NewBearerAuthorizer m.config.servicePrincipalToken
             PollingDelay := 5 * time.Second },
         BuildEvent.new (m.next + 1)] ∧
      (k.build d m).value = ⟨m.next + 1, k.wrapper d m.config⟩ ∧
      (k.build d m).memory = ⟨m.config, m.next + 2⟩ := by
  cases k <;> exact ⟨rfl, rfl, rfl⟩

/-- Constructors run one after the other on the same `config` pointer build the
wrappers the constructors on values build from the configuration, and leave the
configuration as it was. -/
theorem build_all_shape {T : Vendor} (d : Defaults T) (ks : List Constructor) (m : Memory T) :
    (Constructor.buildAll d ks m).1 = ks.map (fun k => k.wrapper d m.config) ∧
      (Constructor.buildAll d ks m).2 = ⟨m.config, m.next + 2 * ks.length⟩ := by
  induction ks generalizing m with
  | nil => exact ⟨rfl, rfl⟩
  | cons k ks ih =>
    obtain ⟨_, hv, hm⟩ := build_shape d m k
    obtain ⟨h₁, h₂⟩ := ih (k.build d m).memory
    simp only [Constructor.buildAll, List.map_cons, List.length_cons]
    rw [h₁, h₂, hv, hm]
    refine ⟨rfl, ?_⟩
    have e : ∀ a n : Nat, a + 2 + 2 * n = a + 2 * (n + 1) := by
      intro a n
      omega
    exact congrArg (Memory.mk m.config) (e m.next ks.length)

/-- What the wrapper a constructor builds holds: the rate limiter of the
configuration, and an SDK client made of the bearer authorizer of the token of
the configuration, the polling delay of five seconds, the subscription ID and
the endpoint of the configuration, and the user agent (rewritten by
`configureUserAgent`) and the untouched fields of the client the SDK builds for
the package. -/
theorem wrapper_contents {T : Vendor} (d : Defaults T) (config : azClientConfig T) (k : Constructor) :
    (k.wrapper d config).rateLimiter = config.rateLimiter ∧
      (k.wrapper d config).client =
        { toClient :=
            { Authorizer := autorest.NewBearerAuthorizer config.servicePrincipalToken
              PollingDelay := 5 * time.Second
              UserAgent := d.userAgent (d.NewClientWithUserAgent k.package).UserAgent
              rest := (d.NewClientWithUserAgent k.package).rest }
          BaseURI := config.resourceManagerEndpoint
          SubscriptionID := config.subscriptionID } := by
  cases k <;> exact ⟨rfl, rfl⟩

/-- The calls of a wrapper method in full: `Accept` on its limiter, `Infof` of the
start line on `glog.V(10)` as it is once the limiter has admitted the caller, the
SDK call, `Infof` of the end line on `glog.V(10)` as it is once the SDK call has
returned; the two lines have the same arguments and differ in the last word. -/
theorem call_trace {T : Vendor} {σ : Type} (ext : External T σ) (c : Call T) (s : σ) :
    ∃ stem args client method cancel, c.events ext s =
      [Event.Accept c.rateLimiter,
       Event.Infof ⟨ext.V 10 (ext.Accept c.rateLimiter s)⟩ (stem ++ "start") args,
       Event.SDKCall client method cancel,
       Event.Infof ⟨ext.V 10 (c.final ext s)⟩ (stem ++ "end") args] := by
  refine ⟨dropEnd 5 (((traceLines (c.events ext s)).headD ("", [])).1),
    ((traceLines (c.events ext s)).headD ("", [])).2, ?_⟩
  cases c with
  | sync c => cases c <;> exact ⟨_, _, _, rfl⟩
  | longRunning c => cases c <;> exact ⟨_, _, _, rfl⟩


/-- An `Infof` whose format ends in a word logs that word. -/
theorem logs_own_word {T : Vendor} (v : glog.Verbose) (stem word : String) (args : List (LogArg T)) :
    (Event.Infof v (stem ++ word) args).logs word = true := by
  simp [Event.logs, List.isSuffixOf_iff_suffix]

/-- A start line is no end line. -/
theorem end_not_logged_by_start {T : Vendor} (v : glog.Verbose) (stem : String) (args : List (LogArg T)) :
    (Event.Infof v (stem ++ "start") args).logs "end" = false := by
  simp [Event.logs, List.isSuffixOf]
  rfl

/-- An end line is no start line. -/
theorem start_not_logged_by_end {T : Vendor} (v : glog.Verbose) (stem : String) (args : List (LogArg T)) :
    (Event.Infof v (stem ++ "end") args).logs "start" = false := by
  simp [Event.logs, List.isSuffixOf]
  rfl

/-! ## More evaluations in the concrete world -/

/-- Below verbosity 10 the sample call still makes its four calls, both `Infof` on a
disabled `glog.Verbose`. -/
theorem quiet_call_events :
    sampleCall.events quietWorld 0 =
      [Event.Accept 7,
       Event.Infof ⟨false⟩ "azVirtualMachinesClient.Get(%q, %q): start" [LogArg.string "rg", LogArg.string "vm-0"],
       Event.SDKCall "compute.VirtualMachinesClient" "Get" none,
       Event.Infof ⟨false⟩ "azVirtualMachinesClient.Get(%q, %q): end" [LogArg.string "rg", LogArg.string "vm-0"]] := by
  rfl

/-- Building the virtual machines wrapper and then the interfaces wrapper from the
sample memory: the two wrapper structs are at addresses 1 and 3, and both hold
limiter 7 and the bearer authorizer of token 41. -/
theorem sample_builds :
    (Constructor.VirtualMachines.build sampleDefaults sampleMemory).value.addr = 1 ∧
      (Constructor.Interfaces.build sampleDefaults
          (Constructor.VirtualMachines.build sampleDefaults sampleMemory).memory).value.addr = 3 ∧
      (Constructor.VirtualMachines.build sampleDefaults sampleMemory).value.target.rateLimiter = 7 ∧
      (Constructor.Interfaces.build sampleDefaults
          (Constructor.VirtualMachines.build sampleDefaults sampleMemory).memory).value.target.rateLimiter = 7 ∧
      (Constructor.VirtualMachines.build sampleDefaults sampleMemory).value.target.client.Authorizer =
        autorest.Authorizer.Bearer 41 ∧
      (Constructor.Interfaces.build sampleDefaults
          (Constructor.VirtualMachines.build sampleDefaults sampleMemory).memory).value.target.client.Authorizer =
        autorest.Authorizer.Bearer 41 := by
  exact ⟨rfl, rfl, rfl, rfl, rfl, rfl⟩

/-- Every method other than `azVirtualMachineScaleSetsClient.List` and
`azVirtualMachineScaleSetVMsClient.ListNextResults` gives both of its `Infof` calls as
many arguments as their format has `%q` verbs. -/
theorem verbs_match_arguments_elsewhere {T : Vendor} {σ : Type} (ext : External T σ) (c : Call T) (s : σ)
    (h : (c.receiverType, c.methodName) ≠ ("azVirtualMachineScaleSetsClient", "List") ∧
      (c.receiverType, c.methodName) ≠ ("azVirtualMachineScaleSetVMsClient", "ListNextResults")) :
    ∃ n, (c.events ext s).filterMap Event.verbsAndArguments = [(n, n), (n, n)] := by
  cases c with
  | sync c => cases c <;> first | exact ⟨_, rfl⟩ | exact absurd rfl h.1 | exact absurd rfl h.2
  | longRunning c => cases c <;> exact ⟨_, rfl⟩

/-! ## The claims, continued -/

/-- C11: every constructor leaves the struct its `config` argument points to as it
was (all four fields), and constructors run one after the other on the same
configuration, in whatever order, each build the wrapper they build when run
alone, and leave the configuration as it was. -/
theorem constructor_leaves_config_unchanged {T : Vendor} (d : Defaults T) (m : Memory T) (k : Constructor)
    (ks : List Constructor) :
    (k.build d m).memory.config = m.config ∧
      (k.build d m).memory.config.subscriptionID = m.config.subscriptionID ∧
      (k.build d m).memory.config.resourceManagerEndpoint = m.config.resourceManagerEndpoint ∧
      (k.build d m).memory.config.servicePrincipalToken = m.config.servicePrincipalToken ∧
      (k.build d m).memory.config.rateLimiter = m.config.rateLimiter ∧
      (Constructor.buildAll d ks m).1 = ks.map (fun k₂ => (k₂.build d m).value.target) ∧
      (Constructor.buildAll d ks m).2.config = m.config := by
  obtain ⟨_, _, hm⟩ := build_shape d m k
  obtain ⟨h₁, h₂⟩ := build_all_shape d ks m
  rw [hm, h₁, h₂]
  refine ⟨rfl, rfl, rfl, rfl, rfl, ?_, rfl⟩
  apply List.map_congr_left
  intro k₂ _
  rw [(build_shape d m k₂).2.1]

/-- C12: every method of every wrapper leaves the struct its receiver points to as it
was: the same SDK client value and the same rate limiter reference. -/
theorem method_leaves_receiver_unchanged {T : Vendor} {σ : Type} (ext : External T σ) (c : Call T) (s : σ) :
    c.receiverAfter ext s = c.receiver ∧
      (c.receiverAfter ext s).client = c.receiver.client ∧
      (c.receiverAfter ext s).rateLimiter = c.receiver.rateLimiter := by
  have h : c.receiverAfter ext s = c.receiver := by
    cases c with
    | sync c => cases c <;> rfl
    | longRunning c => cases c <;> rfl
  rw [h]
  exact ⟨rfl, rfl, rfl⟩

/-- C13, as stated, fails: the virtual machines wrapper and the interfaces wrapper
built one after the other from the sample configuration both hold token 41 in
their bearer authorizers. -/
theorem token_shared_between_wrappers :
    ¬ NoTokenShared (Constructor.VirtualMachines.build sampleDefaults sampleMemory).value.target
        (Constructor.Interfaces.build sampleDefaults
          (Constructor.VirtualMachines.build sampleDefaults sampleMemory).memory).value.target := by
  intro h
  exact h 41 rfl rfl

/-- C13, amended: of two wrappers built one after the other from the same
configuration, both hold the rate limiter of the configuration and both SDK
clients have the bearer authorizer of the service principal token of the
configuration, so the limiter and the token are shared; the two wrapper structs
are at different addresses; and each SDK client, stored in its wrapper by
value, consists besides the authorizer of the subscription ID and the endpoint
of the configuration, the polling delay of five seconds, and the user agent and
the untouched fields of the client the SDK builds for the package. -/
theorem wrappers_share_limiter_and_token {T : Vendor} (d : Defaults T) (m : Memory T) (k₁ k₂ : Constructor) :
    (k₁.build d m).value.target.rateLimiter = m.config.rateLimiter ∧
      (k₂.build d (k₁.build d m).memory).value.target.rateLimiter = m.config.rateLimiter ∧
      (k₁.build d m).value.target.client.Authorizer =
        autorest.NewBearerAuthorizer m.config.servicePrincipalToken ∧
      (k₂.build d (k₁.build d m).memory).value.target.client.Authorizer =
        autorest.NewBearerAuthorizer m.config.servicePrincipalToken ∧
      (k₁.build d m).value.addr ≠ (k₂.build d (k₁.build d m).memory).value.addr ∧
      (k₁.build d m).value.target.client =
        { toClient :=
            { Authorizer := autorest.NewBearerAuthorizer m.config.servicePrincipalToken
              PollingDelay := 5 * time.Second
              UserAgent := d.userAgent (d.NewClientWithUserAgent k₁.package).UserAgent
              rest := (d.NewClientWithUserAgent k₁.package).rest }
          BaseURI := m.config.resourceManagerEndpoint
          SubscriptionID := m.config.subscriptionID } ∧
      (k₂.build d (k₁.build d m).memory).value.target.client =
        { toClient :=
            { Authorizer := autorest.NewBearerAuthorizer m.config.servicePrincipalToken
              PollingDelay := 5 * time.Second
              UserAgent := d.userAgent (d.NewClientWithUserAgent k₂.package).UserAgent
              rest := (d.NewClientWithUserAgent k₂.package).rest }
          BaseURI := m.config.resourceManagerEndpoint
          SubscriptionID := m.config.subscriptionID } := by
  obtain ⟨_, hv₁, hm⟩ := build_shape d m k₁
  obtain ⟨_, hv₂, _⟩ := build_shape d (k₁.build d m).memory k₂
  obtain ⟨hr₁, hc₁⟩ := wrapper_contents d m.config k₁
  obtain ⟨hr₂, hc₂⟩ := wrapper_contents d m.config k₂
  have e : ∀ a : Nat, a + 1 ≠ a + 2 + 1 := by
    intro a
    omega
  rw [hv₂, hm, hv₁]
  refine ⟨hr₁, hr₂, ?_, ?_, e m.next, hc₁, hc₂⟩
  · show (k₁.wrapper d m.config).client.Authorizer = _
    rw [hc₁]
  · show (k₂.wrapper d m.config).client.Authorizer = _
    rw [hc₂]

/-- C14: each wrapper type implements the interface its comment names: every method
of the interface is filled by the wrapper method of the same name, whose
parameter and result types are those the interface declares. -/
theorem wrappers_implement_interfaces {T : Vendor} {σ : Type} (ext : External T σ) :
    (∀ az : azVirtualMachinesClient T, ∃ client : VirtualMachinesClient T σ,
        client.CreateOrUpdate = az.CreateOrUpdate ext ∧
        client.Get = az.Get ext ∧
        client.List = az.List ext ∧
        client.ListNextResults = az.ListNextResults ext) ∧
    (∀ az : azInterfacesClient T, ∃ client : InterfacesClient T σ,
        client.CreateOrUpdate = az.CreateOrUpdate ext ∧
        client.Get = az.Get ext ∧
        client.GetVirtualMachineScaleSetNetworkInterface = az.GetVirtualMachineScaleSetNetworkInterface ext) ∧
    (∀ az : azLoadBalancersClient T, ∃ client : LoadBalancersClient T σ,
        client.CreateOrUpdate = az.CreateOrUpdate ext ∧
        client.Delete = az.Delete ext ∧
        client.Get = az.Get ext ∧
        client.List = az.List ext ∧
        client.ListNextResults = az.ListNextResults ext) ∧
    (∀ az : azPublicIPAddressesClient T, ∃ client : PublicIPAddressesClient T σ,
        client.CreateOrUpdate = az.CreateOrUpdate ext ∧
        client.Delete = az.Delete ext ∧
        client.Get = az.Get ext ∧
        client.List = az.List ext ∧
        client.ListNextResults = az.ListNextResults ext) ∧
    (∀ az : azSubnetsClient T, ∃ client : SubnetsClient T σ,
        client.CreateOrUpdate = az.CreateOrUpdate ext ∧
        client.Delete = az.Delete ext ∧
        client.Get = az.Get ext ∧
        client.List = az.List ext) ∧
    (∀ az : azSecurityGroupsClient T, ∃ client : SecurityGroupsClient T σ,
        client.CreateOrUpdate = az.CreateOrUpdate ext ∧
        client.Delete = az.Delete ext ∧
        client.Get = az.Get ext ∧
        client.List = az.List ext) ∧
    (∀ az : azVirtualMachineScaleSetsClient T, ∃ client : VirtualMachineScaleSetsClient T σ,
        client.CreateOrUpdate = az.CreateOrUpdate ext ∧
        client.Get = az.Get ext ∧
        client.List = az.List ext ∧
        client.ListNextResults = az.ListNextResults ext ∧
        client.UpdateInstances = az.UpdateInstances ext) ∧
    (∀ az : azVirtualMachineScaleSetVMsClient T, ∃ client : VirtualMachineScaleSetVMsClient T σ,
        client.Get = az.Get ext ∧
        client.GetInstanceView = az.GetInstanceView ext ∧
        client.List = az.List ext ∧
        client.ListNextResults = az.ListNextResults ext) ∧
    (∀ az : azRoutesClient T, ∃ client : RoutesClient T σ,
        client.CreateOrUpdate = az.CreateOrUpdate ext ∧
        client.Delete = az.Delete ext) ∧
    (∀ az : azRouteTablesClient T, ∃ client : RouteTablesClient T σ,
        client.CreateOrUpdate = az.CreateOrUpdate ext ∧
        client.Get = az.Get ext) ∧
    (∀ az : azStorageAccountClient T, ∃ client : StorageAccountClient T σ,
        client.Create = az.Create ext ∧
        client.Delete = az.Delete ext ∧
        client.ListKeys = az.ListKeys ext ∧
        client.ListByResourceGroup = az.ListByResourceGroup ext ∧
        client.GetProperties = az.GetProperties ext) ∧
    (∀ az : azDisksClient T, ∃ client : DisksClient T σ,
        client.CreateOrUpdate = az.CreateOrUpdate ext ∧
        client.Delete = az.Delete ext ∧
        client.Get = az.Get ext) :=
  ⟨fun az => ⟨az.asVirtualMachinesClient ext, rfl, rfl, rfl, rfl⟩,
   fun az => ⟨az.asInterfacesClient ext, rfl, rfl, rfl⟩,
   fun az => ⟨az.asLoadBalancersClient ext, rfl, rfl, rfl, rfl, rfl⟩,
   fun az => ⟨az.asPublicIPAddressesClient ext, rfl, rfl, rfl, rfl, rfl⟩,
   fun az => ⟨az.asSubnetsClient ext, rfl, rfl, rfl, rfl⟩,
   fun az => ⟨az.asSecurityGroupsClient ext, rfl, rfl, rfl, rfl⟩,
   fun az => ⟨az.asVirtualMachineScaleSetsClient ext, rfl, rfl, rfl, rfl, rfl⟩,
   fun az => ⟨az.asVirtualMachineScaleSetVMsClient ext, rfl, rfl, rfl, rfl⟩,
   fun az => ⟨az.asRoutesClient ext, rfl, rfl⟩,
   fun az => ⟨az.asRouteTablesClient ext, rfl, rfl⟩,
   fun az => ⟨az.asStorageAccountClient ext, rfl, rfl, rfl, rfl, rfl⟩,
   fun az => ⟨az.asDisksClient ext, rfl, rfl, rfl⟩⟩

/-- C15, as stated, fails: below verbosity 10 what can be observed of the sample call
is not `Accept`, start line, SDK call, end line (it is `Accept`, SDK call). -/
theorem trace_lines_absent_below_verbosity_10 :
    ¬ ObservedExactly sampleCall.rateLimiter (sampleCall.events quietWorld 0) := by
  rintro ⟨v₁, f₁, a₁, client, method, cancel, v₂, f₂, a₂, h⟩
  have e : (sampleCall.events quietWorld 0).filter Event.observable =
      [Event.Accept 7, Event.SDKCall "compute.VirtualMachinesClient" "Get" none] := rfl
  rw [e] at h
  simp at h

/-- C15, amended: in every wrapper method the calls of one invocation are exactly
`Accept`, `Infof` of the start line on `glog.V(10)`, the SDK call, `Infof` of the
end line on `glog.V(10)`, so the two `Infof` calls bracket the SDK call; what can
be observed is `Accept`, the start line if verbosity 10 is enabled once the
limiter has admitted the caller, the SDK call, the end line if verbosity 10 is
enabled once the SDK call has returned. -/
theorem trace_statements_bracket_sdk_call {T : Vendor} {σ : Type} (ext : External T σ) (c : Call T) (s : σ) :
    ∃ stem args client method cancel,
      c.events ext s =
        [Event.Accept c.rateLimiter,
         Event.Infof ⟨ext.V 10 (ext.Accept c.rateLimiter s)⟩ (stem ++ "start") args,
         Event.SDKCall client method cancel,
         Event.Infof ⟨ext.V 10 (c.final ext s)⟩ (stem ++ "end") args] ∧
      (c.events ext s).filter Event.observable =
        Event.Accept c.rateLimiter ::
          ((if ext.V 10 (ext.Accept c.rateLimiter s) = true then [Event.Infof ⟨true⟩ (stem ++ "start") args] else []) ++
            Event.SDKCall client method cancel ::
              (if ext.V 10 (c.final ext s) = true then [Event.Infof ⟨true⟩ (stem ++ "end") args] else [])) := by
  obtain ⟨stem, args, client, method, cancel, h⟩ := call_trace ext c s
  refine ⟨stem, args, client, method, cancel, h, ?_⟩
  rw [h]
  cases ext.V 10 (ext.Accept c.rateLimiter s) <;> cases ext.V 10 (c.final ext s) <;> rfl

/-- C16: each of the twelve constructors calls `configureUserAgent` exactly once, on
the autorest client of the SDK client it has built so far (fresh from the SDK,
with the bearer authorizer and the polling delay set), before it allocates the
wrapper it returns, and the SDK client in that wrapper holds the autorest client
`configureUserAgent` left. -/
theorem constructor_configures_user_agent_once {T : Vendor} (d : Defaults T) (m : Memory T) (k : Constructor) :
    ∃ before : autorest.Client T,
      before = { d.NewClientWithUserAgent k.package with
                 Authorizer := autorest.NewBearerAuthorizer m.config.servicePrincipalToken
                 PollingDelay := 5 * time.Second } ∧
      (k.build d m).events.filter BuildEvent.isConfigureUserAgent = [BuildEvent.configureUserAgent before] ∧
      (∃ earlier, (k.build d m).events =
        earlier ++ [BuildEvent.configureUserAgent before, BuildEvent.new (k.build d m).value.addr]) ∧
      (k.build d m).value.target.client.toClient = configureUserAgent d before := by
  obtain ⟨he, hv, _⟩ := build_shape d m k
  refine ⟨_, rfl, ?_, ⟨[BuildEvent.NewBearerAuthorizer m.config.servicePrincipalToken m.next], ?_⟩, ?_⟩
  · rw [he]
    rfl
  · rw [he, hv]
    rfl
  · rw [hv]
    cases k <;> rfl

/-- C17 at its failing inputs: both `Infof` calls of `azVirtualMachineScaleSetsClient.List`
have two `%q` verbs and one argument, both of
`azVirtualMachineScaleSetVMsClient.ListNextResults` have three verbs and one argument. -/
theorem trace_format_verbs_exceed_arguments :
    (scaleSetsListCall.events sampleWorld 0).filterMap Event.verbsAndArguments = [(2, 1), (2, 1)] ∧
      (scaleSetVMsListNextCall.events sampleWorld 0).filterMap Event.verbsAndArguments = [(3, 1), (3, 1)] := by
  exact ⟨rfl, rfl⟩

/-- C18: for every wrapper method and argument tuple the trace lines are the same
whatever the outside world does and returns, and they are two lines with the
same arguments whose formats differ only in the last word, `start` and `end`. -/
theorem trace_lines_depend_on_arguments_only {T : Vendor} (c : Call T) :
    (∀ (σ₁ σ₂ : Type) (ext₁ : External T σ₁) (ext₂ : External T σ₂) (s₁ : σ₁) (s₂ : σ₂),
        traceLines (c.events ext₁ s₁) = traceLines (c.events ext₂ s₂)) ∧
      (∀ (σ : Type) (ext : External T σ) (s : σ), ∃ stem args,
        traceLines (c.events ext s) = [(stem ++ "start", args), (stem ++ "end", args)]) := by
  constructor
  · intro σ₁ σ₂ ext₁ ext₂ s₁ s₂
    cases c with
    | sync c => cases c <;> rfl
    | longRunning c => cases c <;> rfl
  · intro σ ext s
    obtain ⟨stem, args, client, method, cancel, h⟩ := call_trace ext c s
    exact ⟨stem, args, by rw [h]; rfl⟩

/-- C19: for every wrapper method both trace lines begin with the wrapper type and
the method name the method is declared with, followed by an opening bracket. -/
theorem trace_lines_name_wrapper_method {T : Vendor} {σ : Type} (ext : External T σ) (c : Call T) (s : σ) :
    ∃ rest₁ rest₂ args₁ args₂, traceLines (c.events ext s) =
      [(c.receiverType ++ "." ++ c.methodName ++ "(" ++ rest₁, args₁),
       (c.receiverType ++ "." ++ c.methodName ++ "(" ++ rest₂, args₂)] := by
  refine ⟨dropStart (c.receiverType ++ "." ++ c.methodName ++ "(").length
      (((traceLines (c.events ext s)).headD ("", [])).1),
    dropStart (c.receiverType ++ "." ++ c.methodName ++ "(").length
      (((traceLines (c.events ext s)).getLastD ("", [])).1), ?_⟩
  cases c with
  | sync c => cases c <;> exact ⟨_, _, rfl⟩
  | longRunning c => cases c <;> exact ⟨_, _, rfl⟩

/-- C20, as stated, fails: below verbosity 10 the sample call writes no end line. -/
theorem end_line_absent_below_verbosity_10 :
    ¬ ((sampleCall.events quietWorld 0).countP (Event.writes "end") = 1) := by
  decide

/-- C20, amended: on every return path, whatever the SDK call returns, `Infof` of the
end line is called exactly once, as the last call of the method, and `Infof` of
the start line exactly once; the end line is written once if verbosity 10 is
enabled when the SDK call has returned and not at all otherwise, and likewise
the start line, by the verbosity once the limiter has admitted the caller. -/
theorem end_trace_statement_exactly_once {T : Vendor} {σ : Type} (ext : External T σ) (c : Call T) (s : σ) :
    (c.events ext s).countP (Event.logs "end") = 1 ∧
      (c.events ext s).countP (Event.logs "start") = 1 ∧
      ((c.events ext s).getLast?.map (Event.logs "end")) = some true ∧
      (c.events ext s).countP (Event.writes "end") = (if ext.V 10 (c.final ext s) = true then 1 else 0) ∧
      (c.events ext s).countP (Event.writes "start") =
        (if ext.V 10 (ext.Accept c.rateLimiter s) = true then 1 else 0) := by
  obtain ⟨stem, args, client, method, cancel, h⟩ := call_trace ext c s
  rw [h]
  have e₁ : ∀ v, (Event.Infof v (stem ++ "end") args : Event T).logs "end" = true :=
    fun v => logs_own_word v stem "end" args
  have e₂ : ∀ v, (Event.Infof v (stem ++ "start") args : Event T).logs "end" = false :=
    fun v => end_not_logged_by_start v stem args
  have e₃ : ∀ v, (Event.Infof v (stem ++ "start") args : Event T).logs "start" = true :=
    fun v => logs_own_word v stem "start" args
  have e₄ : ∀ v, (Event.Infof v (stem ++ "end") args : Event T).logs "start" = false :=
    fun v => start_not_logged_by_end v stem args
  have ha : ∀ w, (Event.Accept c.rateLimiter : Event T).logs w = false := fun _ => rfl
  have hs : ∀ w, (Event.SDKCall client method cancel : Event T).logs w = false := fun _ => rfl
  refine ⟨?_, ?_, ?_, ?_, ?_⟩
  · simp [List.countP_cons, ha, hs, e₁, e₂]
  · simp [List.countP_cons, ha, hs, e₃, e₄]
  · simp [e₁]
  · cases ext.V 10 (c.final ext s) <;>
      simp [List.countP_cons, Event.writes, Event.observable, ha, hs, e₁, e₂]
  · cases ext.V 10 (ext.Accept c.rateLimiter s) <;>
      simp [List.countP_cons, Event.writes, Event.observable, ha, hs, e₃, e₄]
